import Mathlib

/-!
# Device routing and session arbitration in `AudioHardwareALSA.cpp`

A shallow embedding of `AudioHardwareALSA::doRouting`, `openOutputStream`,
`openOutputSession` and `openInputStream`, followed by theorems about them.

Conventions of the embedding:

* device masks, sizes and handles are natural numbers; the 32-bit complement `~x`
  of the source is `bitNot 32 x`, and `(uint32_t)` casts are `% 2 ^ 32`;
* constants and names that the source takes from headers (`AudioSystem`,
  `AudioHardwareALSA.h`, the ALSA use-case header) are fields of `Platform`;
* the object's members are the fields of `AudioHardwareALSA`; every call that
  leaves the file (driver transport, use-case sequencer) is appended to `calls`;
* what those calls return is an argument of the embedded function
  (`use_case` for `snd_use_case_get`, `openErr` for `mALSADevice->open`, ...);
* the source follows an iterator that points at no list element in two ways.
  Lines 307 and 319 read `it->devices` through `--end()` of a list that may be
  empty and branch on the value: the embedded function has no result there
  (`Fault.emptyListRead`). Lines 407, 458 and 466 only hand `&(*it)` to the
  transport: the call is recorded with the target `HandleRef.erased` or
  `HandleRef.pastEnd`, and the list and the flags go on as the code sets them;
* `LOG_NDEBUG` is 0 (line 29), so the `LOGV` statements are compiled in: the one of
  line 620 reads `*channels` and `*sampleRate` before anything else in
  `openInputStream`, and the embedded function has no result for a null pointer
  (`Fault.nullPointerRead`).
-/

namespace AlsaSound

/-! ## Constants declared outside the source file -/

/-- Constants and names used by `AudioHardwareALSA.cpp` and declared in headers. -/
structure Platform where
  DEVICE_OUT_EARPIECE : Nat
  DEVICE_OUT_SPEAKER : Nat
  DEVICE_OUT_WIRED_HEADSET : Nat
  DEVICE_OUT_WIRED_HEADPHONE : Nat
  DEVICE_OUT_BLUETOOTH_SCO : Nat
  DEVICE_OUT_BLUETOOTH_SCO_HEADSET : Nat
  DEVICE_OUT_FM : Nat
  DEVICE_OUT_ANC_HEADSET : Nat
  DEVICE_OUT_ANC_HEADPHONE : Nat
  DEVICE_IN_BUILTIN_MIC : Nat
  DEVICE_IN_BLUETOOTH_SCO_HEADSET : Nat
  DEVICE_IN_WIRED_HEADSET : Nat
  DEVICE_IN_VOICE_CALL : Nat
  DEVICE_IN_BACK_MIC : Nat
  DEVICE_IN_ANC_HEADSET : Nat
  DEVICE_IN_FM_RX : Nat
  DEVICE_IN_FM_RX_A2DP : Nat
  DEVICE_IN_DEFAULT : Nat
  MODE_NORMAL : Int
  MODE_IN_CALL : Int
  NO_ERROR : Int
  BAD_VALUE : Int
  /-- Width in bits of `unsigned long` and `size_t`. -/
  wordBits : Nat
  DEFAULT_BUFFER_SIZE : Nat
  FM_BUFFER_SIZE : Nat
  DEFAULT_IN_BUFFER_SIZE : Nat
  SNDRV_PCM_FORMAT_S16_LE : Int
  DEFAULT_CHANNEL_MODE : Nat
  VOICE_CHANNEL_MODE : Nat
  DEFAULT_SAMPLING_RATE : Nat
  VOICE_SAMPLING_RATE : Nat
  /-- The constant `AudioRecord::DEFAULT_SAMPLE_RATE`. -/
  RECORD_DEFAULT_SAMPLE_RATE : Nat
  PLAYBACK_LATENCY : Nat
  VOICE_LATENCY : Nat
  RECORD_LATENCY : Nat
  SND_USE_CASE_VERB_INACTIVE : String
  SND_USE_CASE_VERB_HIFI : String
  SND_USE_CASE_VERB_HIFI_LOW_POWER : String
  SND_USE_CASE_VERB_VOICECALL : String
  SND_USE_CASE_VERB_DIGITAL_RADIO : String
  SND_USE_CASE_VERB_FM_REC : String
  SND_USE_CASE_VERB_HIFI_REC : String
  SND_USE_CASE_MOD_PLAY_MUSIC : String
  SND_USE_CASE_MOD_PLAY_LPA : String
  SND_USE_CASE_MOD_PLAY_VOICE : String
  SND_USE_CASE_MOD_PLAY_FM : String
  SND_USE_CASE_MOD_CAPTURE_VOICE : String
  SND_USE_CASE_MOD_CAPTURE_FM : String
  SND_USE_CASE_MOD_CAPTURE_MUSIC : String

/-- One assignment of the constants: every device constant is a single bit of a
32-bit word, no two of them the same, and the names are pairwise different. -/
def samplePlatform : Platform where
  DEVICE_OUT_EARPIECE := 0x1
  DEVICE_OUT_SPEAKER := 0x2
  DEVICE_OUT_WIRED_HEADSET := 0x4
  DEVICE_OUT_WIRED_HEADPHONE := 0x8
  DEVICE_OUT_BLUETOOTH_SCO := 0x10
  DEVICE_OUT_BLUETOOTH_SCO_HEADSET := 0x20
  DEVICE_OUT_FM := 0x800
  DEVICE_OUT_ANC_HEADSET := 0x1000
  DEVICE_OUT_ANC_HEADPHONE := 0x2000
  DEVICE_IN_BUILTIN_MIC := 0x40000
  DEVICE_IN_BLUETOOTH_SCO_HEADSET := 0x80000
  DEVICE_IN_WIRED_HEADSET := 0x100000
  DEVICE_IN_VOICE_CALL := 0x400000
  DEVICE_IN_BACK_MIC := 0x800000
  DEVICE_IN_ANC_HEADSET := 0x1000000
  DEVICE_IN_FM_RX := 0x2000000
  DEVICE_IN_FM_RX_A2DP := 0x4000000
  DEVICE_IN_DEFAULT := 0x80000000
  MODE_NORMAL := 0
  MODE_IN_CALL := 2
  NO_ERROR := 0
  BAD_VALUE := -22
  wordBits := 32
  DEFAULT_BUFFER_SIZE := 5000
  FM_BUFFER_SIZE := 1024
  DEFAULT_IN_BUFFER_SIZE := 320
  SNDRV_PCM_FORMAT_S16_LE := 2
  DEFAULT_CHANNEL_MODE := 2
  VOICE_CHANNEL_MODE := 1
  DEFAULT_SAMPLING_RATE := 48000
  VOICE_SAMPLING_RATE := 8000
  RECORD_DEFAULT_SAMPLE_RATE := 8000
  PLAYBACK_LATENCY := 24000
  VOICE_LATENCY := 85333
  RECORD_LATENCY := 96000
  SND_USE_CASE_VERB_INACTIVE := "Inactive"
  SND_USE_CASE_VERB_HIFI := "HiFi"
  SND_USE_CASE_VERB_HIFI_LOW_POWER := "HiFi Low Power"
  SND_USE_CASE_VERB_VOICECALL := "Voice Call"
  SND_USE_CASE_VERB_DIGITAL_RADIO := "FM Digital Radio"
  SND_USE_CASE_VERB_FM_REC := "FM REC"
  SND_USE_CASE_VERB_HIFI_REC := "HiFi Rec"
  SND_USE_CASE_MOD_PLAY_MUSIC := "Play Music"
  SND_USE_CASE_MOD_PLAY_LPA := "Play LPA"
  SND_USE_CASE_MOD_PLAY_VOICE := "Play Voice"
  SND_USE_CASE_MOD_PLAY_FM := "Play FM"
  SND_USE_CASE_MOD_CAPTURE_VOICE := "Capture Voice"
  SND_USE_CASE_MOD_CAPTURE_FM := "Capture FM"
  SND_USE_CASE_MOD_CAPTURE_MUSIC := "Capture Music"

/-! ## Machine arithmetic -/

/-- The complement `~x` of a `w`-bit unsigned word. -/
def bitNot (w x : Nat) : Nat := (2 ^ w - 1) ^^^ x

/-- The loop `for (size_t b = 1; (bufferSize & ~b) != 0; b <<= 1) bufferSize &= ~b;`
of lines 374-375, 426-427, 492-493, 561-562 and 629-630, on `w`-bit words.
The first argument bounds how often the loop condition is evaluated; the result
is `none` when that bound is reached before the condition fails. -/
def bufferSizeLoop (w : Nat) : Nat → Nat → Nat → Option Nat
  | 0, _, _ => none
  | fuel + 1, b, bufferSize =>
    if bufferSize &&& bitNot w b ≠ 0 then
      bufferSizeLoop w fuel ((b <<< 1) % 2 ^ w) (bufferSize &&& bitNot w b)
    else
      some bufferSize

/-- `unsigned long bufferSize = SIZE;` followed by the rounding loop, started at
`b = 1`, with `w + 1` evaluations of the loop condition allowed. -/
def roundBufferSize (w size : Nat) : Option Nat :=
  bufferSizeLoop w (w + 1) (1 % 2 ^ w) (size % 2 ^ w)

/-! ## Data model -/

/-- The values of `mTtyMode`. -/
inductive TtyMode
  | TTY_OFF
  | TTY_FULL
  | TTY_HCO
  | TTY_VCO
  deriving DecidableEq, Repr

/-- The record `alsa_handle_t`, one per session. The fields `module` and `ucMgr`
always hold the instance's `mALSADevice` and `mUcMgr` and are left out. -/
structure alsa_handle_t where
  bufferSize : Nat
  devices : Nat
  handle : Nat
  format : Int
  channels : Nat
  sampleRate : Nat
  latency : Nat
  recHandle : Nat
  useCase : String
  deriving DecidableEq, Repr

/-- What a `&(*it)` handed to the driver transport points at. -/
inductive HandleRef
  /-- An element of `mDeviceList`, with its contents at the time of the call. -/
  | node (h : alsa_handle_t)
  /-- The element that `mDeviceList.erase(it)` has just removed. -/
  | erased (h : alsa_handle_t)
  /-- The position reached by `it--` from `end()` of an empty list. -/
  | pastEnd
  deriving DecidableEq, Repr

/-- A call that leaves the file: to the use-case sequencer (`snd_use_case_*`)
or to the driver transport (`mALSADevice->...`). -/
inductive Call
  | getVerb
  | setVerb (name : String)
  | setModifier (name : String)
  | route (target : HandleRef) (devices : Nat) (mode : Int) (tty : TtyMode)
  | startVoiceCall (target : HandleRef)
  | startFm (target : HandleRef)
  | openPcm (target : HandleRef)
  | closePcm (target : HandleRef)
  | setBtscoRate (rate : Int)
  deriving DecidableEq, Repr

/-- The members of the `AudioHardwareALSA` object that the routing code reads or
writes, and the calls it has made so far. `mIsVoiceCallActive` and `mIsFmActive`
only ever hold 0 or 1 and are compared with 0 and 1: they are booleans here. -/
structure AudioHardwareALSA where
  mDeviceList : List alsa_handle_t
  mMode : Int
  mIsVoiceCallActive : Bool
  mIsFmActive : Bool
  mDmicActive : Bool
  mAncActive : Bool
  mBluetoothVGS : Bool
  mTtyMode : TtyMode
  calls : List Call
  deriving DecidableEq, Repr

/-- The members as the constructor leaves them (lines 71-76), with the session
list empty and the mode `mode`. -/
def initial (mode : Int) : AudioHardwareALSA where
  mDeviceList := []
  mMode := mode
  mIsVoiceCallActive := false
  mIsFmActive := false
  mDmicActive := false
  mAncActive := false
  mBluetoothVGS := false
  mTtyMode := TtyMode.TTY_OFF
  calls := []

/-- Why an embedded function has no result. -/
inductive Fault
  /-- The code read `it->devices` after `it--` from `end()` of an empty list. -/
  | emptyListRead
  /-- The buffer-size loop did not end within its bound. -/
  | loopBound
  /-- The code read `*channels` or `*sampleRate` through a null pointer. -/
  | nullPointerRead
  deriving DecidableEq, Repr

/-- The result of an embedded function: a value, or the reason there is none. -/
inductive Outcome (α : Type)
  | ok (a : α)
  | fault (f : Fault)
  deriving DecidableEq, Repr

/-! ## `doRouting`, lines 286-468 -/

/-- Lines 290-292: the request names a voice-call or FM capture device. -/
def isCaptureRequest (p : Platform) (device : Nat) : Bool :=
  device == p.DEVICE_IN_VOICE_CALL || device == p.DEVICE_IN_FM_RX ||
    device == p.DEVICE_IN_FM_RX_A2DP

/-- How lines 296-324 leave `device`. -/
inductive AncResult
  /-- Control reaches line 325 with this value of `device`. -/
  | device (d : Nat)
  /-- The `return` of line 313. -/
  | ignored
  /-- Lines 305-307 or 317-319 ran on an empty list. -/
  | emptyList
  deriving DecidableEq, Repr

/-- Lines 296-324: the ANC substitution. -/
def ancSubstitute (p : Platform) (mAncActive : Bool) (mDeviceList : List alsa_handle_t)
    (device : Nat) : AncResult :=
  if mAncActive = true then
    if device &&& p.DEVICE_OUT_WIRED_HEADSET ≠ 0 then
      AncResult.device
        ((device &&& bitNot 32 p.DEVICE_OUT_WIRED_HEADSET) ||| p.DEVICE_OUT_ANC_HEADSET)
    else if device &&& p.DEVICE_IN_WIRED_HEADSET ≠ 0 then
      AncResult.device
        ((device &&& bitNot 32 p.DEVICE_IN_WIRED_HEADSET) ||| p.DEVICE_IN_ANC_HEADSET)
    else if device = 0 then
      match mDeviceList.getLast? with
      | none => AncResult.emptyList
      | some it =>
        if it.devices &&& p.DEVICE_OUT_WIRED_HEADSET ≠ 0 then
          AncResult.device p.DEVICE_OUT_ANC_HEADSET
        else if it.devices &&& p.DEVICE_IN_WIRED_HEADSET ≠ 0 then
          AncResult.device p.DEVICE_IN_ANC_HEADSET
        else
          AncResult.ignored
    else
      AncResult.device device
  else if mAncActive = false ∧ device = 0 then
    match mDeviceList.getLast? with
    | none => AncResult.emptyList
    | some it =>
      if it.devices &&& p.DEVICE_OUT_ANC_HEADSET ≠ 0 then
        AncResult.device p.DEVICE_OUT_WIRED_HEADSET
      else if it.devices &&& p.DEVICE_IN_ANC_HEADSET ≠ 0 then
        AncResult.device p.DEVICE_IN_WIRED_HEADSET
      else
        AncResult.device device
  else
    AncResult.device device

/-- Lines 325-353: the in-call expansion of `device`. -/
def inCallSymmetry (p : Platform) (newMode : Int) (device : Nat) : Nat :=
  if newMode = p.MODE_IN_CALL then
    if device &&& p.DEVICE_OUT_WIRED_HEADSET ≠ 0 ∨
        device &&& p.DEVICE_IN_WIRED_HEADSET ≠ 0 then
      device ||| (p.DEVICE_OUT_WIRED_HEADSET ||| p.DEVICE_IN_WIRED_HEADSET)
    else if device &&& p.DEVICE_OUT_WIRED_HEADPHONE ≠ 0 then
      device ||| (p.DEVICE_OUT_WIRED_HEADPHONE ||| p.DEVICE_IN_BUILTIN_MIC)
    else if device &&& p.DEVICE_OUT_EARPIECE ≠ 0 ∨
        device &&& p.DEVICE_IN_BUILTIN_MIC ≠ 0 then
      device ||| (p.DEVICE_IN_BUILTIN_MIC ||| p.DEVICE_OUT_EARPIECE)
    else if device &&& p.DEVICE_OUT_SPEAKER ≠ 0 then
      device ||| (p.DEVICE_IN_DEFAULT ||| p.DEVICE_OUT_SPEAKER)
    else if device &&& p.DEVICE_OUT_BLUETOOTH_SCO ≠ 0 ∨
        device &&& p.DEVICE_OUT_BLUETOOTH_SCO_HEADSET ≠ 0 ∨
        device &&& p.DEVICE_IN_BLUETOOTH_SCO_HEADSET ≠ 0 then
      device ||| (p.DEVICE_IN_BLUETOOTH_SCO_HEADSET ||| p.DEVICE_OUT_BLUETOOTH_SCO)
    else if device &&& p.DEVICE_OUT_ANC_HEADSET ≠ 0 ∨
        device &&& p.DEVICE_IN_ANC_HEADSET ≠ 0 then
      device ||| (p.DEVICE_OUT_ANC_HEADSET ||| p.DEVICE_IN_ANC_HEADSET)
    else if device &&& p.DEVICE_OUT_ANC_HEADPHONE ≠ 0 then
      device ||| (p.DEVICE_OUT_ANC_HEADPHONE ||| p.DEVICE_IN_BUILTIN_MIC)
    else
      device
  else
    device

/-- Lines 354-358: the dual-mic adjustment of `device`. -/
def dualMic (p : Platform) (mDmicActive : Bool) (device : Nat) : Nat :=
  if device &&& p.DEVICE_IN_BUILTIN_MIC ≠ 0 ∧ mDmicActive = true then
    device ||| p.DEVICE_IN_BACK_MIC
  else if device &&& p.DEVICE_IN_BACK_MIC ≠ 0 ∧ mDmicActive = false then
    device &&& bitNot 32 p.DEVICE_IN_BACK_MIC
  else
    device

/-- The probe of lines 367, 419, 508 and 577 on the result of
`snd_use_case_get(mUcMgr, "_verb", ...)`: no verb, or the inactive one. -/
def verbInactive (p : Platform) (use_case : Option String) : Bool :=
  use_case == none || use_case == some p.SND_USE_CASE_VERB_INACTIVE

/-- The test of lines 402-403 on a list element. -/
def isVoiceUseCase (p : Platform) (h : alsa_handle_t) : Bool :=
  h.useCase == p.SND_USE_CASE_VERB_VOICECALL || h.useCase == p.SND_USE_CASE_MOD_PLAY_VOICE

/-- The test of lines 454-455 on a list element. -/
def isFmUseCase (p : Platform) (h : alsa_handle_t) : Bool :=
  h.useCase == p.SND_USE_CASE_VERB_DIGITAL_RADIO || h.useCase == p.SND_USE_CASE_MOD_PLAY_FM

/-- The loops of lines 400-410 and 452-461 on the list: walk from `begin()`, stop
at the first element that passes the test and erase it. The result is that element
and the list without it, or `none` when the loop reaches `end()`. -/
def eraseFirst (test : alsa_handle_t → Bool) :
    List alsa_handle_t → Option (alsa_handle_t × List alsa_handle_t)
  | [] => none
  | h :: t =>
    if test h then some (h, t)
    else
      match eraseFirst test t with
      | some (x, rest) => some (x, h :: rest)
      | none => none

/-- The target of a route call made through `it = mDeviceList.end(); it--`. -/
def lastRef (mDeviceList : List alsa_handle_t) : HandleRef :=
  match mDeviceList.getLast? with
  | some h => HandleRef.node h
  | none => HandleRef.pastEnd

/-- Lines 363-385: the handle of a voice call. -/
def voiceHandle (p : Platform) (use_case : Option String) (bufferSize device : Nat) :
    alsa_handle_t where
  bufferSize := bufferSize
  devices := device
  handle := 0
  format := p.SNDRV_PCM_FORMAT_S16_LE
  channels := p.VOICE_CHANNEL_MODE
  sampleRate := p.VOICE_SAMPLING_RATE
  latency := p.VOICE_LATENCY
  recHandle := 0
  useCase :=
    if verbInactive p use_case then p.SND_USE_CASE_VERB_VOICECALL
    else p.SND_USE_CASE_MOD_PLAY_VOICE

/-- Lines 414-437: the handle of an FM session. -/
def fmHandle (p : Platform) (use_case : Option String) (bufferSize device : Nat) :
    alsa_handle_t where
  bufferSize := bufferSize
  devices := device
  handle := 0
  format := p.SNDRV_PCM_FORMAT_S16_LE
  channels := p.DEFAULT_CHANNEL_MODE
  sampleRate := p.DEFAULT_SAMPLING_RATE
  latency := p.VOICE_LATENCY
  recHandle := 0
  useCase :=
    if verbInactive p use_case then p.SND_USE_CASE_VERB_DIGITAL_RADIO
    else p.SND_USE_CASE_MOD_PLAY_FM

/-- Lines 361-467: the branch on mode, flags and the adjusted `device`.
`use_case` is what `snd_use_case_get` returns if it is called. -/
def routeBranch (p : Platform) (use_case : Option String) (device : Nat)
    (s : AudioHardwareALSA) : Outcome AudioHardwareALSA :=
  let newMode := s.mMode
  if newMode = p.MODE_IN_CALL ∧ s.mIsVoiceCallActive = false then
    match roundBufferSize p.wordBits p.DEFAULT_BUFFER_SIZE with
    | none => Outcome.fault Fault.loopBound
    | some bufferSize =>
      let alsa_handle := voiceHandle p use_case bufferSize device
      Outcome.ok { s with
        mIsVoiceCallActive := true
        mDeviceList := s.mDeviceList ++ [alsa_handle]
        calls := s.calls ++
          [Call.getVerb,
           Call.route (HandleRef.node alsa_handle) (device % 2 ^ 32) newMode s.mTtyMode,
           if alsa_handle.useCase = p.SND_USE_CASE_VERB_VOICECALL then
             Call.setVerb p.SND_USE_CASE_VERB_VOICECALL
           else Call.setModifier p.SND_USE_CASE_MOD_PLAY_VOICE,
           Call.startVoiceCall (HandleRef.node alsa_handle)] }
  else if newMode = p.MODE_NORMAL ∧ s.mIsVoiceCallActive = true then
    match eraseFirst (isVoiceUseCase p) s.mDeviceList with
    | some (it, rest) =>
      Outcome.ok { s with
        mIsVoiceCallActive := false
        mDeviceList := rest
        calls := s.calls ++
          [Call.closePcm (HandleRef.node it),
           Call.route (HandleRef.erased it) (device % 2 ^ 32) newMode s.mTtyMode] }
    | none => Outcome.ok { s with mIsVoiceCallActive := false }
  else if device &&& p.DEVICE_OUT_FM ≠ 0 ∧ s.mIsFmActive = false then
    match roundBufferSize p.wordBits p.FM_BUFFER_SIZE with
    | none => Outcome.fault Fault.loopBound
    | some bufferSize =>
      let alsa_handle := fmHandle p use_case bufferSize device
      Outcome.ok { s with
        mIsFmActive := true
        mDeviceList := s.mDeviceList ++ [alsa_handle]
        calls := s.calls ++
          [Call.getVerb,
           Call.route (HandleRef.node alsa_handle) (device % 2 ^ 32) newMode s.mTtyMode,
           if alsa_handle.useCase = p.SND_USE_CASE_VERB_DIGITAL_RADIO then
             Call.setVerb p.SND_USE_CASE_VERB_DIGITAL_RADIO
           else Call.setModifier p.SND_USE_CASE_MOD_PLAY_FM,
           Call.startFm (HandleRef.node alsa_handle)] }
  else if ¬ (device &&& p.DEVICE_OUT_FM ≠ 0) ∧ s.mIsFmActive = true then
    match eraseFirst (isFmUseCase p) s.mDeviceList with
    | some (it, rest) =>
      Outcome.ok { s with
        mIsFmActive := false
        mDeviceList := rest
        calls := s.calls ++
          [Call.closePcm (HandleRef.node it),
           Call.route (HandleRef.erased it) (device % 2 ^ 32) newMode s.mTtyMode] }
    | none => Outcome.ok { s with mIsFmActive := false }
  else
    Outcome.ok { s with
      calls := s.calls ++
        [Call.route (lastRef s.mDeviceList) (device % 2 ^ 32) newMode s.mTtyMode] }

/-- The function `AudioHardwareALSA::doRouting(int device)`, lines 286-468. -/
def doRouting (p : Platform) (use_case : Option String) (device : Nat)
    (s : AudioHardwareALSA) : Outcome AudioHardwareALSA :=
  if isCaptureRequest p device then Outcome.ok s
  else
    match ancSubstitute p s.mAncActive s.mDeviceList device with
    | AncResult.ignored => Outcome.ok s
    | AncResult.emptyList => Outcome.fault Fault.emptyListRead
    | AncResult.device d =>
      routeBranch p use_case (dualMic p s.mDmicActive (inCallSymmetry p s.mMode d)) s

/-! ## The stream-open functions, lines 470-696 -/

/-- What a stream-open function hands back. `stream` is the handle that the
returned stream object wraps, `none` for a null pointer; `status` is the value
stored through the `status` pointer, `none` when nothing is stored. -/
structure OpenResult where
  stream : Option alsa_handle_t
  status : Option Int
  state : AudioHardwareALSA
  deriving DecidableEq, Repr

/-- The statement `if (status) *status = err;`. -/
def storeStatus (hasStatus : Bool) (err : Int) : Option Int :=
  if hasStatus then some err else none

/-- The test `devices & (devices - 1)` of lines 483, 552 and 621 on a `uint32_t`. -/
def badDevices (devices : Nat) : Bool :=
  devices &&& ((devices + 2 ^ 32 - 1) % 2 ^ 32) != 0

/-- Lines 495-513: the handle of a playback stream. -/
def outputHandle (p : Platform) (use_case : Option String) (bufferSize devices : Nat) :
    alsa_handle_t where
  bufferSize := bufferSize
  devices := devices
  handle := 0
  format := p.SNDRV_PCM_FORMAT_S16_LE
  channels := p.DEFAULT_CHANNEL_MODE
  sampleRate := p.DEFAULT_SAMPLING_RATE
  latency := p.PLAYBACK_LATENCY
  recHandle := 0
  useCase :=
    if verbInactive p use_case then p.SND_USE_CASE_VERB_HIFI
    else p.SND_USE_CASE_MOD_PLAY_MUSIC

/-- The function `AudioHardwareALSA::openOutputStream`, lines 470-534. `openErr` is
what `mALSADevice->open` returns and `setErr` what `out->set` returns. The pointers
`channels` and `sampleRate`, which the `LOGV` of lines 477-478 reads through, are
taken to be valid; the function makes no other use of them than to pass them on to
`out->set`. -/
def openOutputStream (p : Platform) (use_case : Option String) (openErr setErr : Int)
    (devices : Nat) (hasStatus : Bool) (s : AudioHardwareALSA) : Outcome OpenResult :=
  if badDevices devices then
    Outcome.ok { stream := none, status := storeStatus hasStatus p.BAD_VALUE, state := s }
  else
    match roundBufferSize p.wordBits p.DEFAULT_BUFFER_SIZE with
    | none => Outcome.fault Fault.loopBound
    | some bufferSize =>
      let alsa_handle := outputHandle p use_case bufferSize devices
      let s1 : AudioHardwareALSA := { s with
        mDeviceList := s.mDeviceList ++ [alsa_handle]
        calls := s.calls ++
          [Call.getVerb,
           Call.route (HandleRef.node alsa_handle) devices s.mMode s.mTtyMode,
           if alsa_handle.useCase = p.SND_USE_CASE_VERB_HIFI then
             Call.setVerb p.SND_USE_CASE_VERB_HIFI
           else Call.setModifier p.SND_USE_CASE_MOD_PLAY_MUSIC,
           Call.openPcm (HandleRef.node alsa_handle)] }
      if openErr ≠ 0 then
        Outcome.ok { stream := none, status := storeStatus hasStatus openErr, state := s1 }
      else
        Outcome.ok { stream := some alsa_handle, status := storeStatus hasStatus setErr,
                     state := s1 }

/-- Lines 564-581: the handle of a low-power playback session. -/
def sessionHandle (p : Platform) (use_case : Option String) (bufferSize devices : Nat) :
    alsa_handle_t where
  bufferSize := bufferSize
  devices := devices
  handle := 0
  format := p.SNDRV_PCM_FORMAT_S16_LE
  channels := p.DEFAULT_CHANNEL_MODE
  sampleRate := p.DEFAULT_SAMPLING_RATE
  latency := p.VOICE_LATENCY
  recHandle := 0
  useCase :=
    if verbInactive p use_case then p.SND_USE_CASE_VERB_HIFI_LOW_POWER
    else p.SND_USE_CASE_MOD_PLAY_LPA

/-- The function `AudioHardwareALSA::openOutputSession`, lines 542-598. -/
def openOutputSession (p : Platform) (use_case : Option String) (openErr : Int)
    (devices : Nat) (hasStatus : Bool) (s : AudioHardwareALSA) : Outcome OpenResult :=
  if badDevices devices then
    Outcome.ok { stream := none, status := storeStatus hasStatus p.BAD_VALUE, state := s }
  else
    match roundBufferSize p.wordBits p.DEFAULT_BUFFER_SIZE with
    | none => Outcome.fault Fault.loopBound
    | some bufferSize =>
      let alsa_handle := sessionHandle p use_case bufferSize devices
      let s1 : AudioHardwareALSA := { s with
        mDeviceList := s.mDeviceList ++ [alsa_handle]
        calls := s.calls ++
          [Call.getVerb,
           Call.route (HandleRef.node alsa_handle) devices s.mMode s.mTtyMode,
           if alsa_handle.useCase = p.SND_USE_CASE_VERB_HIFI_LOW_POWER then
             Call.setVerb p.SND_USE_CASE_VERB_HIFI_LOW_POWER
           else Call.setModifier p.SND_USE_CASE_MOD_PLAY_LPA,
           Call.openPcm (HandleRef.node alsa_handle)] }
      Outcome.ok { stream := some alsa_handle, status := storeStatus hasStatus openErr,
                   state := s1 }

/-- Lines 643-665: the use case of a capture stream; `none` is the `return 0` of
line 658. -/
def inputUseCase (p : Platform) (use_case : Option String) (newMode : Int) (devices : Nat) :
    Option String :=
  if ¬ (verbInactive p use_case = true) then
    if devices = p.DEVICE_IN_VOICE_CALL ∧ newMode = p.MODE_IN_CALL then
      some p.SND_USE_CASE_MOD_CAPTURE_VOICE
    else if devices = p.DEVICE_IN_FM_RX ∨ devices = p.DEVICE_IN_FM_RX_A2DP then
      some p.SND_USE_CASE_MOD_CAPTURE_FM
    else
      some p.SND_USE_CASE_MOD_CAPTURE_MUSIC
  else
    if devices = p.DEVICE_IN_VOICE_CALL ∧ newMode = p.MODE_IN_CALL then
      none
    else if devices = p.DEVICE_IN_FM_RX ∨ devices = p.DEVICE_IN_FM_RX_A2DP then
      some p.SND_USE_CASE_VERB_FM_REC
    else
      some p.SND_USE_CASE_VERB_HIFI_REC

/-- Lines 632-641: the handle of a capture stream, before lines 680-685. -/
def inputHandle (p : Platform) (useCase : String) (bufferSize devices : Nat) :
    alsa_handle_t where
  bufferSize := bufferSize
  devices := devices
  handle := 0
  format := p.SNDRV_PCM_FORMAT_S16_LE
  channels := p.VOICE_CHANNEL_MODE
  sampleRate := p.RECORD_DEFAULT_SAMPLE_RATE
  latency := p.RECORD_LATENCY
  recHandle := 0
  useCase := useCase

/-- The function `AudioHardwareALSA::openInputStream`, lines 606-696. `sampleRate` is
`*sampleRate` and `channelCount` is `AudioSystem::popCount(*channels)`, each `none`
when the pointer is null. The `LOGV` of line 620 reads through both pointers before
the device test, so a null pointer ends the call there; the tests of lines 680 and
683 come later. -/
def openInputStream (p : Platform) (use_case : Option String) (openErr setErr : Int)
    (devices : Nat) (sampleRate channelCount : Option Nat) (hasStatus : Bool)
    (s : AudioHardwareALSA) : Outcome OpenResult :=
  let newMode := s.mMode
  if channelCount.isNone || sampleRate.isNone then
    Outcome.fault Fault.nullPointerRead
  else if badDevices devices then
    Outcome.ok { stream := none, status := storeStatus hasStatus p.BAD_VALUE, state := s }
  else
    match roundBufferSize p.wordBits p.DEFAULT_IN_BUFFER_SIZE with
    | none => Outcome.fault Fault.loopBound
    | some bufferSize =>
      match inputUseCase p use_case newMode devices with
      | none =>
        Outcome.ok { stream := none, status := none,
                     state := { s with calls := s.calls ++ [Call.getVerb] } }
      | some useCase =>
        let alsa_handle := inputHandle p useCase bufferSize devices
        let routed :=
          if devices &&& p.DEVICE_IN_BUILTIN_MIC ≠ 0 ∧ s.mDmicActive = true then
            devices ||| p.DEVICE_IN_BACK_MIC
          else devices
        let it : alsa_handle_t := { alsa_handle with
          sampleRate := sampleRate.getD alsa_handle.sampleRate
          channels := channelCount.getD alsa_handle.channels }
        let s1 : AudioHardwareALSA := { s with
          mDeviceList := s.mDeviceList ++ [it]
          calls := s.calls ++
            [Call.getVerb,
             Call.route (HandleRef.node alsa_handle) routed s.mMode s.mTtyMode,
             if alsa_handle.useCase = p.SND_USE_CASE_VERB_HIFI_REC ∨
                 alsa_handle.useCase = p.SND_USE_CASE_VERB_FM_REC then
               Call.setVerb alsa_handle.useCase
             else Call.setModifier alsa_handle.useCase,
             Call.openPcm (HandleRef.node it)] }
        if openErr ≠ 0 then
          Outcome.ok { stream := none, status := storeStatus hasStatus openErr, state := s1 }
        else
          Outcome.ok { stream := some it, status := storeStatus hasStatus setErr, state := s1 }

/-! ## `setParameters`, lines 176-256 -/

/-- Chaining of two steps: the second runs on the result of the first, and a step
without a result ends the chain. -/
def Outcome.bind {α β : Type} (o : Outcome α) (f : α → Outcome β) : Outcome β :=
  match o with
  | Outcome.ok a => f a
  | Outcome.fault e => Outcome.fault e

/-- The `AudioParameter` that line 178 builds from the key-value string: for each key
that the function looks up its value, `none` when `get` or `getInt` does not return
`NO_ERROR` for it, and the number of further entries. The fields stand for the keys
`TTY_MODE_KEY`, `DUALMIC_KEY`, `ANC_KEY`, `AudioParameter::keyRouting`,
`BT_SAMPLERATE_KEY` and `BTHEADSET_VGS`. -/
structure AudioParameter where
  ttyMode : Option String
  dualMic : Option String
  anc : Option String
  routing : Option Nat
  btRate : Option Int
  vgs : Option String
  others : Nat
  deriving DecidableEq, Repr

/-- The value of `param.size()` at line 252: the routing and sample-rate entries have
been removed (lines 234 and 240), every other entry is still there. -/
def AudioParameter.size (param : AudioParameter) : Nat :=
  (if param.ttyMode.isSome then 1 else 0) + (if param.dualMic.isSome then 1 else 0) +
    (if param.anc.isSome then 1 else 0) + (if param.vgs.isSome then 1 else 0) + param.others

/-- Lines 188-196: the TTY mode that a value of the TTY key selects. -/
def ttyModeOf (value : String) : TtyMode :=
  if value = "full" then TtyMode.TTY_FULL
  else if value = "hco" then TtyMode.TTY_HCO
  else if value = "vco" then TtyMode.TTY_VCO
  else TtyMode.TTY_OFF

/-- Lines 204-255 of `setParameters`: the keys after the TTY key. `use_case k` is what
`snd_use_case_get` returns if the `doRouting` call made for key number `k` asks for
the verb (0 the TTY key, 1 dual-mic, 2 ANC, 3 routing). -/
def setParametersRest (p : Platform) (use_case : Nat → Option String)
    (param : AudioParameter) (s : AudioHardwareALSA) : Outcome (Int × AudioHardwareALSA) :=
  (match param.dualMic with
    | some value => doRouting p (use_case 1) 0 { s with mDmicActive := value == "true" }
    | none => Outcome.ok s).bind fun s1 =>
  (match param.anc with
    | some value => doRouting p (use_case 2) 0 { s1 with mAncActive := value == "true" }
    | none => Outcome.ok s1).bind fun s2 =>
  (match param.routing with
    | some device => if device ≠ 0 then doRouting p (use_case 3) device s2 else Outcome.ok s2
    | none => Outcome.ok s2).bind fun s3 =>
  let s4 : AudioHardwareALSA :=
    match param.btRate with
    | some btRate => { s3 with calls := s3.calls ++ [Call.setBtscoRate btRate] }
    | none => s3
  let s5 : AudioHardwareALSA :=
    match param.vgs with
    | some value => { s4 with mBluetoothVGS := value == "on" }
    | none => s4
  Outcome.ok (if param.size ≠ 0 then p.BAD_VALUE else p.NO_ERROR, s5)

/-- The function `AudioHardwareALSA::setParameters`, lines 176-256: the returned status
and the object after the call. -/
def setParameters (p : Platform) (use_case : Nat → Option String)
    (param : AudioParameter) (s : AudioHardwareALSA) : Outcome (Int × AudioHardwareALSA) :=
  match param.ttyMode with
  | some value =>
    let s1 : AudioHardwareALSA := { s with mTtyMode := ttyModeOf value }
    if s1.mMode ≠ p.MODE_IN_CALL then Outcome.ok (p.NO_ERROR, s1)
    else (doRouting p (use_case 0) 0 s1).bind (setParametersRest p use_case param)
  | none => setParametersRest p use_case param s

/-- A request without any entry. -/
def noParameters : AudioParameter where
  ttyMode := none
  dualMic := none
  anc := none
  routing := none
  btRate := none
  vgs := none
  others := 0

/-! ## The in-call expansion as a rule table -/

/-- A rule of the in-call expansion as the specification lists it (section 4.1,
`applyInCallSymmetry`): the device constants whose presence in the mask makes the
rule match (the constants tested at lines 326-349), and the input+output pair that
the rule adds. -/
structure SymmetryRule where
  triggers : List Nat
  pair : Nat

/-- A rule matches a mask that has a bit of one of the rule's triggers. -/
def SymmetryRule.fires (r : SymmetryRule) (mask : Nat) : Bool :=
  r.triggers.any (fun c => mask &&& c != 0)

/-- The seven rules in the specification's priority order: wired-headset pair,
wired headphone + built-in mic, earpiece/built-in-mic pair, speaker + default input,
Bluetooth SCO pair, ANC-headset pair, ANC headphone + built-in mic. -/
def inCallRules (p : Platform) : List SymmetryRule :=
  [ { triggers := [p.DEVICE_OUT_WIRED_HEADSET, p.DEVICE_IN_WIRED_HEADSET]
      pair := p.DEVICE_OUT_WIRED_HEADSET ||| p.DEVICE_IN_WIRED_HEADSET },
    { triggers := [p.DEVICE_OUT_WIRED_HEADPHONE]
      pair := p.DEVICE_OUT_WIRED_HEADPHONE ||| p.DEVICE_IN_BUILTIN_MIC },
    { triggers := [p.DEVICE_OUT_EARPIECE, p.DEVICE_IN_BUILTIN_MIC]
      pair := p.DEVICE_IN_BUILTIN_MIC ||| p.DEVICE_OUT_EARPIECE },
    { triggers := [p.DEVICE_OUT_SPEAKER]
      pair := p.DEVICE_IN_DEFAULT ||| p.DEVICE_OUT_SPEAKER },
    { triggers := [p.DEVICE_OUT_BLUETOOTH_SCO, p.DEVICE_OUT_BLUETOOTH_SCO_HEADSET,
        p.DEVICE_IN_BLUETOOTH_SCO_HEADSET]
      pair := p.DEVICE_IN_BLUETOOTH_SCO_HEADSET ||| p.DEVICE_OUT_BLUETOOTH_SCO },
    { triggers := [p.DEVICE_OUT_ANC_HEADSET, p.DEVICE_IN_ANC_HEADSET]
      pair := p.DEVICE_OUT_ANC_HEADSET ||| p.DEVICE_IN_ANC_HEADSET },
    { triggers := [p.DEVICE_OUT_ANC_HEADPHONE]
      pair := p.DEVICE_OUT_ANC_HEADPHONE ||| p.DEVICE_IN_BUILTIN_MIC } ]

/-- The in-call expansion in the words of the specification: in mode `MODE_IN_CALL`
the mask is OR-ed with the pair of the first rule that matches, and with nothing
else; it is unchanged when no rule matches or in any other mode. -/
def applyInCallSymmetry (p : Platform) (mode : Int) (mask : Nat) : Nat :=
  if mode = p.MODE_IN_CALL then
    match (inCallRules p).find? (fun r => r.fires mask) with
    | some r => mask ||| r.pair
    | none => mask
  else
    mask

/-! ## Notions used in the statements -/

/-- The test for a regular playback session: the use case is one of the two names
that `openOutputStream` stores at lines 508-512. -/
def isPlaybackUseCase (p : Platform) (h : alsa_handle_t) : Bool :=
  h.useCase == p.SND_USE_CASE_VERB_HIFI || h.useCase == p.SND_USE_CASE_MOD_PLAY_MUSIC

/-- Among the calls made after state `s` and up to state `s1` there is a route
command. -/
def IssuesRoute (s s1 : AudioHardwareALSA) : Prop :=
  ∃ target devices mode tty,
    Call.route target devices mode tty ∈ s1.calls.drop s.calls.length

/-- The calls that set a verb or a modifier on the sequencer. -/
def isSequencerSet (c : Call) : Bool :=
  match c with
  | Call.setVerb _ => true
  | Call.setModifier _ => true
  | _ => false

/-- The calls among `calls` that set a verb or a modifier on the sequencer. -/
def sequencerSets (calls : List Call) : List Call :=
  calls.filter isSequencerSet

/-- The rule of section 4.2 of the specification at a call site that takes the object
from `s` to `s1`, for a category with the names `verb` and `modifier`, when the probe
of the sequencer returned `use_case`: one session is appended; its use case is `verb`
if and only if the probe found no verb or the inactive one, and `modifier` if and only
if it found another verb; and what the sequencer is then told is `setVerb verb`
exactly when `verb` was chosen and `setModifier modifier` exactly when `modifier` was
chosen. -/
def FollowsVerbRule (p : Platform) (use_case : Option String) (verb modifier : String)
    (s s1 : AudioHardwareALSA) : Prop :=
  ∃ h, s1.mDeviceList = s.mDeviceList ++ [h] ∧
    (h.useCase = verb ↔ (use_case = none ∨ use_case = some p.SND_USE_CASE_VERB_INACTIVE)) ∧
    (h.useCase = modifier ↔
      ¬ (use_case = none ∨ use_case = some p.SND_USE_CASE_VERB_INACTIVE)) ∧
    (sequencerSets (s1.calls.drop s.calls.length) = [Call.setVerb verb] ↔
      h.useCase = verb) ∧
    (sequencerSets (s1.calls.drop s.calls.length) = [Call.setModifier modifier] ↔
      h.useCase = modifier)

/-- The ANC-headphone test of line 349 is the first test of the chain of lines 326-349
to succeed on `device`: the mode is `MODE_IN_CALL`, the six tests before it fail and
the mask has the ANC-headphone bit. -/
def ancHeadphoneFirst (p : Platform) (newMode : Int) (device : Nat) : Prop :=
  newMode = p.MODE_IN_CALL ∧
  ¬ (device &&& p.DEVICE_OUT_WIRED_HEADSET ≠ 0 ∨ device &&& p.DEVICE_IN_WIRED_HEADSET ≠ 0) ∧
  ¬ (device &&& p.DEVICE_OUT_WIRED_HEADPHONE ≠ 0) ∧
  ¬ (device &&& p.DEVICE_OUT_EARPIECE ≠ 0 ∨ device &&& p.DEVICE_IN_BUILTIN_MIC ≠ 0) ∧
  ¬ (device &&& p.DEVICE_OUT_SPEAKER ≠ 0) ∧
  ¬ (device &&& p.DEVICE_OUT_BLUETOOTH_SCO ≠ 0 ∨
      device &&& p.DEVICE_OUT_BLUETOOTH_SCO_HEADSET ≠ 0 ∨
      device &&& p.DEVICE_IN_BLUETOOTH_SCO_HEADSET ≠ 0) ∧
  ¬ (device &&& p.DEVICE_OUT_ANC_HEADSET ≠ 0 ∨ device &&& p.DEVICE_IN_ANC_HEADSET ≠ 0) ∧
  device &&& p.DEVICE_OUT_ANC_HEADPHONE ≠ 0

instance (p : Platform) (newMode : Int) (device : Nat) :
    Decidable (ancHeadphoneFirst p newMode device) := by
  unfold ancHeadphoneFirst
  infer_instance

/-! ## Reachable states -/

/-- The states of the object after any sequence of calls: starting from the
constructor's state, a change of `mMode` (by the base class, line 170), writes to the
accessory flags (lines 189-195, 207-223 and 246-248), and calls of `doRouting`, of
`setParameters` and of the three stream-open functions that have a result. -/
inductive Reachable (p : Platform) : AudioHardwareALSA → Prop
  | start (mode : Int) : Reachable p (initial mode)
  | setMode (s : AudioHardwareALSA) (mode : Int) :
      Reachable p s → Reachable p { s with mMode := mode }
  | setFlags (s : AudioHardwareALSA) (dmic anc vgs : Bool) (tty : TtyMode) :
      Reachable p s →
      Reachable p { s with
        mDmicActive := dmic, mAncActive := anc, mBluetoothVGS := vgs, mTtyMode := tty }
  | routing (s s1 : AudioHardwareALSA) (use_case : Option String) (device : Nat) :
      Reachable p s → doRouting p use_case device s = Outcome.ok s1 → Reachable p s1
  | outputStream (s : AudioHardwareALSA) (r : OpenResult) (use_case : Option String)
      (openErr setErr : Int) (devices : Nat) (hasStatus : Bool) :
      Reachable p s →
      openOutputStream p use_case openErr setErr devices hasStatus s = Outcome.ok r →
      Reachable p r.state
  | outputSession (s : AudioHardwareALSA) (r : OpenResult) (use_case : Option String)
      (openErr : Int) (devices : Nat) (hasStatus : Bool) :
      Reachable p s →
      openOutputSession p use_case openErr devices hasStatus s = Outcome.ok r →
      Reachable p r.state
  | inputStream (s : AudioHardwareALSA) (r : OpenResult) (use_case : Option String)
      (openErr setErr : Int) (devices : Nat) (sampleRate channelCount : Option Nat)
      (hasStatus : Bool) :
      Reachable p s →
      openInputStream p use_case openErr setErr devices sampleRate channelCount hasStatus s =
        Outcome.ok r →
      Reachable p r.state
  | parameters (s s1 : AudioHardwareALSA) (status : Int) (use_case : Nat → Option String)
      (param : AudioParameter) :
      Reachable p s → setParameters p use_case param s = Outcome.ok (status, s1) →
      Reachable p s1

/-- The flags count the sessions: one voice session exactly when `mIsVoiceCallActive`
is set, none otherwise, and the same for FM. -/
def FlagsCountSessions (p : Platform) (s : AudioHardwareALSA) : Prop :=
  s.mDeviceList.countP (isVoiceUseCase p) = (if s.mIsVoiceCallActive then 1 else 0) ∧
  s.mDeviceList.countP (isFmUseCase p) = (if s.mIsFmActive then 1 else 0)

/-! ## Sample states -/

/-- A state in mode `MODE_IN_CALL` that holds one playback session on the speaker. -/
def samplePlayback : AudioHardwareALSA :=
  { initial samplePlatform.MODE_IN_CALL with
    mDeviceList := [outputHandle samplePlatform none 4096 2] }

/-- The state `samplePlayback` after a voice call was started on the speaker. -/
def sampleInCall : AudioHardwareALSA :=
  { samplePlayback with
    mIsVoiceCallActive := true
    mDeviceList := samplePlayback.mDeviceList ++
      [voiceHandle samplePlatform (some "HiFi") 4096 0x80000002]
    calls :=
      [Call.getVerb,
       Call.route (HandleRef.node (voiceHandle samplePlatform (some "HiFi") 4096 0x80000002))
         0x80000002 2 TtyMode.TTY_OFF,
       Call.setModifier "Play Voice",
       Call.startVoiceCall
         (HandleRef.node (voiceHandle samplePlatform (some "HiFi") 4096 0x80000002))] }

/-- The state `sampleInCall` after the mode went back to `MODE_NORMAL` and the
voice call was ended. -/
def sampleAfterCall : AudioHardwareALSA :=
  { sampleInCall with
    mMode := samplePlatform.MODE_NORMAL
    mIsVoiceCallActive := false
    mDeviceList := samplePlayback.mDeviceList
    calls := sampleInCall.calls ++
      [Call.closePcm
         (HandleRef.node (voiceHandle samplePlatform (some "HiFi") 4096 0x80000002)),
       Call.route
         (HandleRef.erased (voiceHandle samplePlatform (some "HiFi") 4096 0x80000002))
         2 0 TtyMode.TTY_OFF] }

/-- The constructor's state in mode `MODE_NORMAL` after a request for the FM output
bit `0x800`. -/
def sampleFm : AudioHardwareALSA :=
  { initial samplePlatform.MODE_NORMAL with
    mIsFmActive := true
    mDeviceList := [fmHandle samplePlatform none 1024 0x800]
    calls :=
      [Call.getVerb,
       Call.route (HandleRef.node (fmHandle samplePlatform none 1024 0x800)) 0x800 0
         TtyMode.TTY_OFF,
       Call.setVerb "FM Digital Radio",
       Call.startFm (HandleRef.node (fmHandle samplePlatform none 1024 0x800))] }

/-- The state `sampleFm` after a second request for the FM output bit. -/
def sampleFmAgain : AudioHardwareALSA :=
  { sampleFm with
    calls := sampleFm.calls ++
      [Call.route (HandleRef.node (fmHandle samplePlatform none 1024 0x800)) 0x800 0
         TtyMode.TTY_OFF] }

/-- The constructor's state in mode `MODE_NORMAL` after `openOutputStream` for the
speaker, with the sequencer reporting no verb. -/
def sampleAfterOpen : AudioHardwareALSA :=
  { initial samplePlatform.MODE_NORMAL with
    mDeviceList := [outputHandle samplePlatform none 4096 2]
    calls :=
      [Call.getVerb,
       Call.route (HandleRef.node (outputHandle samplePlatform none 4096 2)) 2 0
         TtyMode.TTY_OFF,
       Call.setVerb "HiFi",
       Call.openPcm (HandleRef.node (outputHandle samplePlatform none 4096 2))] }

/-- The constructor's state in mode `MODE_IN_CALL` after a request for the speaker,
with the sequencer reporting no verb: the voice call has been started. -/
def sampleCallStarted : AudioHardwareALSA :=
  { initial samplePlatform.MODE_IN_CALL with
    mIsVoiceCallActive := true
    mDeviceList := [voiceHandle samplePlatform none 4096 0x80000002]
    calls :=
      [Call.getVerb,
       Call.route (HandleRef.node (voiceHandle samplePlatform none 4096 0x80000002))
         0x80000002 2 TtyMode.TTY_OFF,
       Call.setVerb "Voice Call",
       Call.startVoiceCall
         (HandleRef.node (voiceHandle samplePlatform none 4096 0x80000002))] }

/-- The state `sampleCallStarted` after the mode went back to `MODE_NORMAL`. -/
def sampleCallEnding : AudioHardwareALSA :=
  { sampleCallStarted with mMode := samplePlatform.MODE_NORMAL }

/-! ## Assumptions on the constants -/

/-- The device constants that the routing code uses, in one list. -/
def Platform.deviceConstants (p : Platform) : List Nat :=
  [p.DEVICE_OUT_EARPIECE, p.DEVICE_OUT_SPEAKER, p.DEVICE_OUT_WIRED_HEADSET,
   p.DEVICE_OUT_WIRED_HEADPHONE, p.DEVICE_OUT_BLUETOOTH_SCO,
   p.DEVICE_OUT_BLUETOOTH_SCO_HEADSET, p.DEVICE_OUT_FM, p.DEVICE_OUT_ANC_HEADSET,
   p.DEVICE_OUT_ANC_HEADPHONE, p.DEVICE_IN_BUILTIN_MIC, p.DEVICE_IN_BLUETOOTH_SCO_HEADSET,
   p.DEVICE_IN_WIRED_HEADSET, p.DEVICE_IN_VOICE_CALL, p.DEVICE_IN_BACK_MIC,
   p.DEVICE_IN_ANC_HEADSET, p.DEVICE_IN_FM_RX, p.DEVICE_IN_FM_RX_A2DP, p.DEVICE_IN_DEFAULT]

/-- Every device constant is a single bit of a 32-bit word, and no two of them are
the same bit. -/
def Platform.SingleBits (p : Platform) : Prop :=
  (∀ c ∈ p.deviceConstants, ∃ k, k < 32 ∧ c = 2 ^ k) ∧ p.deviceConstants.Nodup

instance (p : Platform) : Decidable p.SingleBits := by
  unfold Platform.SingleBits
  infer_instance

/-- The use-case names that the routing code stores in a handle, in one list. -/
def Platform.useCaseNames (p : Platform) : List String :=
  [p.SND_USE_CASE_VERB_VOICECALL, p.SND_USE_CASE_MOD_PLAY_VOICE, p.SND_USE_CASE_VERB_DIGITAL_RADIO,
   p.SND_USE_CASE_MOD_PLAY_FM, p.SND_USE_CASE_VERB_HIFI, p.SND_USE_CASE_MOD_PLAY_MUSIC,
   p.SND_USE_CASE_VERB_HIFI_LOW_POWER, p.SND_USE_CASE_MOD_PLAY_LPA,
   p.SND_USE_CASE_MOD_CAPTURE_VOICE, p.SND_USE_CASE_MOD_CAPTURE_FM,
   p.SND_USE_CASE_MOD_CAPTURE_MUSIC, p.SND_USE_CASE_VERB_FM_REC,
   p.SND_USE_CASE_VERB_HIFI_REC]

/-- No two use-case names are the same string. -/
def Platform.DistinctNames (p : Platform) : Prop := p.useCaseNames.Nodup

instance (p : Platform) : Decidable p.DistinctNames := by
  unfold Platform.DistinctNames
  infer_instance

/-! ## Bit arithmetic -/

/-- Subtracting one leaves every bit above a set bit as it was. -/
theorem testBit_pred_of_lower {n i j : Nat} (hij : i < j) (hi : n.testBit i = true) :
    (n - 1).testBit j = n.testBit j := by
  have hr : (n % 2 ^ j).testBit i = true := by
    rw [Nat.testBit_mod_two_pow]; simp [hij, hi]
  have hr1 : 1 ≤ n % 2 ^ j :=
    le_trans Nat.one_le_two_pow (Nat.testBit_implies_ge hr)
  have hlt : n % 2 ^ j < 2 ^ j := Nat.mod_lt _ (Nat.two_pow_pos j)
  have hlt1 : n % 2 ^ j - 1 < 2 ^ j := by omega
  have hn : n = 2 ^ j * (n / 2 ^ j) + n % 2 ^ j := (Nat.div_add_mod n (2 ^ j)).symm
  have hn1 : n - 1 = 2 ^ j * (n / 2 ^ j) + (n % 2 ^ j - 1) := by omega
  have e1 := Nat.testBit_mul_pow_two_add (n / 2 ^ j) hlt1 j
  have e2 := Nat.testBit_mul_pow_two_add (n / 2 ^ j) hlt j
  rw [← hn1] at e1
  rw [← hn] at e2
  rw [e1, e2]
  simp

/-- A 32-bit mask with two different bits set fails the single-device test. -/
theorem badDevices_of_two_bits {devices i j : Nat} (hlt : devices < 2 ^ 32) (hij : i ≠ j)
    (hi : devices.testBit i = true) (hj : devices.testBit j = true) :
    badDevices devices = true := by
  have h1 : 1 ≤ devices := le_trans Nat.one_le_two_pow (Nat.testBit_implies_ge hi)
  have hsub : (devices + 2 ^ 32 - 1) % 2 ^ 32 = devices - 1 := by omega
  have key : ∀ a b : Nat, a < b → devices.testBit a = true → devices.testBit b = true →
      devices &&& (devices - 1) ≠ 0 := by
    intro a b hab ha hb h0
    have hb1 : (devices - 1).testBit b = true := by
      rw [testBit_pred_of_lower hab ha]; exact hb
    have : (devices &&& (devices - 1)).testBit b = true := by
      rw [Nat.testBit_and, hb, hb1]; rfl
    rw [h0] at this
    simp at this
  have hne : devices &&& (devices - 1) ≠ 0 := by
    rcases Nat.lt_or_gt_of_ne hij with h | h
    · exact key i j h hi hj
    · exact key j i h hj hi
  unfold badDevices
  rw [hsub]
  simpa using hne

/-! ## The buffer-size loop -/

/-- A set bit of a `w`-bit value lies below `w`. -/
theorem testBit_lt_width {n w i : Nat} (hw : n < 2 ^ w) (hi : n.testBit i = true) : i < w := by
  by_contra hge
  have hle : 2 ^ w ≤ 2 ^ i := Nat.pow_le_pow_right (by decide) (Nat.le_of_not_lt hge)
  have := Nat.testBit_lt_two_pow (lt_of_lt_of_le hw hle)
  rw [this] at hi
  exact Bool.noConfusion hi

/-- The value of `bufferSize` once the loop has cleared the bits below `j`. -/
theorem clear_step {w n : Nat} (hw : n < 2 ^ w) (j : Nat) :
    ((n >>> j) <<< j) &&& bitNot w (2 ^ j) = (n >>> (j + 1)) <<< (j + 1) := by
  apply Nat.eq_of_testBit_eq
  intro i
  simp only [bitNot, Nat.testBit_and, Nat.testBit_xor, Nat.testBit_shiftLeft,
    Nat.testBit_shiftRight, Nat.testBit_two_pow_sub_one, Nat.testBit_two_pow]
  by_cases hij : j ≤ i
  · have e : j + (i - j) = i := by omega
    rw [e]
    by_cases hij1 : j + 1 ≤ i
    · have e1 : j + 1 + (i - (j + 1)) = i := by omega
      rw [e1]
      cases hb : n.testBit i
      · simp
      · have := testBit_lt_width hw hb
        have hne : j ≠ i := by omega
        simp [hij, hij1, this, hne]
    · have : j = i := by omega
      subst this
      simp
      exact fun hb => testBit_lt_width hw hb
  · have : ¬ (j + 1 ≤ i) := by omega
    simp [hij, this]

/-- Shifting out everything below the top bit leaves one. -/
theorem top_bit {n t : Nat} (ht : 2 ^ t ≤ n) (ht1 : n < 2 ^ (t + 1)) : n >>> t = 1 := by
  rw [Nat.shiftRight_eq_div_pow]
  have h2 : n / 2 ^ t < 2 := by
    rw [Nat.div_lt_iff_lt_mul (Nat.two_pow_pos t)]
    rw [pow_succ] at ht1
    omega
  have h1 : 1 ≤ n / 2 ^ t := by
    rw [Nat.le_div_iff_mul_le (Nat.two_pow_pos t)]
    omega
  omega

/-- The loop, entered at `b = 2 ^ j` with the bits below `j` cleared, ends with the
top bit of `n` alone. -/
theorem loop_from (w n t : Nat) (ht : 2 ^ t ≤ n) (ht1 : n < 2 ^ (t + 1)) (hw : n < 2 ^ w) :
    ∀ d j fuel, j + d = t → d < fuel →
      bufferSizeLoop w fuel (2 ^ j) ((n >>> j) <<< j) = some (2 ^ t) := by
  have htw : t < w := by
    by_contra hge
    have hle : 2 ^ w ≤ 2 ^ t := Nat.pow_le_pow_right (by decide) (Nat.le_of_not_lt hge)
    omega
  intro d
  induction d with
  | zero =>
    intro j fuel hj hf
    obtain ⟨f, rfl⟩ : ∃ f, fuel = f + 1 := ⟨fuel - 1, by omega⟩
    have hjt : j = t := by omega
    subst hjt
    have hz : (n >>> (j + 1)) <<< (j + 1) = 0 := by
      have : n >>> (j + 1) = 0 := by
        rw [Nat.shiftRight_eq_div_pow]; exact Nat.div_eq_of_lt ht1
      rw [this]; simp
    have hv : (n >>> j) <<< j = 2 ^ j := by
      rw [top_bit ht ht1, Nat.shiftLeft_eq]; simp
    simp only [bufferSizeLoop, clear_step hw, hz]
    simp [hv]
  | succ d ih =>
    intro j fuel hj hf
    obtain ⟨f, rfl⟩ : ∃ f, fuel = f + 1 := ⟨fuel - 1, by omega⟩
    have hnz : (n >>> (j + 1)) <<< (j + 1) ≠ 0 := by
      intro h0
      have hb : ((n >>> (j + 1)) <<< (j + 1)).testBit t = true := by
        have e1 : j + 1 + (t - (j + 1)) = t := by omega
        have hge : j + 1 ≤ t := by omega
        rw [Nat.testBit_shiftLeft, Nat.testBit_shiftRight, e1]
        have : n.testBit t = true := by
          have := top_bit ht ht1
          rw [Nat.testBit, this]; rfl
        simp [hge, this]
      rw [h0] at hb
      simp at hb
    have hb : (2 ^ j <<< 1) % 2 ^ w = 2 ^ (j + 1) := by
      have : 2 ^ j <<< 1 = 2 ^ (j + 1) := by
        rw [Nat.shiftLeft_eq]; ring
      rw [this]
      apply Nat.mod_eq_of_lt
      exact Nat.pow_lt_pow_right (by decide) (by omega)
    simp only [bufferSizeLoop, clear_step hw, hb]
    rw [if_pos hnz]
    exact ih (j + 1) f (by omega) (by omega)

/-- The rounding always produces a value: the loop ends within its bound. -/
theorem roundBufferSize_total (w size : Nat) : ∃ r, roundBufferSize w size = some r := by
  unfold roundBufferSize
  have hlt : size % 2 ^ w < 2 ^ w := Nat.mod_lt _ (Nat.two_pow_pos w)
  rcases Nat.eq_zero_or_pos (size % 2 ^ w) with h0 | hpos
  · rw [h0]
    exact ⟨0, by simp [bufferSizeLoop]⟩
  · have hw : 0 < w := by
      rcases Nat.eq_zero_or_pos w with hw0 | hw0
      · subst hw0; simp at hlt; omega
      · exact hw0
    have h1 : 1 % 2 ^ w = 1 := Nat.mod_eq_of_lt (Nat.one_lt_two_pow (by omega))
    have hn0 : size % 2 ^ w ≠ 0 := by omega
    have ht := Nat.log2_self_le hn0
    have ht1 : size % 2 ^ w < 2 ^ ((size % 2 ^ w).log2 + 1) := Nat.lt_log2_self
    have htw : (size % 2 ^ w).log2 < w := by
      by_contra hge
      have hle : 2 ^ w ≤ 2 ^ (size % 2 ^ w).log2 :=
        Nat.pow_le_pow_right (by decide) (Nat.le_of_not_lt hge)
      omega
    have := loop_from w (size % 2 ^ w) _ ht ht1 hlt (size % 2 ^ w).log2 0 (w + 1)
      (by omega) (by omega)
    simp at this
    rw [h1]
    exact ⟨_, this⟩

/-- C2: for every requested size `n` with `1 ≤ n < 2 ^ w`, the rounding loop on
`w`-bit words ends (whenever more than `k` evaluations of its condition are
allowed, and so within the `w + 1` that `roundBufferSize` allows) and leaves
`bufferSize = 2 ^ k`, where `2 ^ k` is the largest power of two that does not
exceed `n`: `2 ^ k ≤ n < 2 ^ (k + 1)`, so the result is never above `n`. -/
theorem bufferSizeLoop_largest_power_of_two (w n : Nat) (h1 : 1 ≤ n) (hw : n < 2 ^ w) :
    ∃ k, 2 ^ k ≤ n ∧ n < 2 ^ (k + 1) ∧ (∀ m, 2 ^ m ≤ n → m ≤ k) ∧
      (∀ fuel, k < fuel → bufferSizeLoop w fuel 1 n = some (2 ^ k)) ∧
      roundBufferSize w n = some (2 ^ k) := by
  have hn0 : n ≠ 0 := by omega
  have ht := Nat.log2_self_le hn0
  have ht1 : n < 2 ^ (n.log2 + 1) := Nat.lt_log2_self
  have htw : n.log2 < w := by
    by_contra hge
    have hle : 2 ^ w ≤ 2 ^ n.log2 := Nat.pow_le_pow_right (by decide) (Nat.le_of_not_lt hge)
    omega
  have hloop : ∀ fuel, n.log2 < fuel → bufferSizeLoop w fuel 1 n = some (2 ^ n.log2) := by
    intro fuel hf
    have := loop_from w n _ ht ht1 hw n.log2 0 fuel (by omega) hf
    simpa using this
  refine ⟨n.log2, ht, ht1, ?_, hloop, ?_⟩
  · intro m hm
    by_contra hlt
    have hle : 2 ^ (n.log2 + 1) ≤ 2 ^ m := Nat.pow_le_pow_right (by decide) (by omega)
    omega
  · unfold roundBufferSize
    have hw0 : 0 < w := by omega
    rw [Nat.mod_eq_of_lt hw, Nat.mod_eq_of_lt (Nat.one_lt_two_pow (by omega))]
    exact hloop (w + 1) (by omega)

/-- The rounding of 5000 on 32-bit words, and the values it gives for 4096, 5000
and 1. -/
theorem bufferSizeLoop_largest_power_of_two_witness :
    (∃ k, 2 ^ k ≤ 5000 ∧ 5000 < 2 ^ (k + 1) ∧ (∀ m, 2 ^ m ≤ 5000 → m ≤ k) ∧
      (∀ fuel, k < fuel → bufferSizeLoop 32 fuel 1 5000 = some (2 ^ k)) ∧
      roundBufferSize 32 5000 = some (2 ^ k)) ∧
    roundBufferSize 32 4096 = some 4096 ∧ roundBufferSize 32 5000 = some 4096 ∧
    roundBufferSize 32 1 = some 1 :=
  ⟨bufferSizeLoop_largest_power_of_two 32 5000 (by decide) (by decide),
    by decide, by decide, by decide⟩

/-! ## Rejection of multi-device stream-open requests -/

/-- A null `channels` or `sampleRate` pointer ends `openInputStream` at the `LOGV` of
line 620, before the device test and whatever the other arguments are. -/
theorem openInputStream_null_pointer (p : Platform) (s : AudioHardwareALSA)
    (use_case : Option String) (openErr setErr : Int) (devices : Nat)
    (sampleRate channelCount : Option Nat) (hasStatus : Bool)
    (h : channelCount = none ∨ sampleRate = none) :
    openInputStream p use_case openErr setErr devices sampleRate channelCount hasStatus s =
      Outcome.fault Fault.nullPointerRead := by
  unfold openInputStream
  rcases h with h | h <;> subst h <;> simp

/-- C1: for every 32-bit device mask with two different bits set, each of
`openOutputStream`, `openOutputSession` and `openInputStream` (called with valid
`channels` and `sampleRate` pointers, which line 620 reads through) returns no stream,
stores `BAD_VALUE` through the status pointer, and leaves the object as it was:
same session list, same flags, and no call to the driver transport or the
sequencer added. -/
theorem open_rejects_multi_device (p : Platform) (s : AudioHardwareALSA)
    (use_case : Option String) (openErr setErr : Int) (sampleRate channelCount : Nat)
    (hasStatus : Bool) (devices i j : Nat) (hlt : devices < 2 ^ 32) (hij : i ≠ j)
    (hi : devices.testBit i = true) (hj : devices.testBit j = true) :
    openOutputStream p use_case openErr setErr devices hasStatus s =
        Outcome.ok { stream := none, status := storeStatus hasStatus p.BAD_VALUE, state := s } ∧
    openOutputSession p use_case openErr devices hasStatus s =
        Outcome.ok { stream := none, status := storeStatus hasStatus p.BAD_VALUE, state := s } ∧
    openInputStream p use_case openErr setErr devices (some sampleRate)
        (some channelCount) hasStatus s =
        Outcome.ok { stream := none, status := storeStatus hasStatus p.BAD_VALUE, state := s } ∧
    storeStatus true p.BAD_VALUE = some p.BAD_VALUE := by
  have hb := badDevices_of_two_bits hlt hij hi hj
  refine ⟨?_, ?_, ?_, rfl⟩
  · simp [openOutputStream, hb]
  · simp [openOutputSession, hb]
  · simp [openInputStream, hb]

/-- The rejection at the mask `0x3`, earpiece and speaker together. -/
theorem open_rejects_multi_device_witness :
    openOutputStream samplePlatform none 0 0 3 true (initial 0) =
        Outcome.ok { stream := none, status := storeStatus true samplePlatform.BAD_VALUE,
                     state := initial 0 } ∧
    openOutputSession samplePlatform none 0 3 true (initial 0) =
        Outcome.ok { stream := none, status := storeStatus true samplePlatform.BAD_VALUE,
                     state := initial 0 } ∧
    openInputStream samplePlatform none 0 0 3 (some 8000) (some 1) true (initial 0) =
        Outcome.ok { stream := none, status := storeStatus true samplePlatform.BAD_VALUE,
                     state := initial 0 } ∧
    storeStatus true samplePlatform.BAD_VALUE = some samplePlatform.BAD_VALUE :=
  open_rejects_multi_device samplePlatform (initial 0) none 0 0 8000 1 true 3 0 1
    (by decide) (by decide) (by decide) (by decide)

/-! ## Device constants as distinct single bits -/

/-- Two different single bits have no bit in common. -/
theorem two_pow_and_two_pow_of_ne {a b : Nat} (h : a ≠ b) : 2 ^ a &&& 2 ^ b = 0 := by
  apply Nat.eq_of_testBit_eq
  intro i
  simp only [Nat.testBit_and, Nat.testBit_two_pow, Nat.zero_testBit]
  by_cases ha : a = i
  · have hb : ¬ b = i := fun hb => h (ha.trans hb.symm)
    simp [hb]
  · simp [ha]

/-- A mask meets the single bit `2 ^ k` exactly when its bit `k` is set. -/
theorem and_two_pow_ne_zero_iff (d k : Nat) : d &&& 2 ^ k ≠ 0 ↔ d.testBit k = true := by
  constructor
  · intro h
    by_contra hk
    apply h
    apply Nat.eq_of_testBit_eq
    intro i
    simp only [Nat.testBit_and, Nat.testBit_two_pow, Nat.zero_testBit]
    by_cases hki : k = i
    · subst hki; simp [hk]
    · simp [hki]
  · intro hk h0
    have : (d &&& 2 ^ k).testBit k = true := by
      simp [Nat.testBit_and, hk, Nat.testBit_two_pow]
    rw [h0] at this
    simp at this

/-- Any two entries of the list of device constants at different positions are
disjoint, when the constants are distinct single bits. -/
theorem Platform.SingleBits.disjoint {p : Platform} (h : p.SingleBits) (i j : Nat)
    (hi : i < 18) (hj : j < 18) (hij : i ≠ j) :
    p.deviceConstants.getD i 0 &&& p.deviceConstants.getD j 0 = 0 := by
  have hlen : p.deviceConstants.length = 18 := rfl
  have hi1 : i < p.deviceConstants.length := by omega
  have hj1 : j < p.deviceConstants.length := by omega
  rw [List.getD_eq_getElem _ _ hi1, List.getD_eq_getElem _ _ hj1]
  obtain ⟨a, _, ea⟩ := h.1 _ (List.getElem_mem hi1)
  obtain ⟨b, _, eb⟩ := h.1 _ (List.getElem_mem hj1)
  have hne : p.deviceConstants[i] ≠ p.deviceConstants[j] := by
    intro e
    exact hij ((List.Nodup.getElem_inj_iff h.2).1 e)
  have hab : a ≠ b := by
    intro e
    apply hne
    rw [ea, eb, e]
  rw [ea, eb]
  exact two_pow_and_two_pow_of_ne hab

/-- Every entry of the list of device constants is `2 ^ k` for some `k < 32`. -/
theorem Platform.SingleBits.single {p : Platform} (h : p.SingleBits) (i : Nat) (hi : i < 18) :
    ∃ k, k < 32 ∧ p.deviceConstants.getD i 0 = 2 ^ k := by
  have hlen : p.deviceConstants.length = 18 := rfl
  have hi1 : i < p.deviceConstants.length := by omega
  rw [List.getD_eq_getElem _ _ hi1]
  exact h.1 _ (List.getElem_mem hi1)

/-- A constant disjoint from `2 ^ k` has bit `k` clear. -/
theorem testBit_of_and_two_pow_eq_zero {c k : Nat} (h : c &&& 2 ^ k = 0) :
    c.testBit k = false := by
  by_contra hk
  have hk1 : c.testBit k = true := by simpa using hk
  exact (and_two_pow_ne_zero_iff c k).2 hk1 h

/-! ## Voice-call start and end -/

/-- A voice handle passes the test of lines 402-403. -/
theorem isVoiceUseCase_voiceHandle (p : Platform) (use_case : Option String) (b d : Nat) :
    isVoiceUseCase p (voiceHandle p use_case b d) = true := by
  unfold isVoiceUseCase voiceHandle
  cases verbInactive p use_case <;> simp

/-- When no element of the list passes the test, the search loop erases an element
appended at the end that does. -/
theorem eraseFirst_append_last (test : alsa_handle_t → Bool) (x : alsa_handle_t)
    (hx : test x = true) :
    ∀ l : List alsa_handle_t, (∀ h ∈ l, test h = false) →
      eraseFirst test (l ++ [x]) = some (x, l) := by
  intro l
  induction l with
  | nil => intro _; simp [eraseFirst, hx]
  | cons a t ih =>
    intro hall
    have ha : test a = false := hall a (List.mem_cons_self a t)
    have ht := ih (fun h hh => hall h (List.mem_cons_of_mem a hh))
    simp [eraseFirst, ha, ht]

/-- The start-voice branch: with mode `MODE_IN_CALL` and no voice call active, a
request that reaches line 325 with `device = d` appends one voice handle, sets the
flag, and makes the four calls of lines 366-397. -/
theorem doRouting_start_voice (p : Platform) (s : AudioHardwareALSA)
    (use_case : Option String) (device d : Nat)
    (hmode : s.mMode = p.MODE_IN_CALL) (hv : s.mIsVoiceCallActive = false)
    (hcap : isCaptureRequest p device = false)
    (hanc : ancSubstitute p s.mAncActive s.mDeviceList device = AncResult.device d) :
    ∃ bufferSize, roundBufferSize p.wordBits p.DEFAULT_BUFFER_SIZE = some bufferSize ∧
      doRouting p use_case device s =
        Outcome.ok { s with
          mIsVoiceCallActive := true
          mDeviceList := s.mDeviceList ++
            [voiceHandle p use_case bufferSize
              (dualMic p s.mDmicActive (inCallSymmetry p s.mMode d))]
          calls := s.calls ++
            [Call.getVerb,
             Call.route
               (HandleRef.node (voiceHandle p use_case bufferSize
                 (dualMic p s.mDmicActive (inCallSymmetry p s.mMode d))))
               (dualMic p s.mDmicActive (inCallSymmetry p s.mMode d) % 2 ^ 32)
               s.mMode s.mTtyMode,
             if (voiceHandle p use_case bufferSize
                 (dualMic p s.mDmicActive (inCallSymmetry p s.mMode d))).useCase =
                 p.SND_USE_CASE_VERB_VOICECALL then
               Call.setVerb p.SND_USE_CASE_VERB_VOICECALL
             else Call.setModifier p.SND_USE_CASE_MOD_PLAY_VOICE,
             Call.startVoiceCall
               (HandleRef.node (voiceHandle p use_case bufferSize
                 (dualMic p s.mDmicActive (inCallSymmetry p s.mMode d))))] } := by
  obtain ⟨b, hb⟩ := roundBufferSize_total p.wordBits p.DEFAULT_BUFFER_SIZE
  refine ⟨b, hb, ?_⟩
  simp only [doRouting, hcap, hanc, routeBranch, hmode, hv, hb]
  simp

/-- C4: from a state with no voice call active and no voice session in the list, a
`doRouting` call in mode `MODE_IN_CALL` that starts a voice call, followed at once
by a `doRouting` call in mode `MODE_NORMAL` that ends it, leaves the session list as
it was before the two calls, element for element, `mIsVoiceCallActive` false and
`mIsFmActive` unchanged. -/
theorem voice_call_round_trip (p : Platform) (s s1 s2 : AudioHardwareALSA)
    (use_case1 use_case2 : Option String) (device1 device2 : Nat)
    (hv : s.mIsVoiceCallActive = false)
    (hnone : ∀ h ∈ s.mDeviceList, isVoiceUseCase p h = false)
    (hmode : s.mMode = p.MODE_IN_CALL)
    (hcall1 : doRouting p use_case1 device1 s = Outcome.ok s1)
    (hstart : s1.mIsVoiceCallActive = true)
    (hcall2 : doRouting p use_case2 device2 { s1 with mMode := p.MODE_NORMAL } = Outcome.ok s2)
    (hend : s2.mIsVoiceCallActive = false) :
    s2.mDeviceList = s.mDeviceList ∧ s2.mIsVoiceCallActive = false ∧
      s2.mIsFmActive = s.mIsFmActive := by
  -- the first call
  have h1 : ∃ b d, s1.mDeviceList = s.mDeviceList ++ [voiceHandle p use_case1 b d] ∧
      s1.mIsFmActive = s.mIsFmActive := by
    unfold doRouting at hcall1
    split at hcall1
    · injection hcall1 with e; subst e; rw [hv] at hstart; exact Bool.noConfusion hstart
    · split at hcall1
      · injection hcall1 with e; subst e; rw [hv] at hstart; exact Bool.noConfusion hstart
      · exact Outcome.noConfusion hcall1
      · obtain ⟨b, hb⟩ := roundBufferSize_total p.wordBits p.DEFAULT_BUFFER_SIZE
        simp only [routeBranch, hmode, hv, hb, and_self, if_true] at hcall1
        injection hcall1 with e
        subst e
        exact ⟨b, _, rfl, rfl⟩
  obtain ⟨b, d, hl1, hf1⟩ := h1
  have herase := eraseFirst_append_last (isVoiceUseCase p) (voiceHandle p use_case1 b d)
    (isVoiceUseCase_voiceHandle p use_case1 b d) s.mDeviceList hnone
  -- the second call
  unfold doRouting at hcall2
  split at hcall2
  · injection hcall2 with e; subst e; simp [hstart] at hend
  · split at hcall2
    · injection hcall2 with e; subst e; simp [hstart] at hend
    · exact Outcome.noConfusion hcall2
    · simp only [routeBranch, hstart, hl1, herase] at hcall2
      simp at hcall2
      subst hcall2
      exact ⟨rfl, rfl, hf1⟩

/-- The round trip on `samplePlatform`, from a state that holds one playback session
on the speaker: the call is started and ended by requests for the speaker. -/
theorem voice_call_round_trip_witness :
    doRouting samplePlatform (some "HiFi") 2 samplePlayback = Outcome.ok sampleInCall ∧
    doRouting samplePlatform (some "HiFi") 2
        { sampleInCall with mMode := samplePlatform.MODE_NORMAL } = Outcome.ok sampleAfterCall ∧
    sampleAfterCall.mDeviceList = samplePlayback.mDeviceList ∧
    sampleAfterCall.mIsVoiceCallActive = false ∧
    sampleAfterCall.mIsFmActive = samplePlayback.mIsFmActive :=
  ⟨by decide, by decide,
    voice_call_round_trip samplePlatform samplePlayback sampleInCall sampleAfterCall
      (some "HiFi") (some "HiFi") 2 2 (by decide) (by decide) (by decide) (by decide)
      (by decide) (by decide) (by decide)⟩

/-! ## FM start -/

/-- The in-call expansion only adds bits. -/
theorem inCallSymmetry_testBit (p : Platform) (newMode : Int) (device k : Nat)
    (h : device.testBit k = true) : (inCallSymmetry p newMode device).testBit k = true := by
  unfold inCallSymmetry
  split_ifs <;> simp [Nat.testBit_or, h]

/-- Clearing the bits of `x` in a 32-bit mask keeps a bit below 32 that `x` lacks. -/
theorem testBit_and_bitNot (d x k : Nat) (hk : k < 32) (hx : x.testBit k = false) :
    (d &&& bitNot 32 x).testBit k = d.testBit k := by
  simp only [bitNot, Nat.testBit_and, Nat.testBit_xor, Nat.testBit_two_pow_sub_one, hx]
  simp [hk]

/-- The dual-mic adjustment keeps a bit below 32 that the back-mic constant lacks. -/
theorem dualMic_testBit (p : Platform) (dmic : Bool) (device k : Nat) (hk : k < 32)
    (hx : p.DEVICE_IN_BACK_MIC.testBit k = false) :
    (dualMic p dmic device).testBit k = device.testBit k := by
  unfold dualMic
  split_ifs
  · simp [Nat.testBit_or, hx]
  · exact testBit_and_bitNot device _ k hk hx
  · rfl

/-- The ANC substitution of a mask that has bit `k` set, where `k < 32` is a bit
that neither wired-headset constant has: control reaches line 325 and bit `k` is
still set. -/
theorem ancSubstitute_testBit (p : Platform) (anc : Bool) (l : List alsa_handle_t)
    (device k : Nat) (hk : k < 32) (h : device.testBit k = true)
    (ho : p.DEVICE_OUT_WIRED_HEADSET.testBit k = false)
    (hi : p.DEVICE_IN_WIRED_HEADSET.testBit k = false) :
    ∃ d, ancSubstitute p anc l device = AncResult.device d ∧ d.testBit k = true := by
  have hne : device ≠ 0 := by
    intro h0
    rw [h0] at h
    simp at h
  unfold ancSubstitute
  split_ifs
  · exact ⟨_, rfl, by simp [Nat.testBit_or, testBit_and_bitNot _ _ k hk ho, h]⟩
  · exact ⟨_, rfl, by simp [Nat.testBit_or, testBit_and_bitNot _ _ k hk hi, h]⟩
  · exact ⟨_, rfl, h⟩
  · rename_i h1
    exact absurd h1.2 hne
  · exact ⟨_, rfl, h⟩

/-- An FM handle passes the test of lines 454-455. -/
theorem isFmUseCase_fmHandle (p : Platform) (use_case : Option String) (b d : Nat) :
    isFmUseCase p (fmHandle p use_case b d) = true := by
  unfold isFmUseCase fmHandle
  cases verbInactive p use_case <;> simp

/-- C5 as stated fails: with `mIsFmActive` false, mode `MODE_IN_CALL` and no voice
call active, a request for the FM output bit `0x800` takes the start-voice branch.
The one session appended is a voice session, no FM session is registered and
`mIsFmActive` stays false. -/
theorem fm_request_in_call_starts_voice :
    (initial samplePlatform.MODE_IN_CALL).mIsFmActive = false ∧
    0x800 &&& samplePlatform.DEVICE_OUT_FM ≠ 0 ∧
    ∃ s, doRouting samplePlatform none 0x800 (initial samplePlatform.MODE_IN_CALL) =
        Outcome.ok s ∧
      s.mIsFmActive = false ∧ s.mIsVoiceCallActive = true ∧
      s.mDeviceList.map (fun h => h.useCase) = ["Voice Call"] ∧
      ∀ h ∈ s.mDeviceList, isFmUseCase samplePlatform h = false :=
  ⟨rfl, by decide, _, rfl, by decide, by decide, by decide⟩

/-- C5, amended: when the device constants are distinct single bits, `mIsFmActive` is
false, and neither voice branch is due (not mode `MODE_IN_CALL` with no voice call
active, not mode `MODE_NORMAL` with a voice call active), a request whose mask has
the FM output bit appends exactly one session, whose use case is the FM verb or the
FM modifier, keeps the earlier sessions, and sets `mIsFmActive`. -/
theorem doRouting_start_fm (p : Platform) (hp : p.SingleBits) (s : AudioHardwareALSA)
    (use_case : Option String) (device : Nat)
    (hfm : s.mIsFmActive = false)
    (hstart : ¬ (s.mMode = p.MODE_IN_CALL ∧ s.mIsVoiceCallActive = false))
    (hend : ¬ (s.mMode = p.MODE_NORMAL ∧ s.mIsVoiceCallActive = true))
    (hreq : device &&& p.DEVICE_OUT_FM ≠ 0) :
    ∃ s1 h, doRouting p use_case device s = Outcome.ok s1 ∧
      s1.mDeviceList = s.mDeviceList ++ [h] ∧
      (h.useCase = p.SND_USE_CASE_VERB_DIGITAL_RADIO ∨ h.useCase = p.SND_USE_CASE_MOD_PLAY_FM) ∧
      s1.mIsFmActive = true ∧ s1.mIsVoiceCallActive = s.mIsVoiceCallActive := by
  obtain ⟨k, hk, ek⟩ : ∃ k, k < 32 ∧ p.DEVICE_OUT_FM = 2 ^ k := hp.single 6 (by decide)
  have bit : ∀ c, c &&& p.DEVICE_OUT_FM = 0 → c.testBit k = false := by
    intro c hc
    rw [ek] at hc
    exact testBit_of_and_two_pow_eq_zero hc
  have hdev : device.testBit k = true := by
    rw [ek] at hreq
    exact (and_two_pow_ne_zero_iff device k).1 hreq
  have hcap : isCaptureRequest p device = false := by
    have h1 : device ≠ p.DEVICE_IN_VOICE_CALL := by
      intro e
      have : p.DEVICE_IN_VOICE_CALL.testBit k = false :=
        bit _ (hp.disjoint 12 6 (by decide) (by decide) (by decide))
      rw [← e, hdev] at this
      exact Bool.noConfusion this
    have h2 : device ≠ p.DEVICE_IN_FM_RX := by
      intro e
      have : p.DEVICE_IN_FM_RX.testBit k = false :=
        bit _ (hp.disjoint 15 6 (by decide) (by decide) (by decide))
      rw [← e, hdev] at this
      exact Bool.noConfusion this
    have h3 : device ≠ p.DEVICE_IN_FM_RX_A2DP := by
      intro e
      have : p.DEVICE_IN_FM_RX_A2DP.testBit k = false :=
        bit _ (hp.disjoint 16 6 (by decide) (by decide) (by decide))
      rw [← e, hdev] at this
      exact Bool.noConfusion this
    simp [isCaptureRequest, h1, h2, h3]
  obtain ⟨d, hanc, hd⟩ := ancSubstitute_testBit p s.mAncActive s.mDeviceList device k hk hdev
    (bit _ (hp.disjoint 2 6 (by decide) (by decide) (by decide)))
    (bit _ (hp.disjoint 11 6 (by decide) (by decide) (by decide)))
  have hfinal : (dualMic p s.mDmicActive (inCallSymmetry p s.mMode d)).testBit k = true := by
    rw [dualMic_testBit p _ _ k hk
      (bit _ (hp.disjoint 13 6 (by decide) (by decide) (by decide)))]
    exact inCallSymmetry_testBit p _ _ k hd
  have hbranch :
      dualMic p s.mDmicActive (inCallSymmetry p s.mMode d) &&& p.DEVICE_OUT_FM ≠ 0 := by
    rw [ek]
    exact (and_two_pow_ne_zero_iff _ k).2 hfinal
  obtain ⟨b, hb⟩ := roundBufferSize_total p.wordBits p.FM_BUFFER_SIZE
  have hcall : doRouting p use_case device s = Outcome.ok { s with
      mIsFmActive := true
      mDeviceList := s.mDeviceList ++
        [fmHandle p use_case b (dualMic p s.mDmicActive (inCallSymmetry p s.mMode d))]
      calls := s.calls ++
        [Call.getVerb,
         Call.route
           (HandleRef.node
             (fmHandle p use_case b (dualMic p s.mDmicActive (inCallSymmetry p s.mMode d))))
           (dualMic p s.mDmicActive (inCallSymmetry p s.mMode d) % 2 ^ 32) s.mMode s.mTtyMode,
         if (fmHandle p use_case b
             (dualMic p s.mDmicActive (inCallSymmetry p s.mMode d))).useCase =
             p.SND_USE_CASE_VERB_DIGITAL_RADIO then
           Call.setVerb p.SND_USE_CASE_VERB_DIGITAL_RADIO
         else Call.setModifier p.SND_USE_CASE_MOD_PLAY_FM,
         Call.startFm
           (HandleRef.node
             (fmHandle p use_case b
               (dualMic p s.mDmicActive (inCallSymmetry p s.mMode d))))] } := by
    simp only [doRouting, hcap, hanc, routeBranch, if_neg hstart, if_neg hend, hb,
      Bool.false_eq_true, if_false]
    rw [if_pos ⟨hbranch, hfm⟩]
  refine ⟨_, fmHandle p use_case b (dualMic p s.mDmicActive (inCallSymmetry p s.mMode d)),
    hcall, rfl, ?_, rfl, rfl⟩
  · have := isFmUseCase_fmHandle p use_case b
      (dualMic p s.mDmicActive (inCallSymmetry p s.mMode d))
    simpa [isFmUseCase] using this

/-- The FM start on `samplePlatform`: mode `MODE_NORMAL`, no voice call, one playback
session registered, and a request for the FM output bit. -/
theorem doRouting_start_fm_witness :
    ∃ s1 h, doRouting samplePlatform (some "HiFi") 0x800 sampleAfterCall = Outcome.ok s1 ∧
      s1.mDeviceList = sampleAfterCall.mDeviceList ++ [h] ∧
      (h.useCase = samplePlatform.SND_USE_CASE_VERB_DIGITAL_RADIO ∨
        h.useCase = samplePlatform.SND_USE_CASE_MOD_PLAY_FM) ∧
      s1.mIsFmActive = true ∧ s1.mIsVoiceCallActive = sampleAfterCall.mIsVoiceCallActive :=
  doRouting_start_fm samplePlatform (by decide) sampleAfterCall (some "HiFi") 0x800
    (by decide) (by decide) (by decide) (by decide)

/-! ## At most one voice session and one FM session -/

/-- Any two use-case names at different positions of the list differ. -/
theorem Platform.DistinctNames.ne {p : Platform} (h : p.DistinctNames) (i j : Nat)
    (hi : i < 13) (hj : j < 13) (hij : i ≠ j) :
    p.useCaseNames.getD i "" ≠ p.useCaseNames.getD j "" := by
  have hlen : p.useCaseNames.length = 13 := rfl
  have hi1 : i < p.useCaseNames.length := by omega
  have hj1 : j < p.useCaseNames.length := by omega
  rw [List.getD_eq_getElem _ _ hi1, List.getD_eq_getElem _ _ hj1]
  intro e
  exact hij ((List.Nodup.getElem_inj_iff h).1 e)

/-- A handle whose use case is one of the names after the first four of the list is
neither a voice session nor an FM session. -/
theorem not_voice_not_fm {p : Platform} (hp : p.DistinctNames) (i : Nat) (h4 : 4 ≤ i)
    (hi : i < 13) (h : alsa_handle_t) (hu : h.useCase = p.useCaseNames.getD i "") :
    isVoiceUseCase p h = false ∧ isFmUseCase p h = false := by
  have h0 : h.useCase ≠ p.SND_USE_CASE_VERB_VOICECALL := by
    rw [hu]; exact hp.ne i 0 hi (by decide) (by omega)
  have h1 : h.useCase ≠ p.SND_USE_CASE_MOD_PLAY_VOICE := by
    rw [hu]; exact hp.ne i 1 hi (by decide) (by omega)
  have h2 : h.useCase ≠ p.SND_USE_CASE_VERB_DIGITAL_RADIO := by
    rw [hu]; exact hp.ne i 2 hi (by decide) (by omega)
  have h3 : h.useCase ≠ p.SND_USE_CASE_MOD_PLAY_FM := by
    rw [hu]; exact hp.ne i 3 hi (by decide) (by omega)
  simp [isVoiceUseCase, isFmUseCase, h0, h1, h2, h3]

/-- A voice session is not an FM session. -/
theorem isFmUseCase_of_voice {p : Platform} (hp : p.DistinctNames) (h : alsa_handle_t)
    (hv : isVoiceUseCase p h = true) : isFmUseCase p h = false := by
  have h02 := hp.ne 0 2 (by decide) (by decide) (by decide)
  have h03 := hp.ne 0 3 (by decide) (by decide) (by decide)
  have h12 := hp.ne 1 2 (by decide) (by decide) (by decide)
  have h13 := hp.ne 1 3 (by decide) (by decide) (by decide)
  simp only [isVoiceUseCase, Bool.or_eq_true, beq_iff_eq] at hv
  rcases hv with e | e
  · simp only [isFmUseCase, e, Bool.or_eq_false_iff, beq_eq_false_iff_ne]
    exact ⟨h02, h03⟩
  · simp only [isFmUseCase, e, Bool.or_eq_false_iff, beq_eq_false_iff_ne]
    exact ⟨h12, h13⟩

/-- An FM session is not a voice session. -/
theorem isVoiceUseCase_of_fm {p : Platform} (hp : p.DistinctNames) (h : alsa_handle_t)
    (hf : isFmUseCase p h = true) : isVoiceUseCase p h = false := by
  cases hv : isVoiceUseCase p h
  · rfl
  · rw [isFmUseCase_of_voice hp h hv] at hf
    exact Bool.noConfusion hf

/-- What the search loop does to the number of elements that pass any test `g`. -/
theorem eraseFirst_countP (test g : alsa_handle_t → Bool) :
    ∀ (l : List alsa_handle_t) (x : alsa_handle_t) (rest : List alsa_handle_t),
      eraseFirst test l = some (x, rest) →
      test x = true ∧ l.countP g = rest.countP g + (if g x then 1 else 0) := by
  intro l
  induction l with
  | nil => intro x rest h; simp [eraseFirst] at h
  | cons a t ih =>
    intro x rest h
    unfold eraseFirst at h
    split at h
    · rename_i ha
      injection h with h
      injection h with h1 h2
      subst h1 h2
      refine ⟨ha, ?_⟩
      rw [List.countP_cons]
    · split at h
      · rename_i y r hy
        injection h with h
        injection h with h1 h2
        subst h1 h2
        obtain ⟨hx, hc⟩ := ih _ _ hy
        refine ⟨hx, ?_⟩
        rw [List.countP_cons, List.countP_cons, hc]
        omega
      · exact Option.noConfusion h

/-- When the search loop reaches `end()`, no element passes the test. -/
theorem eraseFirst_none (test : alsa_handle_t → Bool) :
    ∀ l : List alsa_handle_t, eraseFirst test l = none → l.countP test = 0 := by
  intro l
  induction l with
  | nil => intro _; rfl
  | cons a t ih =>
    intro h
    unfold eraseFirst at h
    split at h
    · exact Option.noConfusion h
    · rename_i ha
      split at h
      · exact Option.noConfusion h
      · rename_i hn
        rw [List.countP_cons, ih hn]
        simp [ha]

/-- The branch of lines 361-467 keeps the flags in step with the sessions. -/
theorem routeBranch_preserves {p : Platform} (hp : p.DistinctNames)
    (s s1 : AudioHardwareALSA) (use_case : Option String) (device : Nat)
    (hinv : FlagsCountSessions p s) (h : routeBranch p use_case device s = Outcome.ok s1) :
    FlagsCountSessions p s1 := by
  obtain ⟨hv, hf⟩ := hinv
  unfold routeBranch at h
  simp only at h
  split_ifs at h with c1 c2 c3 c4
  · split at h
    · cases h
    · cases h
      have hvh := isVoiceUseCase_voiceHandle p use_case ‹Nat› device
      have hfh := isFmUseCase_of_voice hp _ hvh
      constructor
      · simp [List.countP_append, List.countP_cons, hv, c1.2, hvh]
      · simp [List.countP_append, List.countP_cons, hf, hfh]
  · split at h
    · rename_i it rest he
      cases h
      obtain ⟨hx, hc⟩ := eraseFirst_countP (isVoiceUseCase p) (isVoiceUseCase p) _ _ _ he
      obtain ⟨_, hc2⟩ := eraseFirst_countP (isVoiceUseCase p) (isFmUseCase p) _ _ _ he
      have hfx := isFmUseCase_of_voice hp _ hx
      rw [hv, c2.2, hx] at hc
      rw [hf, hfx] at hc2
      simp only [Bool.false_eq_true, if_false, if_true] at hc hc2
      constructor
      · show List.countP (isVoiceUseCase p) rest = 0
        omega
      · show List.countP (isFmUseCase p) rest = if s.mIsFmActive = true then 1 else 0
        omega
    · rename_i he
      cases h
      have := eraseFirst_none _ _ he
      constructor
      · simpa using this
      · simpa using hf
  · split at h
    · cases h
    · cases h
      have hfh := isFmUseCase_fmHandle p use_case ‹Nat› device
      have hvh := isVoiceUseCase_of_fm hp _ hfh
      constructor
      · simp [List.countP_append, List.countP_cons, hv, hvh]
      · simp [List.countP_append, List.countP_cons, hf, c3.2, hfh]
  · split at h
    · rename_i it rest he
      cases h
      obtain ⟨hx, hc⟩ := eraseFirst_countP (isFmUseCase p) (isFmUseCase p) _ _ _ he
      obtain ⟨_, hc2⟩ := eraseFirst_countP (isFmUseCase p) (isVoiceUseCase p) _ _ _ he
      have hvx := isVoiceUseCase_of_fm hp _ hx
      rw [hf, c4.2, hx] at hc
      rw [hv, hvx] at hc2
      simp only [Bool.false_eq_true, if_false, if_true] at hc hc2
      constructor
      · show List.countP (isVoiceUseCase p) rest = if s.mIsVoiceCallActive = true then 1 else 0
        omega
      · show List.countP (isFmUseCase p) rest = 0
        omega
    · rename_i he
      cases h
      have := eraseFirst_none _ _ he
      constructor
      · simpa using hv
      · simpa using this
  · cases h
    exact ⟨hv, hf⟩

/-- The function `doRouting` keeps the flags in step with the sessions. -/
theorem doRouting_preserves {p : Platform} (hp : p.DistinctNames)
    (s s1 : AudioHardwareALSA) (use_case : Option String) (device : Nat)
    (hinv : FlagsCountSessions p s) (h : doRouting p use_case device s = Outcome.ok s1) :
    FlagsCountSessions p s1 := by
  unfold doRouting at h
  split at h
  · cases h; exact hinv
  · split at h
    · cases h; exact hinv
    · cases h
    · exact routeBranch_preserves hp s s1 use_case _ hinv h

/-- Appending a session that is neither a voice nor an FM session keeps the flags in
step with the sessions, whatever happens to `calls`. -/
theorem append_preserves {p : Platform} (s : AudioHardwareALSA) (x : alsa_handle_t)
    (calls : List Call) (hx : isVoiceUseCase p x = false ∧ isFmUseCase p x = false)
    (hinv : FlagsCountSessions p s) :
    FlagsCountSessions p { s with mDeviceList := s.mDeviceList ++ [x], calls := calls } := by
  obtain ⟨hv, hf⟩ := hinv
  constructor
  · simp [List.countP_append, List.countP_cons, hv, hx.1]
  · simp [List.countP_append, List.countP_cons, hf, hx.2]

/-- The function `openOutputStream` keeps the flags in step with the sessions. -/
theorem openOutputStream_preserves {p : Platform} (hp : p.DistinctNames)
    (s : AudioHardwareALSA) (r : OpenResult) (use_case : Option String)
    (openErr setErr : Int) (devices : Nat) (hasStatus : Bool)
    (hinv : FlagsCountSessions p s)
    (h : openOutputStream p use_case openErr setErr devices hasStatus s = Outcome.ok r) :
    FlagsCountSessions p r.state := by
  unfold openOutputStream at h
  split at h
  · cases h; exact hinv
  · split at h
    · cases h
    · rename_i b hb
      have hx : isVoiceUseCase p (outputHandle p use_case b devices) = false ∧
          isFmUseCase p (outputHandle p use_case b devices) = false := by
        cases hvi : verbInactive p use_case
        · exact not_voice_not_fm hp 5 (by decide) (by decide) _ (by simp [outputHandle, hvi]; rfl)
        · exact not_voice_not_fm hp 4 (by decide) (by decide) _ (by simp [outputHandle, hvi]; rfl)
      simp only at h
      split at h <;> (cases h; exact append_preserves s _ _ hx hinv)

/-- The function `openOutputSession` keeps the flags in step with the sessions. -/
theorem openOutputSession_preserves {p : Platform} (hp : p.DistinctNames)
    (s : AudioHardwareALSA) (r : OpenResult) (use_case : Option String)
    (openErr : Int) (devices : Nat) (hasStatus : Bool)
    (hinv : FlagsCountSessions p s)
    (h : openOutputSession p use_case openErr devices hasStatus s = Outcome.ok r) :
    FlagsCountSessions p r.state := by
  unfold openOutputSession at h
  split at h
  · cases h; exact hinv
  · split at h
    · cases h
    · rename_i b hb
      have hx : isVoiceUseCase p (sessionHandle p use_case b devices) = false ∧
          isFmUseCase p (sessionHandle p use_case b devices) = false := by
        cases hvi : verbInactive p use_case
        · exact not_voice_not_fm hp 7 (by decide) (by decide) _ (by simp [sessionHandle, hvi]; rfl)
        · exact not_voice_not_fm hp 6 (by decide) (by decide) _ (by simp [sessionHandle, hvi]; rfl)
      simp only at h
      cases h
      exact append_preserves s _ _ hx hinv

/-- The use case of a capture stream is one of the five capture names. -/
theorem inputUseCase_names (p : Platform) (use_case : Option String) (newMode : Int)
    (devices : Nat) (u : String) (h : inputUseCase p use_case newMode devices = some u) :
    ∃ i, 8 ≤ i ∧ i < 13 ∧ u = p.useCaseNames.getD i "" := by
  unfold inputUseCase at h
  split_ifs at h <;> cases h
  · exact ⟨11, by decide, by decide, rfl⟩
  · exact ⟨12, by decide, by decide, rfl⟩
  · exact ⟨8, by decide, by decide, rfl⟩
  · exact ⟨9, by decide, by decide, rfl⟩
  · exact ⟨10, by decide, by decide, rfl⟩

/-- The function `openInputStream` keeps the flags in step with the sessions. -/
theorem openInputStream_preserves {p : Platform} (hp : p.DistinctNames)
    (s : AudioHardwareALSA) (r : OpenResult) (use_case : Option String)
    (openErr setErr : Int) (devices : Nat) (sampleRate channelCount : Option Nat)
    (hasStatus : Bool) (hinv : FlagsCountSessions p s)
    (h : openInputStream p use_case openErr setErr devices sampleRate channelCount
      hasStatus s = Outcome.ok r) :
    FlagsCountSessions p r.state := by
  unfold openInputStream at h
  simp only at h
  split at h
  · cases h
  split at h
  · cases h; exact hinv
  · split at h
    · cases h
    · split at h
      · cases h; exact hinv
      · rename_i _ _ b hb _ u hu
        obtain ⟨i, h8, h13, hi⟩ := inputUseCase_names p use_case _ devices u hu
        have hx := not_voice_not_fm hp i (by omega) h13
          { inputHandle p u b devices with
            sampleRate := sampleRate.getD (inputHandle p u b devices).sampleRate
            channels := channelCount.getD (inputHandle p u b devices).channels } hi
        split at h <;> (cases h; exact append_preserves s _ _ hx hinv)

/-- The function `setParameters` keeps the flags in step with the sessions. -/
theorem setParameters_preserves {p : Platform} (hp : p.DistinctNames)
    (use_case : Nat → Option String) (param : AudioParameter) (s s1 : AudioHardwareALSA)
    (status : Int) (hinv : FlagsCountSessions p s)
    (h : setParameters p use_case param s = Outcome.ok (status, s1)) :
    FlagsCountSessions p s1 := by
  have hrest : ∀ (s s1 : AudioHardwareALSA) (status : Int), FlagsCountSessions p s →
      setParametersRest p use_case param s = Outcome.ok (status, s1) →
      FlagsCountSessions p s1 := by
    intro s s1 status hinv h
    unfold setParametersRest at h
    have h1 : ∃ a, (match param.dualMic with
        | some value => doRouting p (use_case 1) 0 { s with mDmicActive := value == "true" }
        | none => Outcome.ok s) = Outcome.ok a ∧ FlagsCountSessions p a := by
      cases hd : param.dualMic with
      | none => exact ⟨s, rfl, hinv⟩
      | some value =>
        rw [hd] at h
        simp only at h ⊢
        cases hr : doRouting p (use_case 1) 0 { s with mDmicActive := value == "true" } with
        | fault e => rw [hr] at h; simp [Outcome.bind] at h
        | ok a =>
          exact ⟨a, rfl, doRouting_preserves hp { s with mDmicActive := value == "true" } a
            _ _ hinv hr⟩
    obtain ⟨a, ha, hia⟩ := h1
    rw [ha] at h
    simp only [Outcome.bind] at h
    have h2 : ∃ b, (match param.anc with
        | some value => doRouting p (use_case 2) 0 { a with mAncActive := value == "true" }
        | none => Outcome.ok a) = Outcome.ok b ∧ FlagsCountSessions p b := by
      cases hd : param.anc with
      | none => exact ⟨a, rfl, hia⟩
      | some value =>
        rw [hd] at h
        simp only at h ⊢
        cases hr : doRouting p (use_case 2) 0 { a with mAncActive := value == "true" } with
        | fault e => rw [hr] at h; simp [Outcome.bind] at h
        | ok b =>
          exact ⟨b, rfl, doRouting_preserves hp { a with mAncActive := value == "true" } b
            _ _ hia hr⟩
    obtain ⟨b, hb, hib⟩ := h2
    rw [hb] at h
    simp only [Outcome.bind] at h
    have h3 : ∃ c, (match param.routing with
        | some device =>
          if device ≠ 0 then doRouting p (use_case 3) device b else Outcome.ok b
        | none => Outcome.ok b) = Outcome.ok c ∧ FlagsCountSessions p c := by
      cases hd : param.routing with
      | none => exact ⟨b, rfl, hib⟩
      | some device =>
        rw [hd] at h
        simp only at h ⊢
        by_cases h0 : device ≠ 0
        · rw [if_pos h0] at h ⊢
          cases hr : doRouting p (use_case 3) device b with
          | fault e => rw [hr] at h; simp [Outcome.bind] at h
          | ok c => exact ⟨c, rfl, doRouting_preserves hp _ c _ _ hib hr⟩
        · rw [if_neg h0]
          exact ⟨b, rfl, hib⟩
    obtain ⟨c, hc, hic⟩ := h3
    rw [hc] at h
    simp only [Outcome.bind] at h
    injection h with h
    injection h with _ h
    subst h
    obtain ⟨hv, hf⟩ := hic
    cases param.btRate <;> cases param.vgs <;> exact ⟨hv, hf⟩
  unfold setParameters at h
  cases ht : param.ttyMode with
  | none => rw [ht] at h; exact hrest s s1 status hinv h
  | some value =>
    rw [ht] at h
    simp only at h
    split_ifs at h with hm
    · injection h with h
      injection h with _ h
      subst h
      exact hinv
    · cases hr : doRouting p (use_case 0) 0 { s with mTtyMode := ttyModeOf value } with
      | fault e => rw [hr] at h; simp [Outcome.bind] at h
      | ok a =>
        rw [hr] at h
        simp only [Outcome.bind] at h
        exact hrest a s1 status
          (doRouting_preserves hp { s with mTtyMode := ttyModeOf value } a _ _ hinv hr) h

/-- In every reachable state the flags are in step with the sessions. -/
theorem reachable_flagsCountSessions {p : Platform} (hp : p.DistinctNames)
    (s : AudioHardwareALSA) (hs : Reachable p s) : FlagsCountSessions p s := by
  induction hs with
  | start mode => exact ⟨rfl, rfl⟩
  | setMode s mode _ ih => exact ih
  | setFlags s dmic anc vgs tty _ ih => exact ih
  | routing s s1 use_case device _ h ih => exact doRouting_preserves hp s s1 use_case device ih h
  | outputStream s r use_case openErr setErr devices hasStatus _ h ih =>
    exact openOutputStream_preserves hp s r use_case openErr setErr devices hasStatus ih h
  | outputSession s r use_case openErr devices hasStatus _ h ih =>
    exact openOutputSession_preserves hp s r use_case openErr devices hasStatus ih h
  | inputStream s r use_case openErr setErr devices sampleRate channelCount hasStatus _ h ih =>
    exact openInputStream_preserves hp s r use_case openErr setErr devices sampleRate
      channelCount hasStatus ih h
  | parameters s s1 status use_case param _ h ih =>
    exact setParameters_preserves hp use_case param s s1 status ih h

/-- C6: when the use-case names are pairwise different, every state reachable from the
constructor's state (empty list, both flags false) by mode changes, flag writes,
`doRouting` calls and stream-open calls, with any masks and modes, holds at most one
FM session and at most one voice session; `mIsFmActive` is set exactly when an FM
session is registered and `mIsVoiceCallActive` exactly when a voice session is. -/
theorem reachable_one_session_per_flag (p : Platform) (hp : p.DistinctNames)
    (s : AudioHardwareALSA) (hs : Reachable p s) :
    s.mDeviceList.countP (isFmUseCase p) ≤ 1 ∧
    s.mDeviceList.countP (isVoiceUseCase p) ≤ 1 ∧
    (s.mIsFmActive = true ↔ ∃ h ∈ s.mDeviceList, isFmUseCase p h = true) ∧
    (s.mIsVoiceCallActive = true ↔ ∃ h ∈ s.mDeviceList, isVoiceUseCase p h = true) := by
  obtain ⟨hv, hf⟩ := reachable_flagsCountSessions hp s hs
  refine ⟨?_, ?_, ?_, ?_⟩
  · rw [hf]; split <;> omega
  · rw [hv]; split <;> omega
  · rw [← List.countP_pos_iff, hf]
    cases s.mIsFmActive <;> simp
  · rw [← List.countP_pos_iff, hv]
    cases s.mIsVoiceCallActive <;> simp

/-- The reachable state after two requests for the FM output bit in a row holds one
FM session. -/
theorem reachable_one_session_per_flag_witness :
    Reachable samplePlatform sampleFmAgain ∧
    sampleFmAgain.mDeviceList.countP (isFmUseCase samplePlatform) ≤ 1 ∧
    sampleFmAgain.mDeviceList.countP (isVoiceUseCase samplePlatform) ≤ 1 ∧
    (sampleFmAgain.mIsFmActive = true ↔
      ∃ h ∈ sampleFmAgain.mDeviceList, isFmUseCase samplePlatform h = true) ∧
    (sampleFmAgain.mIsVoiceCallActive = true ↔
      ∃ h ∈ sampleFmAgain.mDeviceList, isVoiceUseCase samplePlatform h = true) :=
  have hs : Reachable samplePlatform sampleFmAgain :=
    Reachable.routing sampleFm sampleFmAgain (some "FM Digital Radio") 0x800
      (Reachable.routing (initial samplePlatform.MODE_NORMAL) sampleFm none 0x800
        (Reachable.start samplePlatform.MODE_NORMAL) (by decide))
      (by decide)
  ⟨hs, reachable_one_session_per_flag samplePlatform (by decide) sampleFmAgain hs⟩

/-! ## Failure of the transport open call -/

/-- C7 as stated fails: on `samplePlatform`, from the constructor's state, each open
function is called with a single-device mask and the transport open call returns
the error -19. The error is stored through the status pointer, but the session list
is not as before the call: it holds the session that was appended before the open
call. -/
theorem open_failure_leaves_session :
    (∃ r, openOutputStream samplePlatform none (-19) 0 2 true (initial 0) = Outcome.ok r ∧
      r.status = some (-19) ∧ r.state.mDeviceList ≠ (initial 0).mDeviceList ∧
      r.state.mDeviceList.length = 1) ∧
    (∃ r, openOutputSession samplePlatform none (-19) 2 true (initial 0) = Outcome.ok r ∧
      r.status = some (-19) ∧ r.state.mDeviceList ≠ (initial 0).mDeviceList ∧
      r.state.mDeviceList.length = 1) ∧
    (∃ r, openInputStream samplePlatform none (-19) 0 0x40000 (some 8000) (some 1) true
        (initial 0) = Outcome.ok r ∧
      r.status = some (-19) ∧ r.state.mDeviceList ≠ (initial 0).mDeviceList ∧
      r.state.mDeviceList.length = 1) :=
  ⟨⟨_, rfl, by decide, by decide, by decide⟩, ⟨_, rfl, by decide, by decide, by decide⟩,
    ⟨_, rfl, by decide, by decide, by decide⟩⟩

/-- C7, amended: for each open function called with a mask that passes the device
test (and `openInputStream` with valid `channels` and `sampleRate` pointers), when the
transport open call is reached and returns an error, that error is what is stored
through the status pointer, and the session appended before the open call stays
registered: the list after the call is the list before the call followed by the
session on which the open call, the last call made, was issued. The two output
functions always reach the open call; `openInputStream` reaches it exactly when
lines 643-665 choose a use case, and otherwise returns with the list as it was. -/
theorem open_failure_keeps_session (p : Platform) (s : AudioHardwareALSA)
    (use_case : Option String) (openErr setErr : Int) (devices : Nat)
    (sampleRate channelCount : Nat) (hasStatus : Bool)
    (hdev : badDevices devices = false) (herr : openErr ≠ 0) :
    (∃ r h, openOutputStream p use_case openErr setErr devices hasStatus s = Outcome.ok r ∧
      r.status = storeStatus hasStatus openErr ∧
      r.state.mDeviceList = s.mDeviceList ++ [h] ∧
      r.state.calls.getLast? = some (Call.openPcm (HandleRef.node h))) ∧
    (∃ r h, openOutputSession p use_case openErr devices hasStatus s = Outcome.ok r ∧
      r.status = storeStatus hasStatus openErr ∧
      r.state.mDeviceList = s.mDeviceList ++ [h] ∧
      r.state.calls.getLast? = some (Call.openPcm (HandleRef.node h))) ∧
    (∀ u, inputUseCase p use_case s.mMode devices = some u →
      ∃ r h, openInputStream p use_case openErr setErr devices (some sampleRate)
          (some channelCount) hasStatus s = Outcome.ok r ∧
        r.status = storeStatus hasStatus openErr ∧
        r.state.mDeviceList = s.mDeviceList ++ [h] ∧
        r.state.calls.getLast? = some (Call.openPcm (HandleRef.node h))) ∧
    (inputUseCase p use_case s.mMode devices = none →
      ∃ r, openInputStream p use_case openErr setErr devices (some sampleRate)
          (some channelCount) hasStatus s = Outcome.ok r ∧
        r.stream = none ∧ r.state.mDeviceList = s.mDeviceList ∧
        r.state.calls = s.calls ++ [Call.getVerb]) := by
  obtain ⟨b, hb⟩ := roundBufferSize_total p.wordBits p.DEFAULT_BUFFER_SIZE
  obtain ⟨bi, hbi⟩ := roundBufferSize_total p.wordBits p.DEFAULT_IN_BUFFER_SIZE
  refine ⟨?_, ?_, ?_, ?_⟩
  · refine ⟨?r1, outputHandle p use_case b devices, ?c1, ?_, ?_, ?_⟩
    case c1 =>
      simp only [openOutputStream, hdev, hb, Bool.false_eq_true, if_false]
      rw [if_pos herr]
      exact rfl
    · rfl
    · rfl
    · simp
  · refine ⟨?r2, sessionHandle p use_case b devices, ?c2, ?_, ?_, ?_⟩
    case c2 =>
      simp only [openOutputSession, hdev, hb, Bool.false_eq_true, if_false]
      exact rfl
    · rfl
    · rfl
    · simp
  · intro u hu
    refine ⟨?r3, { inputHandle p u bi devices with
        sampleRate := sampleRate
        channels := channelCount }, ?c3, ?_, ?_, ?_⟩
    case c3 =>
      simp only [openInputStream, Option.isNone_some, Bool.or_self, hdev, hbi, hu,
        Bool.false_eq_true, if_false]
      rw [if_pos herr]
      exact rfl
    · rfl
    · rfl
    · simp
  · intro hu
    refine ⟨?r4, ?c4, ?_, ?_, ?_⟩
    case c4 =>
      simp only [openInputStream, Option.isNone_some, Bool.or_self, hdev, hbi, hu,
        Bool.false_eq_true, if_false]
      exact rfl
    · rfl
    · rfl
    · rfl

/-- The failure on `samplePlatform`: a request for the built-in mic, a single device,
with the transport open call returning -19. -/
theorem open_failure_keeps_session_witness :
    (∃ r h, openOutputStream samplePlatform none (-19) 0 0x40000 true (initial 0) =
        Outcome.ok r ∧
      r.status = storeStatus true (-19) ∧
      r.state.mDeviceList = (initial 0).mDeviceList ++ [h] ∧
      r.state.calls.getLast? = some (Call.openPcm (HandleRef.node h))) ∧
    (∃ r h, openOutputSession samplePlatform none (-19) 0x40000 true (initial 0) =
        Outcome.ok r ∧
      r.status = storeStatus true (-19) ∧
      r.state.mDeviceList = (initial 0).mDeviceList ++ [h] ∧
      r.state.calls.getLast? = some (Call.openPcm (HandleRef.node h))) ∧
    (∃ r h, openInputStream samplePlatform none (-19) 0 0x40000 (some 8000) (some 1) true
        (initial 0) = Outcome.ok r ∧
      r.status = storeStatus true (-19) ∧
      r.state.mDeviceList = (initial 0).mDeviceList ++ [h] ∧
      r.state.calls.getLast? = some (Call.openPcm (HandleRef.node h))) :=
  have h := open_failure_keeps_session samplePlatform (initial 0) none (-19) 0 0x40000
    8000 1 true (by decide) (by decide)
  ⟨h.1, h.2.1, h.2.2.1 "HiFi Rec" (by decide)⟩

/-! ## The in-call expansion -/

/-- The search `find?` on a non-empty list, as a conditional. -/
theorem find?_cons_ite {α : Type} (f : α → Bool) (a : α) (l : List α) :
    (a :: l).find? f = if f a = true then some a else l.find? f := by
  cases h : f a <;> simp [List.find?, h]

/-- The code's chain of tests is the rule table read first match first. -/
theorem inCallSymmetry_eq_apply (p : Platform) (mode : Int) (mask : Nat) :
    inCallSymmetry p mode mask = applyInCallSymmetry p mode mask := by
  unfold inCallSymmetry applyInCallSymmetry
  by_cases hm : mode = p.MODE_IN_CALL
  · simp only [hm, if_true, inCallRules, find?_cons_ite, List.find?_nil, SymmetryRule.fires,
      List.any_cons, List.any_nil, Bool.or_false, Bool.or_eq_true, bne_iff_ne, ne_eq]
    split_ifs <;> rfl
  · simp only [hm, if_false]

/-- C8: with the device constants distinct single bits, the in-call step of
`doRouting` in mode `MODE_IN_CALL` returns the mask OR-ed with the pair of the first
rule of the table (wired-headset pair, wired headphone + built-in mic, earpiece +
built-in mic, speaker + default input, Bluetooth SCO pair, ANC-headset pair, ANC
headphone + built-in mic) whose trigger the mask has, and with nothing else; it
returns the mask unchanged when no rule matches and in every other mode. A request
for the speaker bit alone yields the speaker bit and the default input bit. -/
theorem inCallSymmetry_first_match (p : Platform) (hp : p.SingleBits) :
    (∀ (mask i : Nat) (r : SymmetryRule), (inCallRules p)[i]? = some r → r.fires mask = true →
      (∀ (j : Nat) (r1 : SymmetryRule), j < i → (inCallRules p)[j]? = some r1 →
        r1.fires mask = false) →
      inCallSymmetry p p.MODE_IN_CALL mask = mask ||| r.pair) ∧
    (∀ mask : Nat, (∀ r ∈ inCallRules p, r.fires mask = false) →
      inCallSymmetry p p.MODE_IN_CALL mask = mask) ∧
    (∀ (mode : Int) (mask : Nat), mode ≠ p.MODE_IN_CALL →
      inCallSymmetry p mode mask = mask) ∧
    (∀ (mode : Int) (mask : Nat),
      inCallSymmetry p mode mask = applyInCallSymmetry p mode mask) ∧
    inCallSymmetry p p.MODE_IN_CALL p.DEVICE_OUT_SPEAKER =
      p.DEVICE_OUT_SPEAKER ||| p.DEVICE_IN_DEFAULT ∧
    (inCallSymmetry p p.MODE_IN_CALL p.DEVICE_OUT_SPEAKER) &&& p.DEVICE_OUT_SPEAKER =
      p.DEVICE_OUT_SPEAKER ∧
    (inCallSymmetry p p.MODE_IN_CALL p.DEVICE_OUT_SPEAKER) &&& p.DEVICE_IN_DEFAULT =
      p.DEVICE_IN_DEFAULT := by
  have hfirst : ∀ (l : List SymmetryRule) (mask i : Nat) (r : SymmetryRule),
      l[i]? = some r → r.fires mask = true →
      (∀ (j : Nat) (r1 : SymmetryRule), j < i → l[j]? = some r1 → r1.fires mask = false) →
      l.find? (fun r => r.fires mask) = some r := by
    intro l
    induction l with
    | nil => intro mask i r h; simp at h
    | cons a t ih =>
      intro mask i r h hf hprev
      cases i with
      | zero =>
        simp at h
        subst h
        simp [List.find?, hf]
      | succ n =>
        have ha : a.fires mask = false := hprev 0 a (by omega) (by simp)
        simp at h
        have := ih mask n r h hf
          (fun j r1 hj hr1 => hprev (j + 1) r1 (by omega) (by simpa using hr1))
        simp [List.find?, ha, this]
  have hnone : ∀ (l : List SymmetryRule) (mask : Nat),
      (∀ r ∈ l, r.fires mask = false) → l.find? (fun r => r.fires mask) = none := by
    intro l mask h
    simp only [List.find?_eq_none]
    intro r hr
    simp [h r hr]
  have hspk : inCallSymmetry p p.MODE_IN_CALL p.DEVICE_OUT_SPEAKER =
      p.DEVICE_OUT_SPEAKER ||| p.DEVICE_IN_DEFAULT := by
    have d2 : p.DEVICE_OUT_SPEAKER &&& p.DEVICE_OUT_WIRED_HEADSET = 0 :=
      hp.disjoint 1 2 (by decide) (by decide) (by decide)
    have d11 : p.DEVICE_OUT_SPEAKER &&& p.DEVICE_IN_WIRED_HEADSET = 0 :=
      hp.disjoint 1 11 (by decide) (by decide) (by decide)
    have d3 : p.DEVICE_OUT_SPEAKER &&& p.DEVICE_OUT_WIRED_HEADPHONE = 0 :=
      hp.disjoint 1 3 (by decide) (by decide) (by decide)
    have d0 : p.DEVICE_OUT_SPEAKER &&& p.DEVICE_OUT_EARPIECE = 0 :=
      hp.disjoint 1 0 (by decide) (by decide) (by decide)
    have d9 : p.DEVICE_OUT_SPEAKER &&& p.DEVICE_IN_BUILTIN_MIC = 0 :=
      hp.disjoint 1 9 (by decide) (by decide) (by decide)
    have hne : p.DEVICE_OUT_SPEAKER &&& p.DEVICE_OUT_SPEAKER ≠ 0 := by
      obtain ⟨k, _, ek⟩ : ∃ k, k < 32 ∧ p.DEVICE_OUT_SPEAKER = 2 ^ k :=
        hp.single 1 (by decide)
      rw [Nat.and_self, ek]
      exact Nat.pos_iff_ne_zero.1 (Nat.two_pow_pos k)
    unfold inCallSymmetry
    simp only [if_true, d2, d11, d3, d0, d9, ne_eq, not_true_eq_false, or_self, if_false]
    rw [if_pos hne]
    apply Nat.eq_of_testBit_eq
    intro i
    simp only [Nat.testBit_or]
    cases p.DEVICE_OUT_SPEAKER.testBit i <;> cases p.DEVICE_IN_DEFAULT.testBit i <;> rfl
  refine ⟨?_, ?_, ?_, inCallSymmetry_eq_apply p, hspk, ?_, ?_⟩
  · intro mask i r h hf hprev
    rw [inCallSymmetry_eq_apply]
    unfold applyInCallSymmetry
    rw [if_pos rfl, hfirst _ mask i r h hf hprev]
  · intro mask h
    rw [inCallSymmetry_eq_apply]
    unfold applyInCallSymmetry
    rw [if_pos rfl, hnone _ mask h]
  · intro mode mask hm
    unfold inCallSymmetry
    rw [if_neg hm]
  · rw [hspk]
    apply Nat.eq_of_testBit_eq
    intro i
    simp only [Nat.testBit_or, Nat.testBit_and]
    cases p.DEVICE_OUT_SPEAKER.testBit i <;> cases p.DEVICE_IN_DEFAULT.testBit i <;> rfl
  · rw [hspk]
    apply Nat.eq_of_testBit_eq
    intro i
    simp only [Nat.testBit_or, Nat.testBit_and]
    cases p.DEVICE_OUT_SPEAKER.testBit i <;> cases p.DEVICE_IN_DEFAULT.testBit i <;> rfl

/-- The expansion on `samplePlatform`: the speaker alone, and the speaker together
with Bluetooth SCO, where the speaker rule is the first to match and the Bluetooth
rule adds nothing. -/
theorem inCallSymmetry_first_match_witness :
    samplePlatform.SingleBits ∧
    inCallSymmetry samplePlatform samplePlatform.MODE_IN_CALL samplePlatform.DEVICE_OUT_SPEAKER =
      samplePlatform.DEVICE_OUT_SPEAKER ||| samplePlatform.DEVICE_IN_DEFAULT ∧
    inCallSymmetry samplePlatform samplePlatform.MODE_IN_CALL 0x12 = 0x80000012 :=
  ⟨by decide, (inCallSymmetry_first_match samplePlatform (by decide)).2.2.2.2.1,
    (inCallSymmetry_first_match samplePlatform (by decide)).1 0x12 3
      { triggers := [samplePlatform.DEVICE_OUT_SPEAKER]
        pair := samplePlatform.DEVICE_IN_DEFAULT ||| samplePlatform.DEVICE_OUT_SPEAKER }
      rfl (by decide)
      (by
        intro j r1 hj h
        have hj3 : j = 0 ∨ j = 1 ∨ j = 2 := by omega
        rcases hj3 with e | e | e <;> subst e <;> cases h <;> decide)⟩

/-! ## The dual-mic adjustment -/

/-- C9: for every 32-bit mask and either value of `mDmicActive`, with the back-mic
constant a 32-bit value, applying the dual-mic adjustment of lines 354-358 twice gives
the same mask as applying it once, and the adjustment changes no bit outside the
back-mic constant. -/
theorem dualMic_idempotent (p : Platform) (mDmicActive : Bool) (device : Nat)
    (hdev : device < 2 ^ 32) (hback : p.DEVICE_IN_BACK_MIC < 2 ^ 32) :
    dualMic p mDmicActive (dualMic p mDmicActive device) = dualMic p mDmicActive device ∧
    ∀ i, p.DEVICE_IN_BACK_MIC.testBit i = false →
      (dualMic p mDmicActive device).testBit i = device.testBit i := by
  have hclear : (device &&& bitNot 32 p.DEVICE_IN_BACK_MIC) &&& p.DEVICE_IN_BACK_MIC = 0 := by
    apply Nat.eq_of_testBit_eq
    intro i
    simp only [bitNot, Nat.testBit_and, Nat.testBit_xor, Nat.testBit_two_pow_sub_one,
      Nat.zero_testBit]
    cases hb : p.DEVICE_IN_BACK_MIC.testBit i
    · simp
    · have := testBit_lt_width hback hb
      simp [this]
  have hF : ∀ d, dualMic p false d =
      if d &&& p.DEVICE_IN_BACK_MIC ≠ 0 then d &&& bitNot 32 p.DEVICE_IN_BACK_MIC else d := by
    intro d; simp [dualMic]
  have hT : ∀ d, dualMic p true d =
      if d &&& p.DEVICE_IN_BUILTIN_MIC ≠ 0 then d ||| p.DEVICE_IN_BACK_MIC else d := by
    intro d; simp [dualMic]
  constructor
  · cases mDmicActive
    · rw [hF device]
      split_ifs with h
      · rw [hF, if_neg (by rw [hclear]; exact fun h0 => h0 rfl)]
      · rw [hF, if_neg h]
    · rw [hT device]
      split_ifs with h
      · have hmic : (device ||| p.DEVICE_IN_BACK_MIC) &&& p.DEVICE_IN_BUILTIN_MIC ≠ 0 := by
          intro h0
          apply h
          apply Nat.eq_of_testBit_eq
          intro i
          have hi := congrArg (fun n => Nat.testBit n i) h0
          simp only [Nat.testBit_and, Nat.testBit_or, Nat.zero_testBit] at hi ⊢
          cases hd : device.testBit i
          · simp
          · rw [hd] at hi; simpa using hi
        rw [hT, if_pos hmic]
        apply Nat.eq_of_testBit_eq
        intro i
        simp only [Nat.testBit_or, Bool.or_assoc, Bool.or_self]
      · rw [hT, if_neg h]
  · intro i hi
    unfold dualMic
    split_ifs
    · simp [Nat.testBit_or, hi]
    · simp only [bitNot, Nat.testBit_and, Nat.testBit_xor, Nat.testBit_two_pow_sub_one, hi]
      cases hd : device.testBit i
      · simp
      · have := testBit_lt_width hdev hd
        simp [this]
    · rfl

/-- The adjustment on `samplePlatform`, applied to the built-in mic with dual-mic
active. -/
theorem dualMic_idempotent_witness :
    dualMic samplePlatform true (dualMic samplePlatform true 0x40000) =
      dualMic samplePlatform true 0x40000 ∧
    ∀ i, samplePlatform.DEVICE_IN_BACK_MIC.testBit i = false →
      (dualMic samplePlatform true 0x40000).testBit i = Nat.testBit 0x40000 i :=
  dualMic_idempotent samplePlatform true 0x40000 (by decide) (by decide)

/-! ## The ANC substitution for an empty mask -/

/-- Every device constant meets itself, when the constants are single bits. -/
theorem Platform.SingleBits.self_ne_zero {p : Platform} (h : p.SingleBits) (i : Nat)
    (hi : i < 18) : p.deviceConstants.getD i 0 &&& p.deviceConstants.getD i 0 ≠ 0 := by
  obtain ⟨k, _, ek⟩ := h.single i hi
  rw [Nat.and_self, ek]
  exact Nat.pos_iff_ne_zero.1 (Nat.two_pow_pos k)

/-- C10: with the device constants distinct single bits and an empty requested mask.
If the most recent session has the wired-headset output bit, the substitution with ANC
active yields the ANC-headset output bit, and the substitution with ANC inactive,
against a most recent session whose mask is that result, yields the wired-headset
output bit again; the same holds for the input bits when the session has the
wired-headset input bit and not the output bit. In the other direction, ANC inactive
and then ANC active restore the ANC-headset output bit, or the input bit. -/
theorem ancSubstitute_round_trip (p : Platform) (hp : p.SingleBits)
    (l l1 : List alsa_handle_t) (it it1 : alsa_handle_t)
    (hl : l.getLast? = some it) (hl1 : l1.getLast? = some it1) :
    (it.devices &&& p.DEVICE_OUT_WIRED_HEADSET ≠ 0 →
      ancSubstitute p true l 0 = AncResult.device p.DEVICE_OUT_ANC_HEADSET ∧
      (it1.devices = p.DEVICE_OUT_ANC_HEADSET →
        ancSubstitute p false l1 0 = AncResult.device p.DEVICE_OUT_WIRED_HEADSET)) ∧
    (it.devices &&& p.DEVICE_OUT_WIRED_HEADSET = 0 →
      it.devices &&& p.DEVICE_IN_WIRED_HEADSET ≠ 0 →
      ancSubstitute p true l 0 = AncResult.device p.DEVICE_IN_ANC_HEADSET ∧
      (it1.devices = p.DEVICE_IN_ANC_HEADSET →
        ancSubstitute p false l1 0 = AncResult.device p.DEVICE_IN_WIRED_HEADSET)) ∧
    (it.devices &&& p.DEVICE_OUT_ANC_HEADSET ≠ 0 →
      ancSubstitute p false l 0 = AncResult.device p.DEVICE_OUT_WIRED_HEADSET ∧
      (it1.devices = p.DEVICE_OUT_WIRED_HEADSET →
        ancSubstitute p true l1 0 = AncResult.device p.DEVICE_OUT_ANC_HEADSET)) ∧
    (it.devices &&& p.DEVICE_OUT_ANC_HEADSET = 0 →
      it.devices &&& p.DEVICE_IN_ANC_HEADSET ≠ 0 →
      ancSubstitute p false l 0 = AncResult.device p.DEVICE_IN_WIRED_HEADSET ∧
      (it1.devices = p.DEVICE_IN_WIRED_HEADSET →
        ancSubstitute p true l1 0 = AncResult.device p.DEVICE_IN_ANC_HEADSET)) := by
  have oa : p.DEVICE_OUT_ANC_HEADSET &&& p.DEVICE_OUT_ANC_HEADSET ≠ 0 :=
    hp.self_ne_zero 7 (by decide)
  have ia : p.DEVICE_IN_ANC_HEADSET &&& p.DEVICE_IN_ANC_HEADSET ≠ 0 :=
    hp.self_ne_zero 14 (by decide)
  have ow : p.DEVICE_OUT_WIRED_HEADSET &&& p.DEVICE_OUT_WIRED_HEADSET ≠ 0 :=
    hp.self_ne_zero 2 (by decide)
  have iw : p.DEVICE_IN_WIRED_HEADSET &&& p.DEVICE_IN_WIRED_HEADSET ≠ 0 :=
    hp.self_ne_zero 11 (by decide)
  have iaoa : p.DEVICE_IN_ANC_HEADSET &&& p.DEVICE_OUT_ANC_HEADSET = 0 :=
    hp.disjoint 14 7 (by decide) (by decide) (by decide)
  have iwow : p.DEVICE_IN_WIRED_HEADSET &&& p.DEVICE_OUT_WIRED_HEADSET = 0 :=
    hp.disjoint 11 2 (by decide) (by decide) (by decide)
  have hon : ∀ (m : List alsa_handle_t) (x : alsa_handle_t), m.getLast? = some x →
      ancSubstitute p true m 0 =
        if x.devices &&& p.DEVICE_OUT_WIRED_HEADSET ≠ 0 then
          AncResult.device p.DEVICE_OUT_ANC_HEADSET
        else if x.devices &&& p.DEVICE_IN_WIRED_HEADSET ≠ 0 then
          AncResult.device p.DEVICE_IN_ANC_HEADSET
        else AncResult.ignored := by
    intro m x hm
    simp [ancSubstitute, hm]
  have hoff : ∀ (m : List alsa_handle_t) (x : alsa_handle_t), m.getLast? = some x →
      ancSubstitute p false m 0 =
        if x.devices &&& p.DEVICE_OUT_ANC_HEADSET ≠ 0 then
          AncResult.device p.DEVICE_OUT_WIRED_HEADSET
        else if x.devices &&& p.DEVICE_IN_ANC_HEADSET ≠ 0 then
          AncResult.device p.DEVICE_IN_WIRED_HEADSET
        else AncResult.device 0 := by
    intro m x hm
    simp [ancSubstitute, hm]
  refine ⟨?_, ?_, ?_, ?_⟩
  · intro h
    refine ⟨by rw [hon l it hl, if_pos h], ?_⟩
    intro e
    rw [hoff l1 it1 hl1, e, if_pos oa]
  · intro h0 h
    refine ⟨by rw [hon l it hl, if_neg (not_not.2 h0), if_pos h], ?_⟩
    intro e
    rw [hoff l1 it1 hl1, e, if_neg (not_not.2 iaoa), if_pos ia]
  · intro h
    refine ⟨by rw [hoff l it hl, if_pos h], ?_⟩
    intro e
    rw [hon l1 it1 hl1, e, if_pos ow]
  · intro h0 h
    refine ⟨by rw [hoff l it hl, if_neg (not_not.2 h0), if_pos h], ?_⟩
    intro e
    rw [hon l1 it1 hl1, e, if_neg (not_not.2 iwow), if_pos iw]

/-- The round trip on `samplePlatform`: the most recent session is on the wired
headset output `0x4`; ANC on gives `0x1000`, and ANC off against a session on `0x1000`
gives `0x4` again. -/
theorem ancSubstitute_round_trip_witness :
    ancSubstitute samplePlatform true [outputHandle samplePlatform none 4096 0x4] 0 =
      AncResult.device 0x1000 ∧
    ancSubstitute samplePlatform false [outputHandle samplePlatform none 4096 0x1000] 0 =
      AncResult.device 0x4 :=
  have h := (ancSubstitute_round_trip samplePlatform (by decide)
    [outputHandle samplePlatform none 4096 0x4] [outputHandle samplePlatform none 4096 0x1000]
    (outputHandle samplePlatform none 4096 0x4) (outputHandle samplePlatform none 4096 0x1000)
    rfl rfl).1 (by decide)
  ⟨h.1, h.2 rfl⟩

/-! ## The frame of the ANC substitution -/

/-- C11: for every non-empty 32-bit requested mask, either ANC state and every session
list, the ANC substitution of lines 296-324 returns a mask, and that mask agrees with
the requested mask on every bit that none of the four constants wired-headset output,
wired-headset input, ANC-headset output and ANC-headset input has; for an empty
requested mask, a mask that the substitution returns has no bit outside those four
constants. -/
theorem ancSubstitute_frame (p : Platform) (mAncActive : Bool) (l : List alsa_handle_t)
    (device : Nat) (hdev : device < 2 ^ 32) :
    (device ≠ 0 →
      ∃ d, ancSubstitute p mAncActive l device = AncResult.device d ∧
        ∀ i, p.DEVICE_OUT_WIRED_HEADSET.testBit i = false →
          p.DEVICE_IN_WIRED_HEADSET.testBit i = false →
          p.DEVICE_OUT_ANC_HEADSET.testBit i = false →
          p.DEVICE_IN_ANC_HEADSET.testBit i = false →
          d.testBit i = device.testBit i) ∧
    (∀ d, ancSubstitute p mAncActive l 0 = AncResult.device d →
      ∀ i, p.DEVICE_OUT_WIRED_HEADSET.testBit i = false →
        p.DEVICE_IN_WIRED_HEADSET.testBit i = false →
        p.DEVICE_OUT_ANC_HEADSET.testBit i = false →
        p.DEVICE_IN_ANC_HEADSET.testBit i = false →
        d.testBit i = false) := by
  have hclear : ∀ x i, x.testBit i = false →
      (device &&& bitNot 32 x).testBit i = device.testBit i := by
    intro x i hx
    simp only [bitNot, Nat.testBit_and, Nat.testBit_xor, Nat.testBit_two_pow_sub_one, hx]
    cases hd : device.testBit i
    · simp
    · have := testBit_lt_width hdev hd
      simp [this]
  constructor
  · intro hne
    cases mAncActive
    · exact ⟨device, by simp [ancSubstitute, hne], fun _ _ _ _ _ => rfl⟩
    · by_cases h1 : device &&& p.DEVICE_OUT_WIRED_HEADSET ≠ 0
      · refine ⟨(device &&& bitNot 32 p.DEVICE_OUT_WIRED_HEADSET) |||
          p.DEVICE_OUT_ANC_HEADSET, ?_, ?_⟩
        · simp only [ancSubstitute, if_true]
          rw [if_pos h1]
        · intro i ho _ hoa _
          simp [Nat.testBit_or, hclear _ i ho, hoa]
      · by_cases h2 : device &&& p.DEVICE_IN_WIRED_HEADSET ≠ 0
        · refine ⟨(device &&& bitNot 32 p.DEVICE_IN_WIRED_HEADSET) |||
            p.DEVICE_IN_ANC_HEADSET, ?_, ?_⟩
          · simp only [ancSubstitute, if_true]
            rw [if_neg h1, if_pos h2]
          · intro i _ hi _ hia
            simp [Nat.testBit_or, hclear _ i hi, hia]
        · refine ⟨device, ?_, fun _ _ _ _ _ => rfl⟩
          simp only [ancSubstitute, if_true]
          rw [if_neg h1, if_neg h2, if_neg hne]
  · intro d h i ho hi hoa hia
    unfold ancSubstitute at h
    simp only [Nat.zero_and, ne_eq, not_true_eq_false, if_false, if_true, and_true] at h
    split_ifs at h with h1
    · split at h
      · cases h
      · split_ifs at h <;> cases h
        all_goals first | exact hoa | exact hia
    · split at h
      · cases h
      · split_ifs at h <;> cases h
        all_goals first | exact ho | exact hi | exact Nat.zero_testBit i
    · cases h
      exact Nat.zero_testBit i

/-- The substitution on `samplePlatform` with ANC active: the wired-headset output
`0x4` requested together with the speaker `0x2`. -/
theorem ancSubstitute_frame_witness :
    ∃ d, ancSubstitute samplePlatform true [] 0x6 = AncResult.device d ∧
      ∀ i, samplePlatform.DEVICE_OUT_WIRED_HEADSET.testBit i = false →
        samplePlatform.DEVICE_IN_WIRED_HEADSET.testBit i = false →
        samplePlatform.DEVICE_OUT_ANC_HEADSET.testBit i = false →
        samplePlatform.DEVICE_IN_ANC_HEADSET.testBit i = false →
        d.testBit i = Nat.testBit 0x6 i :=
  (ancSubstitute_frame samplePlatform true [] 0x6 (by decide)).1 (by decide)

/-! ## The choice between verb and modifier -/

/-- The probe of the code finds no active verb exactly when the verb is empty or the
inactive one. -/
theorem verbInactive_iff (p : Platform) (use_case : Option String) :
    verbInactive p use_case = true ↔
      (use_case = none ∨ use_case = some p.SND_USE_CASE_VERB_INACTIVE) := by
  simp [verbInactive]

/-- A call site that appends `h`, with the use case chosen by the probe, and then
makes the four calls probe, route, set and one more, follows the rule. -/
theorem followsVerbRule_of (p : Platform) (use_case : Option String)
    (verb modifier : String) (hvm : verb ≠ modifier) (s s1 : AudioHardwareALSA)
    (h : alsa_handle_t) (c1 x c3 : Call)
    (hc1 : isSequencerSet c1 = false) (hc3 : isSequencerSet c3 = false)
    (hx : x = if h.useCase = verb then Call.setVerb verb else Call.setModifier modifier)
    (hl : s1.mDeviceList = s.mDeviceList ++ [h])
    (hu : h.useCase = if verbInactive p use_case = true then verb else modifier)
    (hc : s1.calls = s.calls ++ [Call.getVerb, c1, x, c3]) :
    FollowsVerbRule p use_case verb modifier s s1 := by
  subst hx
  have hg : isSequencerSet Call.getVerb = false := rfl
  have hsets : ∀ x, isSequencerSet x = true →
      sequencerSets [Call.getVerb, c1, x, c3] = [x] := by
    intro x hx
    simp [sequencerSets, List.filter, hc1, hc3, hx, hg]
  refine ⟨h, hl, ?_⟩
  rw [hc, List.drop_left, ← verbInactive_iff]
  cases hv : verbInactive p use_case
  · rw [hv] at hu
    simp only [Bool.false_eq_true, if_false] at hu
    have hne : ¬ h.useCase = verb := by rw [hu]; exact fun e => hvm e.symm
    rw [if_neg hne, hsets (Call.setModifier modifier) rfl]
    have hmv : ¬ modifier = verb := fun e => hvm e.symm
    simp [hu, hmv]
  · rw [hv] at hu
    simp only [if_true] at hu
    have hne : ¬ h.useCase = modifier := by rw [hu]; exact hvm
    rw [if_pos hu, hsets (Call.setVerb verb) rfl]
    simp [hu, hvm]

/-- A request that takes neither early return reaches the branch of lines 361-467
with the adjusted mask. -/
theorem doRouting_eq_routeBranch (p : Platform) (use_case : Option String)
    (device d : Nat) (s : AudioHardwareALSA)
    (hcap : isCaptureRequest p device = false)
    (hanc : ancSubstitute p s.mAncActive s.mDeviceList device = AncResult.device d) :
    doRouting p use_case device s =
      routeBranch p use_case (dualMic p s.mDmicActive (inCallSymmetry p s.mMode d)) s := by
  simp only [doRouting, hcap, hanc, Bool.false_eq_true, if_false]

/-- The start-voice branch follows the rule. -/
theorem routeBranch_voice_rule (p : Platform) (hn : p.DistinctNames)
    (use_case : Option String) (dev : Nat) (s : AudioHardwareALSA)
    (hmode : s.mMode = p.MODE_IN_CALL) (hv : s.mIsVoiceCallActive = false) :
    ∃ s1, routeBranch p use_case dev s = Outcome.ok s1 ∧
      FollowsVerbRule p use_case p.SND_USE_CASE_VERB_VOICECALL
        p.SND_USE_CASE_MOD_PLAY_VOICE s s1 := by
  obtain ⟨b, hb⟩ := roundBufferSize_total p.wordBits p.DEFAULT_BUFFER_SIZE
  refine ⟨?s1, ?c, ?_⟩
  case c =>
    simp only [routeBranch, hmode, hv, hb, and_self, if_true]
    exact rfl
  exact followsVerbRule_of p use_case _ _
    (hn.ne 0 1 (by decide) (by decide) (by decide)) s _ (voiceHandle p use_case b dev)
    (Call.route (HandleRef.node (voiceHandle p use_case b dev)) (dev % 2 ^ 32)
      p.MODE_IN_CALL s.mTtyMode) _
    (Call.startVoiceCall (HandleRef.node (voiceHandle p use_case b dev)))
    rfl rfl rfl rfl rfl rfl

/-- The start-FM branch follows the rule. -/
theorem routeBranch_fm_rule (p : Platform) (hn : p.DistinctNames)
    (use_case : Option String) (dev : Nat) (s : AudioHardwareALSA)
    (hstart : ¬ (s.mMode = p.MODE_IN_CALL ∧ s.mIsVoiceCallActive = false))
    (hend : ¬ (s.mMode = p.MODE_NORMAL ∧ s.mIsVoiceCallActive = true))
    (hbit : dev &&& p.DEVICE_OUT_FM ≠ 0) (hfm : s.mIsFmActive = false) :
    ∃ s1, routeBranch p use_case dev s = Outcome.ok s1 ∧
      FollowsVerbRule p use_case p.SND_USE_CASE_VERB_DIGITAL_RADIO
        p.SND_USE_CASE_MOD_PLAY_FM s s1 := by
  obtain ⟨b, hb⟩ := roundBufferSize_total p.wordBits p.FM_BUFFER_SIZE
  refine ⟨?s1, ?c, ?_⟩
  case c =>
    simp only [routeBranch, if_neg hstart, if_neg hend, hb]
    rw [if_pos ⟨hbit, hfm⟩]
    exact rfl
  exact followsVerbRule_of p use_case _ _
    (hn.ne 2 3 (by decide) (by decide) (by decide)) s _ (fmHandle p use_case b dev)
    (Call.route (HandleRef.node (fmHandle p use_case b dev)) (dev % 2 ^ 32) s.mMode
      s.mTtyMode) _
    (Call.startFm (HandleRef.node (fmHandle p use_case b dev))) rfl rfl rfl rfl rfl rfl

/-- The function `openOutputStream` follows the rule. -/
theorem openOutputStream_rule (p : Platform) (hn : p.DistinctNames)
    (use_case : Option String) (openErr setErr : Int) (devices : Nat) (hasStatus : Bool)
    (s : AudioHardwareALSA) (hdev : badDevices devices = false) :
    ∃ r, openOutputStream p use_case openErr setErr devices hasStatus s = Outcome.ok r ∧
      FollowsVerbRule p use_case p.SND_USE_CASE_VERB_HIFI p.SND_USE_CASE_MOD_PLAY_MUSIC
        s r.state := by
  obtain ⟨b, hb⟩ := roundBufferSize_total p.wordBits p.DEFAULT_BUFFER_SIZE
  have hrule : ∀ s1 : AudioHardwareALSA,
      s1.mDeviceList = s.mDeviceList ++ [outputHandle p use_case b devices] →
      s1.calls = s.calls ++
        [Call.getVerb,
         Call.route (HandleRef.node (outputHandle p use_case b devices)) devices s.mMode
           s.mTtyMode,
         if (outputHandle p use_case b devices).useCase = p.SND_USE_CASE_VERB_HIFI then
           Call.setVerb p.SND_USE_CASE_VERB_HIFI
         else Call.setModifier p.SND_USE_CASE_MOD_PLAY_MUSIC,
         Call.openPcm (HandleRef.node (outputHandle p use_case b devices))] →
      FollowsVerbRule p use_case p.SND_USE_CASE_VERB_HIFI p.SND_USE_CASE_MOD_PLAY_MUSIC
        s s1 := fun s1 hl hc =>
    followsVerbRule_of p use_case _ _ (hn.ne 4 5 (by decide) (by decide) (by decide)) s s1
      (outputHandle p use_case b devices)
      (Call.route (HandleRef.node (outputHandle p use_case b devices)) devices s.mMode
        s.mTtyMode) _
      (Call.openPcm (HandleRef.node (outputHandle p use_case b devices)))
      rfl rfl rfl hl rfl hc
  by_cases herr : openErr ≠ 0
  · refine ⟨?r1, ?c1, ?_⟩
    case c1 =>
      simp only [openOutputStream, hdev, hb, Bool.false_eq_true, if_false]
      rw [if_pos herr]
      exact rfl
    exact hrule _ rfl rfl
  · refine ⟨?r2, ?c2, ?_⟩
    case c2 =>
      simp only [openOutputStream, hdev, hb, Bool.false_eq_true, if_false]
      rw [if_neg herr]
      exact rfl
    exact hrule _ rfl rfl

/-- The function `openOutputSession` follows the rule. -/
theorem openOutputSession_rule (p : Platform) (hn : p.DistinctNames)
    (use_case : Option String) (openErr : Int) (devices : Nat) (hasStatus : Bool)
    (s : AudioHardwareALSA) (hdev : badDevices devices = false) :
    ∃ r, openOutputSession p use_case openErr devices hasStatus s = Outcome.ok r ∧
      FollowsVerbRule p use_case p.SND_USE_CASE_VERB_HIFI_LOW_POWER
        p.SND_USE_CASE_MOD_PLAY_LPA s r.state := by
  obtain ⟨b, hb⟩ := roundBufferSize_total p.wordBits p.DEFAULT_BUFFER_SIZE
  refine ⟨?r1, ?c1, ?_⟩
  case c1 =>
    simp only [openOutputSession, hdev, hb, Bool.false_eq_true, if_false]
    exact rfl
  exact followsVerbRule_of p use_case _ _ (hn.ne 6 7 (by decide) (by decide) (by decide)) s _
    (sessionHandle p use_case b devices)
    (Call.route (HandleRef.node (sessionHandle p use_case b devices)) devices s.mMode
      s.mTtyMode) _
    (Call.openPcm (HandleRef.node (sessionHandle p use_case b devices)))
    rfl rfl rfl rfl rfl rfl

/-- What `openInputStream` does once the use case `u` is chosen: it appends a session
with that use case and makes four calls, the third of which sets `u` as verb when `u`
is one of the two recording verbs and as modifier otherwise. -/
theorem openInputStream_calls (p : Platform) (use_case : Option String)
    (openErr setErr : Int) (devices : Nat) (sampleRate channelCount : Nat)
    (hasStatus : Bool) (s : AudioHardwareALSA) (u : String)
    (hdev : badDevices devices = false)
    (hu : inputUseCase p use_case s.mMode devices = some u) :
    ∃ r it c1 c3, openInputStream p use_case openErr setErr devices (some sampleRate)
        (some channelCount) hasStatus s = Outcome.ok r ∧
      r.state.mDeviceList = s.mDeviceList ++ [it] ∧ it.useCase = u ∧
      isSequencerSet c1 = false ∧ isSequencerSet c3 = false ∧
      r.state.calls = s.calls ++
        [Call.getVerb, c1,
         if u = p.SND_USE_CASE_VERB_HIFI_REC ∨ u = p.SND_USE_CASE_VERB_FM_REC then
           Call.setVerb u
         else Call.setModifier u, c3] := by
  obtain ⟨b, hb⟩ := roundBufferSize_total p.wordBits p.DEFAULT_IN_BUFFER_SIZE
  by_cases herr : openErr ≠ 0
  · refine ⟨?r1, ?it1, ?x1, ?y1, ?c1, ?l1, ?u1, ?sx1, ?sy1, ?k1⟩
    case c1 =>
      simp only [openInputStream, Option.isNone_some, Bool.or_self, hdev, hb, hu,
        Bool.false_eq_true, if_false]
      rw [if_pos herr]
      exact rfl
    case l1 => exact rfl
    case k1 => exact rfl
    case u1 => exact rfl
    case sx1 => exact rfl
    case sy1 => exact rfl
  · refine ⟨?r2, ?it2, ?x2, ?y2, ?c2, ?l2, ?u2, ?sx2, ?sy2, ?k2⟩
    case c2 =>
      simp only [openInputStream, Option.isNone_some, Bool.or_self, hdev, hb, hu,
        Bool.false_eq_true, if_false]
      rw [if_neg herr]
      exact rfl
    case l2 => exact rfl
    case k2 => exact rfl
    case u2 => exact rfl
    case sx2 => exact rfl
    case sy2 => exact rfl

/-- The function `openInputStream` follows the rule for a category with a recording
verb `verb` and a capture modifier `modifier`, when the use case is chosen between
the two by the probe. -/
theorem openInputStream_rule (p : Platform) (use_case : Option String)
    (openErr setErr : Int) (devices : Nat) (sampleRate channelCount : Nat)
    (hasStatus : Bool) (s : AudioHardwareALSA) (verb modifier : String)
    (hdev : badDevices devices = false) (hvm : verb ≠ modifier)
    (hverb : verb = p.SND_USE_CASE_VERB_HIFI_REC ∨ verb = p.SND_USE_CASE_VERB_FM_REC)
    (hmod : ¬ (modifier = p.SND_USE_CASE_VERB_HIFI_REC ∨
      modifier = p.SND_USE_CASE_VERB_FM_REC))
    (hu : inputUseCase p use_case s.mMode devices =
      some (if verbInactive p use_case = true then verb else modifier)) :
    ∃ r, openInputStream p use_case openErr setErr devices (some sampleRate)
        (some channelCount) hasStatus s = Outcome.ok r ∧
      FollowsVerbRule p use_case verb modifier s r.state := by
  obtain ⟨r, it, c1, c3, hcall, hl, hit, hc1, hc3, hc⟩ :=
    openInputStream_calls p use_case openErr setErr devices sampleRate channelCount
      hasStatus s _ hdev hu
  refine ⟨r, hcall, followsVerbRule_of p use_case verb modifier hvm s r.state it c1 _ c3
    hc1 hc3 ?_ hl hit hc⟩
  rw [hit]
  cases verbInactive p use_case
  · simp only [Bool.false_eq_true, if_false]
    rw [if_neg hmod, if_neg (fun e => hvm e.symm)]
  · simp only [if_true]
    rw [if_pos hverb]

/-- C12: with the use-case names pairwise different, every call site that creates a
session follows the rule of section 4.2. At the voice-call start and the FM start of
`doRouting`, in `openOutputStream`, in `openOutputSession` and, for FM capture and
regular capture, in `openInputStream` (called with valid `channels` and `sampleRate`
pointers, which line 620 reads through), the new session's use case is the category's
verb name if and only if the sequencer's verb is empty or the inactive one, and the
category's modifier name otherwise; `setVerb` is what the sequencer is told exactly
when the verb name was chosen, and `setModifier` exactly when the modifier name was.
For capture from the voice-call device in mode `MODE_IN_CALL`, which has a modifier
name only, a session is created only when a verb is active; it carries the modifier
and `setModifier` is told. -/
theorem verb_rule_at_call_sites (p : Platform) (hn : p.DistinctNames)
    (s : AudioHardwareALSA) (use_case : Option String) (device d devices : Nat)
    (openErr setErr : Int) (sampleRate channelCount : Nat) (hasStatus : Bool) :
    (isCaptureRequest p device = false →
      ancSubstitute p s.mAncActive s.mDeviceList device = AncResult.device d →
      s.mMode = p.MODE_IN_CALL → s.mIsVoiceCallActive = false →
      ∃ s1, doRouting p use_case device s = Outcome.ok s1 ∧
        FollowsVerbRule p use_case p.SND_USE_CASE_VERB_VOICECALL
          p.SND_USE_CASE_MOD_PLAY_VOICE s s1) ∧
    (isCaptureRequest p device = false →
      ancSubstitute p s.mAncActive s.mDeviceList device = AncResult.device d →
      ¬ (s.mMode = p.MODE_IN_CALL ∧ s.mIsVoiceCallActive = false) →
      ¬ (s.mMode = p.MODE_NORMAL ∧ s.mIsVoiceCallActive = true) →
      dualMic p s.mDmicActive (inCallSymmetry p s.mMode d) &&& p.DEVICE_OUT_FM ≠ 0 →
      s.mIsFmActive = false →
      ∃ s1, doRouting p use_case device s = Outcome.ok s1 ∧
        FollowsVerbRule p use_case p.SND_USE_CASE_VERB_DIGITAL_RADIO
          p.SND_USE_CASE_MOD_PLAY_FM s s1) ∧
    (badDevices devices = false →
      ∃ r, openOutputStream p use_case openErr setErr devices hasStatus s = Outcome.ok r ∧
        FollowsVerbRule p use_case p.SND_USE_CASE_VERB_HIFI p.SND_USE_CASE_MOD_PLAY_MUSIC
          s r.state) ∧
    (badDevices devices = false →
      ∃ r, openOutputSession p use_case openErr devices hasStatus s = Outcome.ok r ∧
        FollowsVerbRule p use_case p.SND_USE_CASE_VERB_HIFI_LOW_POWER
          p.SND_USE_CASE_MOD_PLAY_LPA s r.state) ∧
    (badDevices devices = false →
      ¬ (devices = p.DEVICE_IN_VOICE_CALL ∧ s.mMode = p.MODE_IN_CALL) →
      (devices = p.DEVICE_IN_FM_RX ∨ devices = p.DEVICE_IN_FM_RX_A2DP) →
      ∃ r, openInputStream p use_case openErr setErr devices (some sampleRate)
          (some channelCount) hasStatus s = Outcome.ok r ∧
        FollowsVerbRule p use_case p.SND_USE_CASE_VERB_FM_REC
          p.SND_USE_CASE_MOD_CAPTURE_FM s r.state) ∧
    (badDevices devices = false →
      ¬ (devices = p.DEVICE_IN_VOICE_CALL ∧ s.mMode = p.MODE_IN_CALL) →
      ¬ (devices = p.DEVICE_IN_FM_RX ∨ devices = p.DEVICE_IN_FM_RX_A2DP) →
      ∃ r, openInputStream p use_case openErr setErr devices (some sampleRate)
          (some channelCount) hasStatus s = Outcome.ok r ∧
        FollowsVerbRule p use_case p.SND_USE_CASE_VERB_HIFI_REC
          p.SND_USE_CASE_MOD_CAPTURE_MUSIC s r.state) ∧
    (badDevices devices = false →
      devices = p.DEVICE_IN_VOICE_CALL ∧ s.mMode = p.MODE_IN_CALL →
      ((use_case = none ∨ use_case = some p.SND_USE_CASE_VERB_INACTIVE) →
        ∃ r, openInputStream p use_case openErr setErr devices (some sampleRate)
            (some channelCount) hasStatus s = Outcome.ok r ∧
          r.state.mDeviceList = s.mDeviceList ∧
          sequencerSets (r.state.calls.drop s.calls.length) = []) ∧
      (¬ (use_case = none ∨ use_case = some p.SND_USE_CASE_VERB_INACTIVE) →
        ∃ r h, openInputStream p use_case openErr setErr devices (some sampleRate)
            (some channelCount) hasStatus s = Outcome.ok r ∧
          r.state.mDeviceList = s.mDeviceList ++ [h] ∧
          h.useCase = p.SND_USE_CASE_MOD_CAPTURE_VOICE ∧
          sequencerSets (r.state.calls.drop s.calls.length) =
            [Call.setModifier p.SND_USE_CASE_MOD_CAPTURE_VOICE])) := by
  refine ⟨?_, ?_, ?_, ?_, ?_, ?_, ?_⟩
  · intro hcap hanc hmode hv
    rw [doRouting_eq_routeBranch p use_case device d s hcap hanc]
    exact routeBranch_voice_rule p hn use_case _ s hmode hv
  · intro hcap hanc hstart hend hbit hfm
    rw [doRouting_eq_routeBranch p use_case device d s hcap hanc]
    exact routeBranch_fm_rule p hn use_case _ s hstart hend hbit hfm
  · exact openOutputStream_rule p hn use_case openErr setErr devices hasStatus s
  · exact openOutputSession_rule p hn use_case openErr devices hasStatus s
  · intro hdev hvc hfm
    refine openInputStream_rule p use_case openErr setErr devices sampleRate channelCount
      hasStatus s _ _ hdev (hn.ne 11 9 (by decide) (by decide) (by decide))
      (Or.inr rfl) ?_ ?_
    · intro h
      rcases h with h | h
      · exact hn.ne 9 12 (by decide) (by decide) (by decide) h
      · exact hn.ne 9 11 (by decide) (by decide) (by decide) h
    · unfold inputUseCase
      cases verbInactive p use_case <;> simp [hvc, hfm]
  · intro hdev hvc hfm
    refine openInputStream_rule p use_case openErr setErr devices sampleRate channelCount
      hasStatus s _ _ hdev (hn.ne 12 10 (by decide) (by decide) (by decide))
      (Or.inl rfl) ?_ ?_
    · intro h
      rcases h with h | h
      · exact hn.ne 10 12 (by decide) (by decide) (by decide) h
      · exact hn.ne 10 11 (by decide) (by decide) (by decide) h
    · unfold inputUseCase
      cases verbInactive p use_case <;> simp [hvc, hfm]
  · intro hdev hvc
    constructor
    · intro hin
      have hvi := (verbInactive_iff p use_case).2 hin
      obtain ⟨b, hb⟩ := roundBufferSize_total p.wordBits p.DEFAULT_IN_BUFFER_SIZE
      have hu : inputUseCase p use_case s.mMode devices = none := by
        unfold inputUseCase
        simp [hvi, hvc]
      refine ⟨?r1, ?c1, ?_, ?_⟩
      case c1 =>
        simp only [openInputStream, Option.isNone_some, Bool.or_self, hdev, hb, hu,
        Bool.false_eq_true, if_false]
        exact rfl
      · rfl
      · show sequencerSets ((s.calls ++ [Call.getVerb]).drop s.calls.length) = []
        rw [List.drop_left]
        rfl
    · intro hin
      have hvi : verbInactive p use_case = false := by
        cases h : verbInactive p use_case
        · rfl
        · exact absurd ((verbInactive_iff p use_case).1 h) hin
      have hu : inputUseCase p use_case s.mMode devices =
          some p.SND_USE_CASE_MOD_CAPTURE_VOICE := by
        unfold inputUseCase
        simp [hvi, hvc]
      obtain ⟨r, it, c1, c3, hcall, hl, hit, hc1, hc3, hc⟩ :=
        openInputStream_calls p use_case openErr setErr devices sampleRate channelCount
          hasStatus s _ hdev hu
      refine ⟨r, it, hcall, hl, hit, ?_⟩
      have hnot : ¬ (p.SND_USE_CASE_MOD_CAPTURE_VOICE = p.SND_USE_CASE_VERB_HIFI_REC ∨
          p.SND_USE_CASE_MOD_CAPTURE_VOICE = p.SND_USE_CASE_VERB_FM_REC) := by
        intro h
        rcases h with h | h
        · exact hn.ne 8 12 (by decide) (by decide) (by decide) h
        · exact hn.ne 8 11 (by decide) (by decide) (by decide) h
      have hg : isSequencerSet Call.getVerb = false := rfl
      have hm : isSequencerSet (Call.setModifier p.SND_USE_CASE_MOD_CAPTURE_VOICE) = true :=
        rfl
      rw [hc, List.drop_left, if_neg hnot]
      simp [sequencerSets, List.filter, hc1, hc3, hg, hm]

/-- The rule on `samplePlatform`: `openOutputStream` for the speaker from the
constructor's state, when the sequencer reports no verb, and `openInputStream` for
the FM capture device `0x2000000` with sample rate 8000 and one channel, when the
sequencer reports the verb `HiFi`. -/
theorem verb_rule_at_call_sites_witness :
    (∃ r, openOutputStream samplePlatform none 0 0 2 true (initial 0) = Outcome.ok r ∧
      FollowsVerbRule samplePlatform none samplePlatform.SND_USE_CASE_VERB_HIFI
        samplePlatform.SND_USE_CASE_MOD_PLAY_MUSIC (initial 0) r.state) ∧
    (∃ r, openInputStream samplePlatform (some "HiFi") 0 0 0x2000000 (some 8000) (some 1)
        true sampleAfterOpen = Outcome.ok r ∧
      FollowsVerbRule samplePlatform (some "HiFi") samplePlatform.SND_USE_CASE_VERB_FM_REC
        samplePlatform.SND_USE_CASE_MOD_CAPTURE_FM sampleAfterOpen r.state) :=
  ⟨(verb_rule_at_call_sites samplePlatform (by decide) (initial 0) none 2 2 2 0 0 8000 1
      true).2.2.1 (by decide),
    (verb_rule_at_call_sites samplePlatform (by decide) sampleAfterOpen (some "HiFi") 2 2
      0x2000000 0 0 8000 1 true).2.2.2.2.1 (by decide) (by decide) (Or.inl rfl)⟩

/-! ## The device test of the stream-open functions -/

/-- A single bit of a 32-bit word passes the device test. -/
theorem badDevices_two_pow (k : Nat) (hk : k < 32) : badDevices (2 ^ k) = false := by
  have hpos : 1 ≤ 2 ^ k := Nat.one_le_two_pow
  have hlt : 2 ^ k < 2 ^ 32 := Nat.pow_lt_pow_right (by decide) hk
  have hsub : (2 ^ k + 2 ^ 32 - 1) % 2 ^ 32 = 2 ^ k - 1 := by omega
  have hand : 2 ^ k &&& (2 ^ k - 1) = 0 := by
    apply Nat.eq_of_testBit_eq
    intro i
    simp only [Nat.testBit_and, Nat.testBit_two_pow, Nat.testBit_two_pow_sub_one,
      Nat.zero_testBit]
    by_cases h : k = i
    · subst h; simp
    · simp [h]
  unfold badDevices
  rw [hsub, hand]
  rfl

/-- A mask that fails the device test has two different bits set. -/
theorem two_bits_of_badDevices (devices : Nat) (hlt : devices < 2 ^ 32)
    (h : badDevices devices = true) :
    ∃ i j, i ≠ j ∧ devices.testBit i = true ∧ devices.testBit j = true := by
  have hne0 : devices ≠ 0 := by
    intro h0
    rw [h0] at h
    exact Bool.noConfusion h
  have hsub : (devices + 2 ^ 32 - 1) % 2 ^ 32 = devices - 1 := by omega
  have hand : devices &&& (devices - 1) ≠ 0 := by
    unfold badDevices at h
    rw [hsub] at h
    simpa using h
  obtain ⟨j, hj⟩ := Nat.ne_zero_implies_bit_true hand
  rw [Nat.testBit_and, Bool.and_eq_true] at hj
  by_contra hno
  have hall : ∀ i, devices.testBit i = (2 ^ j).testBit i := by
    intro i
    rw [Nat.testBit_two_pow]
    by_cases hji : j = i
    · subst hji; simp [hj.1]
    · simp only [hji, decide_False]
      cases hb : devices.testBit i
      · rfl
      · exact absurd ⟨i, j, fun e => hji e.symm, hb, hj.1⟩ hno
  have hd : devices = 2 ^ j := Nat.eq_of_testBit_eq hall
  have hj2 := hj.2
  rw [hd, Nat.testBit_two_pow_sub_one] at hj2
  simp at hj2

/-- C14 as stated fails: the mask with no bit set passes the test
`devices & (devices - 1)`, and `openOutputStream` called with it on `samplePlatform`
registers a session. -/
theorem badDevices_accepts_empty_mask :
    (∀ i, Nat.testBit 0 i = false) ∧ badDevices 0 = false ∧
    ∃ r, openOutputStream samplePlatform none 0 0 0 true (initial 0) = Outcome.ok r ∧
      r.stream ≠ none ∧ r.state.mDeviceList.length = 1 :=
  ⟨Nat.zero_testBit, by decide, _, rfl, by decide, by decide⟩

/-- C14, amended: on 32-bit masks the test `devices & (devices - 1)` of the stream-open
functions rejects a mask if and only if the mask has two different bits set; it
accepts every mask of one bit and the mask with no bit set. -/
theorem badDevices_iff_two_bits (devices : Nat) (hlt : devices < 2 ^ 32) :
    (badDevices devices = true ↔
      ∃ i j, i ≠ j ∧ devices.testBit i = true ∧ devices.testBit j = true) ∧
    (∀ k, devices = 2 ^ k → badDevices devices = false) ∧
    (devices = 0 → badDevices devices = false) := by
  refine ⟨⟨two_bits_of_badDevices devices hlt, ?_⟩, ?_, ?_⟩
  · rintro ⟨i, j, hij, hi, hj⟩
    exact badDevices_of_two_bits hlt hij hi hj
  · intro k hk
    have hk32 : k < 32 := by
      by_contra hge
      have hle : 2 ^ 32 ≤ 2 ^ k := Nat.pow_le_pow_right (by decide) (Nat.le_of_not_lt hge)
      omega
    rw [hk]
    exact badDevices_two_pow k hk32
  · intro h0
    rw [h0]
    rfl

/-- The test on the masks `0x3`, `0x4` and `0`. -/
theorem badDevices_iff_two_bits_witness :
    ((badDevices 0x3 = true ↔
      ∃ i j, i ≠ j ∧ Nat.testBit 0x3 i = true ∧ Nat.testBit 0x3 j = true) ∧
    (∀ k, 0x3 = 2 ^ k → badDevices 0x3 = false) ∧
    (0x3 = 0 → badDevices 0x3 = false)) ∧
    badDevices 0x3 = true ∧ badDevices 0x4 = false ∧ badDevices 0 = false :=
  ⟨badDevices_iff_two_bits 0x3 (by decide), by decide, by decide, by decide⟩

/-! ## Capture from the voice-call device -/

/-- C13 as stated fails: on `samplePlatform`, with no voice call active and mode
`MODE_IN_CALL`, `openInputStream` for the voice-call capture device `0x400000`
(sample rate 8000, one channel, all pointers valid) is
accepted when the sequencer reports the verb `HiFi`: a stream is returned and a
session with the voice capture modifier is registered. With mode `MODE_NORMAL` and no
verb the request is accepted as a regular capture. With mode `MODE_IN_CALL` and no
verb the request is rejected, but nothing is stored through the status pointer. -/
theorem voice_capture_accepted_without_call :
    (initial samplePlatform.MODE_IN_CALL).mIsVoiceCallActive = false ∧
    (∃ r, openInputStream samplePlatform (some "HiFi") 0 0 0x400000 (some 8000) (some 1)
        true (initial samplePlatform.MODE_IN_CALL) = Outcome.ok r ∧
      r.stream ≠ none ∧ r.status = some 0 ∧
      r.state.mDeviceList.map (fun h => h.useCase) = ["Capture Voice"]) ∧
    (∃ r, openInputStream samplePlatform none 0 0 0x400000 (some 8000) (some 1) true
        (initial samplePlatform.MODE_NORMAL) = Outcome.ok r ∧
      r.stream ≠ none ∧ r.status = some 0 ∧
      r.state.mDeviceList.map (fun h => h.useCase) = ["HiFi Rec"]) ∧
    (∃ r, openInputStream samplePlatform none 0 0 0x400000 (some 8000) (some 1) true
        (initial samplePlatform.MODE_IN_CALL) = Outcome.ok r ∧
      r.stream = none ∧ r.status = none) :=
  ⟨rfl, ⟨_, rfl, by decide, by decide, by decide⟩, ⟨_, rfl, by decide, by decide, by decide⟩,
    ⟨_, rfl, by decide, by decide⟩⟩

/-- C13, amended: when the voice-call capture constant passes the device test, the
mode is `MODE_IN_CALL` and the sequencer has no verb or the inactive one,
`openInputStream` for the voice-call capture device, called with valid `channels` and
`sampleRate` pointers, returns no stream and leaves the session list as it was. -/
theorem voice_capture_rejected_without_verb (p : Platform) (s : AudioHardwareALSA)
    (use_case : Option String) (openErr setErr : Int) (sampleRate channelCount : Nat)
    (hasStatus : Bool) (hdev : badDevices p.DEVICE_IN_VOICE_CALL = false)
    (hmode : s.mMode = p.MODE_IN_CALL)
    (hverb : use_case = none ∨ use_case = some p.SND_USE_CASE_VERB_INACTIVE) :
    ∃ r, openInputStream p use_case openErr setErr p.DEVICE_IN_VOICE_CALL (some sampleRate)
        (some channelCount) hasStatus s = Outcome.ok r ∧
      r.stream = none ∧ r.state.mDeviceList = s.mDeviceList := by
  have hvi := (verbInactive_iff p use_case).2 hverb
  obtain ⟨b, hb⟩ := roundBufferSize_total p.wordBits p.DEFAULT_IN_BUFFER_SIZE
  have hu : inputUseCase p use_case s.mMode p.DEVICE_IN_VOICE_CALL = none := by
    unfold inputUseCase
    simp [hvi, hmode]
  refine ⟨?r1, ?c1, ?_, ?_⟩
  case c1 =>
    simp only [openInputStream, Option.isNone_some, Bool.or_self, hdev, hb, hu,
        Bool.false_eq_true, if_false]
    exact rfl
  · rfl
  · rfl

/-- The rejection on `samplePlatform`, from the constructor's state in mode
`MODE_IN_CALL` with no verb. -/
theorem voice_capture_rejected_without_verb_witness :
    ∃ r, openInputStream samplePlatform none 0 0 samplePlatform.DEVICE_IN_VOICE_CALL
        (some 8000) (some 1) true (initial samplePlatform.MODE_IN_CALL) = Outcome.ok r ∧
      r.stream = none ∧
      r.state.mDeviceList = (initial samplePlatform.MODE_IN_CALL).mDeviceList :=
  voice_capture_rejected_without_verb samplePlatform (initial samplePlatform.MODE_IN_CALL)
    none 0 0 8000 1 true (by decide) rfl (Or.inl rfl)

/-! ## Regular playback sessions -/

/-- C15 as stated fails: on `samplePlatform`, two calls of `openOutputStream` for the
speaker, the first with the sequencer reporting no verb and the second with it
reporting the verb `HiFi` that the first call set, lead to a reachable state that
holds two regular playback sessions. -/
theorem two_playback_sessions_reachable :
    ∃ s, Reachable samplePlatform s ∧
      s.mDeviceList.map (fun h => h.useCase) = ["HiFi", "Play Music"] ∧
      s.mDeviceList.countP (isPlaybackUseCase samplePlatform) = 2 :=
  ⟨_, Reachable.outputStream _ _ (some "HiFi") 0 0 2 true
      (Reachable.outputStream (initial 0) _ none 0 0 2 true (Reachable.start 0) rfl) rfl,
    by decide, by decide⟩

/-- An output handle passes the test for regular playback. -/
theorem isPlaybackUseCase_outputHandle (p : Platform) (use_case : Option String)
    (b d : Nat) : isPlaybackUseCase p (outputHandle p use_case b d) = true := by
  unfold isPlaybackUseCase outputHandle
  cases verbInactive p use_case <;> simp

/-- C15, amended: with the use-case names pairwise different, every reachable state
holds at most one voice session and at most one FM session. Regular playback has no
such bound: `openOutputStream` and `openOutputSession`, called with a mask that passes
the device test, append a new session at the end of the list and keep every session
that was registered, so that the number of regular playback sessions grows by one with
every `openOutputStream` call. -/
theorem output_streams_are_appended (p : Platform) (hn : p.DistinctNames)
    (s : AudioHardwareALSA) (hs : Reachable p s) (use_case : Option String)
    (openErr setErr : Int) (devices : Nat) (hasStatus : Bool)
    (hdev : badDevices devices = false) :
    s.mDeviceList.countP (isVoiceUseCase p) ≤ 1 ∧
    s.mDeviceList.countP (isFmUseCase p) ≤ 1 ∧
    (∃ r h, openOutputStream p use_case openErr setErr devices hasStatus s = Outcome.ok r ∧
      r.state.mDeviceList = s.mDeviceList ++ [h] ∧ isPlaybackUseCase p h = true ∧
      r.state.mDeviceList.countP (isPlaybackUseCase p) =
        s.mDeviceList.countP (isPlaybackUseCase p) + 1) ∧
    (∃ r h, openOutputSession p use_case openErr devices hasStatus s = Outcome.ok r ∧
      r.state.mDeviceList = s.mDeviceList ++ [h]) := by
  obtain ⟨hv, hf⟩ := reachable_flagsCountSessions hn s hs
  obtain ⟨b, hb⟩ := roundBufferSize_total p.wordBits p.DEFAULT_BUFFER_SIZE
  have hp := isPlaybackUseCase_outputHandle p use_case b devices
  refine ⟨?_, ?_, ?_, ?_⟩
  · rw [hv]; split <;> omega
  · rw [hf]; split <;> omega
  · by_cases herr : openErr ≠ 0
    · refine ⟨?r1, outputHandle p use_case b devices, ?c1, ?_, hp, ?_⟩
      case c1 =>
        simp only [openOutputStream, hdev, hb, Bool.false_eq_true, if_false]
        rw [if_pos herr]
        exact rfl
      · rfl
      · show List.countP _ (s.mDeviceList ++ [outputHandle p use_case b devices]) = _
        simp [List.countP_append, List.countP_cons, hp]
    · refine ⟨?r2, outputHandle p use_case b devices, ?c2, ?_, hp, ?_⟩
      case c2 =>
        simp only [openOutputStream, hdev, hb, Bool.false_eq_true, if_false]
        rw [if_neg herr]
        exact rfl
      · rfl
      · show List.countP _ (s.mDeviceList ++ [outputHandle p use_case b devices]) = _
        simp [List.countP_append, List.countP_cons, hp]
  · refine ⟨?r3, sessionHandle p use_case b devices, ?c3, ?_⟩
    case c3 =>
      simp only [openOutputSession, hdev, hb, Bool.false_eq_true, if_false]
      exact rfl
    rfl

/-- The second `openOutputStream` call on `samplePlatform`, from the reachable state
that already holds a playback session on the speaker. -/
theorem output_streams_are_appended_witness :
    Reachable samplePlatform sampleAfterOpen ∧
    sampleAfterOpen.mDeviceList.countP (isPlaybackUseCase samplePlatform) = 1 ∧
    ∃ r h, openOutputStream samplePlatform (some "HiFi") 0 0 2 true sampleAfterOpen =
        Outcome.ok r ∧
      r.state.mDeviceList = sampleAfterOpen.mDeviceList ++ [h] ∧
      isPlaybackUseCase samplePlatform h = true ∧
      r.state.mDeviceList.countP (isPlaybackUseCase samplePlatform) =
        sampleAfterOpen.mDeviceList.countP (isPlaybackUseCase samplePlatform) + 1 :=
  have hs : Reachable samplePlatform sampleAfterOpen :=
    Reachable.outputStream (initial samplePlatform.MODE_NORMAL)
      { stream := some (outputHandle samplePlatform none 4096 2), status := some 0,
        state := sampleAfterOpen }
      none 0 0 2 true (Reachable.start samplePlatform.MODE_NORMAL) (by decide)
  ⟨hs, by decide,
    (output_streams_are_appended samplePlatform (by decide) sampleAfterOpen hs (some "HiFi")
      0 0 2 true (by decide)).2.2.1⟩

/-! ## The accessory flags in `setParameters` -/

/-! ## Accessory flags and re-routing -/

/-- The search loop finds an element when one passes the test. -/
theorem eraseFirst_of_countP_pos (test : alsa_handle_t → Bool) (l : List alsa_handle_t)
    (h : 0 < l.countP test) : ∃ x rest, eraseFirst test l = some (x, rest) := by
  cases he : eraseFirst test l with
  | none =>
    have := eraseFirst_none test l he
    omega
  | some xr => exact ⟨xr.1, xr.2, rfl⟩

/-- A route command among the calls added to `s.calls` is a route command issued
between `s` and `s1`. -/
theorem issuesRoute_of_mem (s s1 : AudioHardwareALSA) (added : List Call)
    (target : HandleRef) (devices : Nat) (mode : Int) (tty : TtyMode)
    (hc : s1.calls = s.calls ++ added)
    (hm : Call.route target devices mode tty ∈ added) : IssuesRoute s s1 := by
  refine ⟨target, devices, mode, tty, ?_⟩
  rw [hc, List.drop_left]
  exact hm

/-- In a state whose flags are in step with its sessions, the branch of lines 361-467
has a result, issues a route command, and leaves the accessory flags as they are. -/
theorem routeBranch_issues_route (p : Platform) (use_case : Option String) (dev : Nat)
    (s : AudioHardwareALSA) (hinv : FlagsCountSessions p s) :
    ∃ s1, routeBranch p use_case dev s = Outcome.ok s1 ∧ IssuesRoute s s1 ∧
      s1.mTtyMode = s.mTtyMode ∧ s1.mDmicActive = s.mDmicActive ∧
      s1.mAncActive = s.mAncActive ∧ s1.mBluetoothVGS = s.mBluetoothVGS := by
  obtain ⟨hv, hf⟩ := hinv
  unfold routeBranch
  simp only
  split_ifs with c1 c2 c3 c4
  · obtain ⟨b, hb⟩ := roundBufferSize_total p.wordBits p.DEFAULT_BUFFER_SIZE
    rw [hb]
    exact ⟨_, rfl,
      issuesRoute_of_mem s _ _ (HandleRef.node (voiceHandle p use_case b dev)) (dev % 2 ^ 32)
        s.mMode s.mTtyMode rfl (List.mem_cons_of_mem _ (List.mem_cons_self _ _)),
      rfl, rfl, rfl, rfl⟩
  · have hpos : 0 < s.mDeviceList.countP (isVoiceUseCase p) := by
      rw [hv, c2.2]; decide
    obtain ⟨x, rest, he⟩ := eraseFirst_of_countP_pos _ _ hpos
    rw [he]
    exact ⟨_, rfl,
      issuesRoute_of_mem s _ _ (HandleRef.erased x) (dev % 2 ^ 32) s.mMode s.mTtyMode rfl
        (List.mem_cons_of_mem _ (List.mem_cons_self _ _)),
      rfl, rfl, rfl, rfl⟩
  · obtain ⟨b, hb⟩ := roundBufferSize_total p.wordBits p.FM_BUFFER_SIZE
    rw [hb]
    exact ⟨_, rfl,
      issuesRoute_of_mem s _ _ (HandleRef.node (fmHandle p use_case b dev)) (dev % 2 ^ 32)
        s.mMode s.mTtyMode rfl (List.mem_cons_of_mem _ (List.mem_cons_self _ _)),
      rfl, rfl, rfl, rfl⟩
  · have hpos : 0 < s.mDeviceList.countP (isFmUseCase p) := by
      rw [hf, c4.2]; decide
    obtain ⟨x, rest, he⟩ := eraseFirst_of_countP_pos _ _ hpos
    rw [he]
    exact ⟨_, rfl,
      issuesRoute_of_mem s _ _ (HandleRef.erased x) (dev % 2 ^ 32) s.mMode s.mTtyMode rfl
        (List.mem_cons_of_mem _ (List.mem_cons_self _ _)),
      rfl, rfl, rfl, rfl⟩
  · exact ⟨_, rfl,
      issuesRoute_of_mem s _ _ (lastRef s.mDeviceList) (dev % 2 ^ 32) s.mMode s.mTtyMode rfl
        (List.mem_cons_self _ _),
      rfl, rfl, rfl, rfl⟩

/-- No device constant is zero when the constants are single bits, so the empty mask
is not a capture request. -/
theorem isCaptureRequest_zero (p : Platform) (hb : p.SingleBits) :
    isCaptureRequest p 0 = false := by
  have h12 : p.DEVICE_IN_VOICE_CALL &&& p.DEVICE_IN_VOICE_CALL ≠ 0 :=
    hb.self_ne_zero 12 (by decide)
  have h15 : p.DEVICE_IN_FM_RX &&& p.DEVICE_IN_FM_RX ≠ 0 := hb.self_ne_zero 15 (by decide)
  have h16 : p.DEVICE_IN_FM_RX_A2DP &&& p.DEVICE_IN_FM_RX_A2DP ≠ 0 :=
    hb.self_ne_zero 16 (by decide)
  have e1 : ¬ 0 = p.DEVICE_IN_VOICE_CALL := fun e => h12 (by rw [← e]; rfl)
  have e2 : ¬ 0 = p.DEVICE_IN_FM_RX := fun e => h15 (by rw [← e]; rfl)
  have e3 : ¬ 0 = p.DEVICE_IN_FM_RX_A2DP := fun e => h16 (by rw [← e]; rfl)
  simp [isCaptureRequest, e1, e2, e3]

/-- The call `doRouting(0)` in a state with a session registered and the flags in step
with the sessions: when the ANC substitution ignores the request, nothing changes;
otherwise a route command is issued and the accessory flags stay. -/
theorem doRouting_zero (p : Platform) (hb : p.SingleBits) (use_case : Option String)
    (s : AudioHardwareALSA) (hinv : FlagsCountSessions p s) (hne : s.mDeviceList ≠ []) :
    (ancSubstitute p s.mAncActive s.mDeviceList 0 = AncResult.ignored →
      doRouting p use_case 0 s = Outcome.ok s) ∧
    (ancSubstitute p s.mAncActive s.mDeviceList 0 ≠ AncResult.ignored →
      ∃ s1, doRouting p use_case 0 s = Outcome.ok s1 ∧ IssuesRoute s s1 ∧
        s1.mTtyMode = s.mTtyMode ∧ s1.mDmicActive = s.mDmicActive ∧
        s1.mAncActive = s.mAncActive ∧ s1.mBluetoothVGS = s.mBluetoothVGS) := by
  have hcap := isCaptureRequest_zero p hb
  constructor
  · intro hig
    simp only [doRouting, hcap, hig, Bool.false_eq_true, if_false]
  · intro hnig
    cases hanc : ancSubstitute p s.mAncActive s.mDeviceList 0 with
    | ignored => exact absurd hanc hnig
    | emptyList =>
      exfalso
      obtain ⟨x, hx⟩ : ∃ x, s.mDeviceList.getLast? = some x := by
        cases hl : s.mDeviceList.getLast? with
        | none => exact absurd (List.getLast?_eq_none_iff.1 hl) hne
        | some x => exact ⟨x, rfl⟩
      unfold ancSubstitute at hanc
      simp only [hx] at hanc
      split_ifs at hanc
    | device d =>
      rw [doRouting_eq_routeBranch p use_case 0 d s hcap hanc]
      exact routeBranch_issues_route p use_case _ s hinv

/-- When no call is added between `s` and `s1`, no route command is issued. -/
theorem not_issuesRoute_of_calls_eq (s s1 : AudioHardwareALSA) (h : s1.calls = s.calls) :
    ¬ IssuesRoute s s1 := by
  rintro ⟨t, d, m, y, hm⟩
  rw [h, List.drop_length] at hm
  exact List.not_mem_nil _ hm

/-- A state that holds a voice session has a non-empty list. -/
theorem mDeviceList_ne_nil_of_voice (p : Platform) (s : AudioHardwareALSA)
    (hinv : FlagsCountSessions p s) (hvoice : s.mIsVoiceCallActive = true) :
    s.mDeviceList ≠ [] := by
  intro h
  have hv := hinv.1
  rw [h, hvoice] at hv
  simp at hv

/-- C16 as stated fails: `sampleCallStarted` is reachable, in mode `MODE_IN_CALL` and
has a voice call active. A `setParameters` call with the Bluetooth VGS key updates
the flag and adds no call at all; a `setParameters` call that switches ANC on updates
the flag and its `doRouting(0)` returns at line 313 without a route command, because
the newest session is not on a wired headset. -/
theorem setParameters_without_route :
    Reachable samplePlatform sampleCallStarted ∧
    sampleCallStarted.mMode = samplePlatform.MODE_IN_CALL ∧
    sampleCallStarted.mIsVoiceCallActive = true ∧
    sampleCallStarted.mBluetoothVGS = false ∧
    sampleCallStarted.mAncActive = false ∧
    (∃ s1, setParameters samplePlatform (fun _ => some "Voice Call")
        { noParameters with vgs := some "on" } sampleCallStarted =
          Outcome.ok (samplePlatform.BAD_VALUE, s1) ∧
      s1.mBluetoothVGS = true ∧ ¬ IssuesRoute sampleCallStarted s1) ∧
    (∃ s1, setParameters samplePlatform (fun _ => some "Voice Call")
        { noParameters with anc := some "true" } sampleCallStarted =
          Outcome.ok (samplePlatform.BAD_VALUE, s1) ∧
      s1.mAncActive = true ∧ ¬ IssuesRoute sampleCallStarted s1) :=
  ⟨Reachable.routing (initial samplePlatform.MODE_IN_CALL) sampleCallStarted none 2
      (Reachable.start samplePlatform.MODE_IN_CALL) (by decide),
    rfl, rfl, rfl, rfl,
    ⟨{ sampleCallStarted with mBluetoothVGS := true }, by decide, rfl,
      not_issuesRoute_of_calls_eq _ _ rfl⟩,
    ⟨{ sampleCallStarted with mAncActive := true }, by decide, rfl,
      not_issuesRoute_of_calls_eq _ _ rfl⟩⟩

/-- The keys after the TTY key, for a request that holds the TTY key only. -/
theorem setParametersRest_tty (p : Platform) (use_case : Nat → Option String)
    (value : String) (s : AudioHardwareALSA) :
    setParametersRest p use_case { noParameters with ttyMode := some value } s =
      Outcome.ok (p.BAD_VALUE, s) := by
  simp [setParametersRest, Outcome.bind, noParameters, AudioParameter.size]

/-- A request that holds the dual-mic key only: the flag is written and `doRouting(0)`
runs (lines 204-214). -/
theorem setParameters_dualMic_eq (p : Platform) (use_case : Nat → Option String)
    (value : String) (s : AudioHardwareALSA) :
    setParameters p use_case { noParameters with dualMic := some value } s =
      (doRouting p (use_case 1) 0 { s with mDmicActive := value == "true" }).bind
        fun s1 => Outcome.ok (p.BAD_VALUE, s1) := by
  cases h : doRouting p (use_case 1) 0 { s with mDmicActive := value == "true" } with
  | ok a =>
    simp [setParameters, setParametersRest, noParameters, Outcome.bind, h,
      AudioParameter.size]
  | fault e => simp [setParameters, setParametersRest, noParameters, Outcome.bind, h]

/-- A request that holds the ANC key only: the flag is written and `doRouting(0)` runs
(lines 216-227). -/
theorem setParameters_anc_eq (p : Platform) (use_case : Nat → Option String)
    (value : String) (s : AudioHardwareALSA) :
    setParameters p use_case { noParameters with anc := some value } s =
      (doRouting p (use_case 2) 0 { s with mAncActive := value == "true" }).bind
        fun s1 => Outcome.ok (p.BAD_VALUE, s1) := by
  cases h : doRouting p (use_case 2) 0 { s with mAncActive := value == "true" } with
  | ok a =>
    simp [setParameters, setParametersRest, noParameters, Outcome.bind, h,
      AudioParameter.size]
  | fault e => simp [setParameters, setParametersRest, noParameters, Outcome.bind, h]

/-- A request that holds the TTY key only, in mode `MODE_IN_CALL`: the TTY mode is
written and `doRouting(0)` runs (lines 186-202). -/
theorem setParameters_tty_eq (p : Platform) (use_case : Nat → Option String)
    (value : String) (s : AudioHardwareALSA) (hmode : s.mMode = p.MODE_IN_CALL) :
    setParameters p use_case { noParameters with ttyMode := some value } s =
      (doRouting p (use_case 0) 0 { s with mTtyMode := ttyModeOf value }).bind
        fun s1 => Outcome.ok (p.BAD_VALUE, s1) := by
  have hm : ¬ (({ s with mTtyMode := ttyModeOf value } : AudioHardwareALSA).mMode ≠
      p.MODE_IN_CALL) := not_not.2 hmode
  have hr : ∀ o : Outcome AudioHardwareALSA,
      o.bind (setParametersRest p use_case { noParameters with ttyMode := some value }) =
        o.bind fun s1 => Outcome.ok (p.BAD_VALUE, s1) := by
    intro o
    cases o with
    | ok a => exact setParametersRest_tty p use_case value a
    | fault e => rfl
  unfold setParameters
  show (if _ then _ else _) = _
  rw [if_neg hm]
  exact hr _

/-- C16, amended: let the use-case names be pairwise different and the device constants
be different single bits, and let `s` be a reachable state with mode `MODE_IN_CALL` and
a voice call active. A `setParameters` call that holds only the TTY key, only the
dual-mic key or only the ANC key updates that flag and then calls `doRouting(0)`; that
call issues a route command unless the ANC substitution, evaluated with the updated
flags, ignores the request (line 313: ANC active and the newest session on no wired
headset), in which case nothing but the flag has changed. A call that holds only the
Bluetooth VGS key updates `mBluetoothVGS` and does nothing else. The returned status
is `BAD_VALUE` in each case, because none of these keys is removed from the request. -/
theorem setParameters_accessory_flags (p : Platform) (hb : p.SingleBits)
    (hn : p.DistinctNames) (s : AudioHardwareALSA) (hs : Reachable p s)
    (hmode : s.mMode = p.MODE_IN_CALL) (hvoice : s.mIsVoiceCallActive = true)
    (use_case : Nat → Option String) (value : String) :
    (∃ s1, setParameters p use_case { noParameters with ttyMode := some value } s =
        Outcome.ok (p.BAD_VALUE, s1) ∧
      s1.mTtyMode = ttyModeOf value ∧
      (ancSubstitute p s.mAncActive s.mDeviceList 0 ≠ AncResult.ignored →
        IssuesRoute s s1) ∧
      (ancSubstitute p s.mAncActive s.mDeviceList 0 = AncResult.ignored →
        s1 = { s with mTtyMode := ttyModeOf value })) ∧
    (∃ s1, setParameters p use_case { noParameters with dualMic := some value } s =
        Outcome.ok (p.BAD_VALUE, s1) ∧
      s1.mDmicActive = (value == "true") ∧
      (ancSubstitute p s.mAncActive s.mDeviceList 0 ≠ AncResult.ignored →
        IssuesRoute s s1) ∧
      (ancSubstitute p s.mAncActive s.mDeviceList 0 = AncResult.ignored →
        s1 = { s with mDmicActive := value == "true" })) ∧
    (∃ s1, setParameters p use_case { noParameters with anc := some value } s =
        Outcome.ok (p.BAD_VALUE, s1) ∧
      s1.mAncActive = (value == "true") ∧
      (ancSubstitute p (value == "true") s.mDeviceList 0 ≠ AncResult.ignored →
        IssuesRoute s s1) ∧
      (ancSubstitute p (value == "true") s.mDeviceList 0 = AncResult.ignored →
        s1 = { s with mAncActive := value == "true" })) ∧
    setParameters p use_case { noParameters with vgs := some value } s =
      Outcome.ok (p.BAD_VALUE, { s with mBluetoothVGS := value == "on" }) := by
  have hinv := reachable_flagsCountSessions hn s hs
  have hne := mDeviceList_ne_nil_of_voice p s hinv hvoice
  refine ⟨?_, ?_, ?_, ?_⟩
  · have hz := doRouting_zero p hb (use_case 0) { s with mTtyMode := ttyModeOf value }
      hinv hne
    rw [setParameters_tty_eq p use_case value s hmode]
    by_cases hig : ancSubstitute p s.mAncActive s.mDeviceList 0 = AncResult.ignored
    · rw [hz.1 hig]
      exact ⟨_, rfl, rfl, fun h => absurd hig h, fun _ => rfl⟩
    · obtain ⟨s1, h1, hr, ht, _, _, _⟩ := hz.2 hig
      rw [h1]
      exact ⟨s1, rfl, ht, fun _ => hr, fun h => absurd h hig⟩
  · have hz := doRouting_zero p hb (use_case 1) { s with mDmicActive := value == "true" }
      hinv hne
    rw [setParameters_dualMic_eq p use_case value s]
    by_cases hig : ancSubstitute p s.mAncActive s.mDeviceList 0 = AncResult.ignored
    · rw [hz.1 hig]
      exact ⟨_, rfl, rfl, fun h => absurd hig h, fun _ => rfl⟩
    · obtain ⟨s1, h1, hr, _, hd, _, _⟩ := hz.2 hig
      rw [h1]
      exact ⟨s1, rfl, hd, fun _ => hr, fun h => absurd h hig⟩
  · have hz := doRouting_zero p hb (use_case 2) { s with mAncActive := value == "true" }
      hinv hne
    rw [setParameters_anc_eq p use_case value s]
    by_cases hig : ancSubstitute p (value == "true") s.mDeviceList 0 = AncResult.ignored
    · rw [hz.1 hig]
      exact ⟨_, rfl, rfl, fun h => absurd hig h, fun _ => rfl⟩
    · obtain ⟨s1, h1, hr, _, _, ha, _⟩ := hz.2 hig
      rw [h1]
      exact ⟨s1, rfl, ha, fun _ => hr, fun h => absurd h hig⟩
  · simp [setParameters, setParametersRest, noParameters, Outcome.bind, AudioParameter.size]

/-- The four requests on the reachable state `sampleCallStarted` of `samplePlatform`. -/
theorem setParameters_accessory_flags_witness :
    Reachable samplePlatform sampleCallStarted ∧
    (∃ s1, setParameters samplePlatform (fun _ => some "Voice Call")
        { noParameters with ttyMode := some "full" } sampleCallStarted =
          Outcome.ok (samplePlatform.BAD_VALUE, s1) ∧
      s1.mTtyMode = ttyModeOf "full" ∧
      (ancSubstitute samplePlatform sampleCallStarted.mAncActive
          sampleCallStarted.mDeviceList 0 ≠ AncResult.ignored →
        IssuesRoute sampleCallStarted s1) ∧
      (ancSubstitute samplePlatform sampleCallStarted.mAncActive
          sampleCallStarted.mDeviceList 0 = AncResult.ignored →
        s1 = { sampleCallStarted with mTtyMode := ttyModeOf "full" })) :=
  have hs : Reachable samplePlatform sampleCallStarted :=
    Reachable.routing (initial samplePlatform.MODE_IN_CALL) sampleCallStarted none 2
      (Reachable.start samplePlatform.MODE_IN_CALL) (by decide)
  ⟨hs, (setParameters_accessory_flags samplePlatform (by decide) (by decide)
    sampleCallStarted hs rfl rfl (fun _ => some "Voice Call") "full").1⟩

/-! ## The end of a voice call -/

/-- The element that the search loop erases is the first one that passes the test:
the list splits around it, nothing before it passes, and what is left is the rest in
its order. -/
theorem eraseFirst_split (test : alsa_handle_t → Bool) :
    ∀ (l : List alsa_handle_t) (x : alsa_handle_t) (rest : List alsa_handle_t),
      eraseFirst test l = some (x, rest) →
      ∃ pre post, l = pre ++ x :: post ∧ rest = pre ++ post ∧ test x = true ∧
        ∀ h ∈ pre, test h = false := by
  intro l
  induction l with
  | nil => intro x rest h; simp [eraseFirst] at h
  | cons a t ih =>
    intro x rest h
    unfold eraseFirst at h
    split at h
    · rename_i ha
      injection h with h
      injection h with h1 h2
      subst h1 h2
      exact ⟨[], t, rfl, rfl, ha, fun h hm => absurd hm (List.not_mem_nil h)⟩
    · rename_i ha
      split at h
      · rename_i y r hy
        injection h with h
        injection h with h1 h2
        subst h1 h2
        obtain ⟨pre, post, hl, hr, hx, hpre⟩ := ih _ _ hy
        refine ⟨a :: pre, post, ?_, ?_, hx, ?_⟩
        · rw [hl]; rfl
        · rw [hr]; rfl
        · intro h hm
          rcases List.mem_cons.1 hm with e | hm
          · rw [e]; simpa using ha
          · exact hpre h hm
      · exact Option.noConfusion h

/-- On a non-empty list the ANC substitution either ignores the request or leaves a
mask. -/
theorem ancSubstitute_of_ne_nil (p : Platform) (anc : Bool) (l : List alsa_handle_t)
    (device : Nat) (hne : l ≠ [])
    (hig : ancSubstitute p anc l device ≠ AncResult.ignored) :
    ∃ d, ancSubstitute p anc l device = AncResult.device d := by
  cases hanc : ancSubstitute p anc l device with
  | ignored => exact absurd hanc hig
  | emptyList =>
    exfalso
    obtain ⟨x, hx⟩ : ∃ x, l.getLast? = some x := by
      cases hl : l.getLast? with
      | none => exact absurd (List.getLast?_eq_none_iff.1 hl) hne
      | some x => exact ⟨x, rfl⟩
    unfold ancSubstitute at hanc
    simp only [hx] at hanc
    split_ifs at hanc
  | device d => exact ⟨d, rfl⟩

/-- C17: let the use-case names be pairwise different. In every reachable state with
`mIsVoiceCallActive` set and mode `MODE_NORMAL`, a `doRouting` request that is not
bypassed (it is no capture request and the ANC substitution does not ignore it) finds
the first voice session `x` of the list, closes it through the transport while it is
still registered, removes exactly `x` and keeps the sessions before and after it in
their order, then issues a route command with the transformed mask, clears
`mIsVoiceCallActive` and leaves `mIsFmActive` and every other field as it was. -/
theorem doRouting_end_voice (p : Platform) (hn : p.DistinctNames)
    (s : AudioHardwareALSA) (hs : Reachable p s) (use_case : Option String) (device : Nat)
    (hmode : s.mMode = p.MODE_NORMAL) (hvoice : s.mIsVoiceCallActive = true)
    (hcap : isCaptureRequest p device = false)
    (hig : ancSubstitute p s.mAncActive s.mDeviceList device ≠ AncResult.ignored) :
    ∃ pre x post d,
      s.mDeviceList = pre ++ x :: post ∧ isVoiceUseCase p x = true ∧
      (∀ h ∈ pre, isVoiceUseCase p h = false) ∧
      ancSubstitute p s.mAncActive s.mDeviceList device = AncResult.device d ∧
      doRouting p use_case device s =
        Outcome.ok { s with
          mIsVoiceCallActive := false
          mDeviceList := pre ++ post
          calls := s.calls ++
            [Call.closePcm (HandleRef.node x),
             Call.route (HandleRef.erased x)
               (dualMic p s.mDmicActive (inCallSymmetry p s.mMode d) % 2 ^ 32)
               s.mMode s.mTtyMode] } := by
  have hinv := reachable_flagsCountSessions hn s hs
  have hne := mDeviceList_ne_nil_of_voice p s hinv hvoice
  obtain ⟨d, hd⟩ := ancSubstitute_of_ne_nil p s.mAncActive s.mDeviceList device hne hig
  have hpos : 0 < s.mDeviceList.countP (isVoiceUseCase p) := by
    rw [hinv.1, hvoice]; decide
  obtain ⟨x, rest, he⟩ := eraseFirst_of_countP_pos _ _ hpos
  obtain ⟨pre, post, hl, hr, hx, hpre⟩ := eraseFirst_split _ _ _ _ he
  refine ⟨pre, x, post, d, hl, hx, hpre, hd, ?_⟩
  rw [doRouting_eq_routeBranch p use_case device d s hcap hd]
  have h1 : ¬ (s.mMode = p.MODE_IN_CALL ∧ s.mIsVoiceCallActive = false) := by
    rw [hvoice]; simp
  have h2 : s.mMode = p.MODE_NORMAL ∧ s.mIsVoiceCallActive = true := ⟨hmode, hvoice⟩
  unfold routeBranch
  simp only
  rw [if_neg h1, if_pos h2, he, hr]

/-- The end of the voice call of `sampleCallStarted` on `samplePlatform`, requested for
the speaker: the only session is closed and removed, and a route command follows. -/
theorem doRouting_end_voice_witness :
    Reachable samplePlatform sampleCallEnding ∧
    ∃ pre x post d,
      sampleCallEnding.mDeviceList = pre ++ x :: post ∧
      isVoiceUseCase samplePlatform x = true ∧
      (∀ h ∈ pre, isVoiceUseCase samplePlatform h = false) ∧
      ancSubstitute samplePlatform sampleCallEnding.mAncActive sampleCallEnding.mDeviceList 2 =
        AncResult.device d ∧
      doRouting samplePlatform (some "Voice Call") 2 sampleCallEnding =
        Outcome.ok { sampleCallEnding with
          mIsVoiceCallActive := false
          mDeviceList := pre ++ post
          calls := sampleCallEnding.calls ++
            [Call.closePcm (HandleRef.node x),
             Call.route (HandleRef.erased x)
               (dualMic samplePlatform sampleCallEnding.mDmicActive
                 (inCallSymmetry samplePlatform sampleCallEnding.mMode d) % 2 ^ 32)
               sampleCallEnding.mMode sampleCallEnding.mTtyMode] } :=
  have hs : Reachable samplePlatform sampleCallEnding :=
    Reachable.setMode sampleCallStarted samplePlatform.MODE_NORMAL
      (Reachable.routing (initial samplePlatform.MODE_IN_CALL) sampleCallStarted none 2
        (Reachable.start samplePlatform.MODE_IN_CALL) (by decide))
  ⟨hs, doRouting_end_voice samplePlatform (by decide) sampleCallEnding hs
    (some "Voice Call") 2 rfl rfl (by decide) (by decide)⟩

/-! ## The default branch of `doRouting` -/

/-- A mask with bit `k` clear is disjoint from `2 ^ k`. -/
theorem and_two_pow_eq_zero_of_testBit (x k : Nat) (h : x.testBit k = false) :
    x &&& 2 ^ k = 0 := by
  by_contra hne
  rw [(and_two_pow_ne_zero_iff x k).1 hne] at h
  exact Bool.noConfusion h

/-- Two masks that agree on bit `k` have the same intersection with `2 ^ k`. -/
theorem and_two_pow_eq_of_testBit (x y k : Nat) (h : x.testBit k = y.testBit k) :
    x &&& 2 ^ k = y &&& 2 ^ k := by
  apply Nat.eq_of_testBit_eq
  intro i
  simp only [Nat.testBit_and, Nat.testBit_two_pow]
  by_cases hki : k = i
  · subst hki; rw [h]
  · simp [hki]

/-- The bits below 32 of a mask in which the single bit `2 ^ a` has been replaced by the
single bit `2 ^ c`. -/
theorem testBit_replace (device a c i : Nat) (hi : i < 32) :
    ((device &&& bitNot 32 (2 ^ a)) ||| 2 ^ c).testBit i =
      ((device.testBit i && decide (a ≠ i)) || decide (c = i)) := by
  simp only [bitNot, Nat.testBit_or, Nat.testBit_and, Nat.testBit_xor,
    Nat.testBit_two_pow_sub_one, Nat.testBit_two_pow]
  by_cases hai : a = i <;> by_cases hci : c = i <;> simp [hai, hci, hi]

/-- C19 as stated fails: on `samplePlatform` with ANC active, the request `0x100004`
for the wired-headset output and input together comes back as `0x101000`, which still
has the wired-headset input bit `0x100000` and lacks the ANC-headset input bit
`0x1000000`. -/
theorem ancSubstitute_keeps_input_headset :
    ancSubstitute samplePlatform true [] 0x100004 = AncResult.device 0x101000 ∧
    0x100004 &&& samplePlatform.DEVICE_OUT_WIRED_HEADSET ≠ 0 ∧
    0x100004 &&& samplePlatform.DEVICE_IN_WIRED_HEADSET ≠ 0 ∧
    0x101000 &&& samplePlatform.DEVICE_IN_WIRED_HEADSET ≠ 0 ∧
    0x101000 &&& samplePlatform.DEVICE_IN_ANC_HEADSET = 0 := by
  decide

/-- C19, amended: let the device constants be different single bits and ANC be active.
For every non-empty requested mask the ANC substitution returns a mask `d`. When the
request has the wired-headset output bit, `d` has the ANC-headset output bit and no
wired-headset output bit, and its wired-headset input bit and ANC-headset input bit
are those of the request: an input bit requested together with the output bit is not
replaced. When the request has the wired-headset input bit without the output bit,
`d` has the ANC-headset input bit and neither wired-headset bit. When the request has
neither wired-headset bit, `d` is the request. -/
theorem ancSubstitute_output_first (p : Platform) (hp : p.SingleBits)
    (l : List alsa_handle_t) (device : Nat) (hne : device ≠ 0) :
    ∃ d, ancSubstitute p true l device = AncResult.device d ∧
      (device &&& p.DEVICE_OUT_WIRED_HEADSET ≠ 0 →
        d &&& p.DEVICE_OUT_WIRED_HEADSET = 0 ∧ d &&& p.DEVICE_OUT_ANC_HEADSET ≠ 0 ∧
        d &&& p.DEVICE_IN_WIRED_HEADSET = device &&& p.DEVICE_IN_WIRED_HEADSET ∧
        d &&& p.DEVICE_IN_ANC_HEADSET = device &&& p.DEVICE_IN_ANC_HEADSET) ∧
      (device &&& p.DEVICE_OUT_WIRED_HEADSET = 0 →
        device &&& p.DEVICE_IN_WIRED_HEADSET ≠ 0 →
        d &&& p.DEVICE_IN_WIRED_HEADSET = 0 ∧ d &&& p.DEVICE_OUT_WIRED_HEADSET = 0 ∧
        d &&& p.DEVICE_IN_ANC_HEADSET ≠ 0 ∧
        d &&& p.DEVICE_OUT_ANC_HEADSET = device &&& p.DEVICE_OUT_ANC_HEADSET) ∧
      (device &&& p.DEVICE_OUT_WIRED_HEADSET = 0 →
        device &&& p.DEVICE_IN_WIRED_HEADSET = 0 → d = device) := by
  obtain ⟨a, ha, ea⟩ := hp.single 2 (by decide)
  obtain ⟨b, hb, eb⟩ := hp.single 11 (by decide)
  obtain ⟨c, hc, ec⟩ := hp.single 7 (by decide)
  obtain ⟨e, he, ee⟩ := hp.single 14 (by decide)
  have hab := hp.disjoint 2 11 (by decide) (by decide) (by decide)
  have hac := hp.disjoint 2 7 (by decide) (by decide) (by decide)
  have hae := hp.disjoint 2 14 (by decide) (by decide) (by decide)
  have hbc := hp.disjoint 11 7 (by decide) (by decide) (by decide)
  have hbe := hp.disjoint 11 14 (by decide) (by decide) (by decide)
  have hce := hp.disjoint 7 14 (by decide) (by decide) (by decide)
  change p.DEVICE_OUT_WIRED_HEADSET = 2 ^ a at ea
  change p.DEVICE_IN_WIRED_HEADSET = 2 ^ b at eb
  change p.DEVICE_OUT_ANC_HEADSET = 2 ^ c at ec
  change p.DEVICE_IN_ANC_HEADSET = 2 ^ e at ee
  change p.DEVICE_OUT_WIRED_HEADSET &&& p.DEVICE_IN_WIRED_HEADSET = 0 at hab
  change p.DEVICE_OUT_WIRED_HEADSET &&& p.DEVICE_OUT_ANC_HEADSET = 0 at hac
  change p.DEVICE_OUT_WIRED_HEADSET &&& p.DEVICE_IN_ANC_HEADSET = 0 at hae
  change p.DEVICE_IN_WIRED_HEADSET &&& p.DEVICE_OUT_ANC_HEADSET = 0 at hbc
  change p.DEVICE_IN_WIRED_HEADSET &&& p.DEVICE_IN_ANC_HEADSET = 0 at hbe
  change p.DEVICE_OUT_ANC_HEADSET &&& p.DEVICE_IN_ANC_HEADSET = 0 at hce
  simp only [ea, eb, ec, ee] at hab hac hae hbc hbe hce ⊢
  have ne_of : ∀ x y : Nat, 2 ^ x &&& 2 ^ y = 0 → x ≠ y := by
    intro x y h exy
    rw [exy, Nat.and_self] at h
    exact absurd h (Nat.pos_iff_ne_zero.1 (Nat.two_pow_pos y))
  have nab := ne_of _ _ hab
  have nac := ne_of _ _ hac
  have nae := ne_of _ _ hae
  have nbc := ne_of _ _ hbc
  have nbe := ne_of _ _ hbe
  have nce := ne_of _ _ hce
  by_cases h1 : device &&& 2 ^ a ≠ 0
  · refine ⟨(device &&& bitNot 32 (2 ^ a)) ||| 2 ^ c, ?_, ?_, ?_, ?_⟩
    · simp only [ancSubstitute, if_true, ea, eb, ec, ee]
      rw [if_pos h1]
    · intro _
      refine ⟨?_, ?_, ?_, ?_⟩
      · apply and_two_pow_eq_zero_of_testBit
        rw [testBit_replace _ _ _ _ ha]
        simp [Ne.symm nac]
      · rw [and_two_pow_ne_zero_iff, testBit_replace _ _ _ _ hc]
        simp
      · apply and_two_pow_eq_of_testBit
        rw [testBit_replace _ _ _ _ hb]
        simp [nab, Ne.symm nbc]
      · apply and_two_pow_eq_of_testBit
        rw [testBit_replace _ _ _ _ he]
        simp [nae, nce]
    · intro h0; exact absurd h0 h1
    · intro h0; exact absurd h0 h1
  · have h10 : device &&& 2 ^ a = 0 := not_not.1 h1
    by_cases h2 : device &&& 2 ^ b ≠ 0
    · refine ⟨(device &&& bitNot 32 (2 ^ b)) ||| 2 ^ e, ?_, ?_, ?_, ?_⟩
      · simp only [ancSubstitute, if_true, ea, eb, ec, ee]
        rw [if_neg h1, if_pos h2]
      · intro h; exact absurd h h1
      · intro _ _
        refine ⟨?_, ?_, ?_, ?_⟩
        · apply and_two_pow_eq_zero_of_testBit
          rw [testBit_replace _ _ _ _ hb]
          simp [Ne.symm nbe]
        · apply and_two_pow_eq_zero_of_testBit
          rw [testBit_replace _ _ _ _ ha]
          have hda : device.testBit a = false := by
            by_contra hx
            exact h1 ((and_two_pow_ne_zero_iff device a).2 (by simpa using hx))
          simp [hda, Ne.symm nae]
        · rw [and_two_pow_ne_zero_iff, testBit_replace _ _ _ _ he]
          simp
        · apply and_two_pow_eq_of_testBit
          rw [testBit_replace _ _ _ _ hc]
          simp [nbc, Ne.symm nce]
      · intro _ h0; exact absurd h0 h2
    · refine ⟨device, ?_, ?_, ?_, ?_⟩
      · simp only [ancSubstitute, if_true, ea, eb, ec, ee]
        rw [if_neg h1, if_neg h2, if_neg hne]
      · intro h; exact absurd h h1
      · intro _ h; exact absurd h h2
      · intro _ _; rfl

/-- The substitution on `samplePlatform` for the wired-headset output and input
requested together. -/
theorem ancSubstitute_output_first_witness :
    ∃ d, ancSubstitute samplePlatform true [] 0x100004 = AncResult.device d ∧
      (0x100004 &&& samplePlatform.DEVICE_OUT_WIRED_HEADSET ≠ 0 →
        d &&& samplePlatform.DEVICE_OUT_WIRED_HEADSET = 0 ∧
        d &&& samplePlatform.DEVICE_OUT_ANC_HEADSET ≠ 0 ∧
        d &&& samplePlatform.DEVICE_IN_WIRED_HEADSET =
          0x100004 &&& samplePlatform.DEVICE_IN_WIRED_HEADSET ∧
        d &&& samplePlatform.DEVICE_IN_ANC_HEADSET =
          0x100004 &&& samplePlatform.DEVICE_IN_ANC_HEADSET) ∧
      (0x100004 &&& samplePlatform.DEVICE_OUT_WIRED_HEADSET = 0 →
        0x100004 &&& samplePlatform.DEVICE_IN_WIRED_HEADSET ≠ 0 →
        d &&& samplePlatform.DEVICE_IN_WIRED_HEADSET = 0 ∧
        d &&& samplePlatform.DEVICE_OUT_WIRED_HEADSET = 0 ∧
        d &&& samplePlatform.DEVICE_IN_ANC_HEADSET ≠ 0 ∧
        d &&& samplePlatform.DEVICE_OUT_ANC_HEADSET =
          0x100004 &&& samplePlatform.DEVICE_OUT_ANC_HEADSET) ∧
      (0x100004 &&& samplePlatform.DEVICE_OUT_WIRED_HEADSET = 0 →
        0x100004 &&& samplePlatform.DEVICE_IN_WIRED_HEADSET = 0 → d = 0x100004) :=
  ancSubstitute_output_first samplePlatform (by decide) [] 0x100004 (by decide)

/-! ## The use case of FM capture -/

/-- C20 as stated fails: on `samplePlatform`, with the verb `HiFi` current (it is not
the FM verb `FM Digital Radio`), `openInputStream` for the FM capture device
`0x2000000` (sample rate 8000, one channel, all pointers valid) creates a session with
the modifier `Capture FM` as use case, not with the verb `FM REC`, and enables that
modifier on the sequencer. -/
theorem fm_capture_modifier_without_fm_verb :
    some "HiFi" ≠ some samplePlatform.SND_USE_CASE_VERB_DIGITAL_RADIO ∧
    samplePlatform.DEVICE_IN_FM_RX = 0x2000000 ∧
    ∃ r it, openInputStream samplePlatform (some "HiFi") 0 0 0x2000000 (some 8000) (some 1)
        true sampleAfterOpen = Outcome.ok r ∧
      r.state.mDeviceList = sampleAfterOpen.mDeviceList ++ [it] ∧
      it.useCase = samplePlatform.SND_USE_CASE_MOD_CAPTURE_FM ∧
      it.useCase ≠ samplePlatform.SND_USE_CASE_VERB_FM_REC ∧
      sequencerSets (r.state.calls.drop sampleAfterOpen.calls.length) =
        [Call.setModifier samplePlatform.SND_USE_CASE_MOD_CAPTURE_FM] :=
  ⟨by decide, rfl, _, _, rfl, rfl, rfl, by decide, by decide⟩

/-- An FM capture device is a single bit, so it passes the device test of the
stream-open functions, and it is not the voice-call capture device. -/
theorem fm_capture_device (p : Platform) (hb : p.SingleBits) (devices : Nat)
    (hfm : devices = p.DEVICE_IN_FM_RX ∨ devices = p.DEVICE_IN_FM_RX_A2DP) :
    badDevices devices = false ∧ devices ≠ p.DEVICE_IN_VOICE_CALL := by
  rcases hfm with h | h
  · obtain ⟨k, hk, ek⟩ := hb.single 15 (by decide)
    change p.DEVICE_IN_FM_RX = 2 ^ k at ek
    refine ⟨?_, ?_⟩
    · rw [h, ek]; exact badDevices_two_pow k hk
    · intro e
      have hd := hb.disjoint 12 15 (by decide) (by decide) (by decide)
      have hs := hb.self_ne_zero 15 (by decide)
      change p.DEVICE_IN_VOICE_CALL &&& p.DEVICE_IN_FM_RX = 0 at hd
      change p.DEVICE_IN_FM_RX &&& p.DEVICE_IN_FM_RX ≠ 0 at hs
      rw [← e, h] at hd
      exact hs hd
  · obtain ⟨k, hk, ek⟩ := hb.single 16 (by decide)
    change p.DEVICE_IN_FM_RX_A2DP = 2 ^ k at ek
    refine ⟨?_, ?_⟩
    · rw [h, ek]; exact badDevices_two_pow k hk
    · intro e
      have hd := hb.disjoint 12 16 (by decide) (by decide) (by decide)
      have hs := hb.self_ne_zero 16 (by decide)
      change p.DEVICE_IN_VOICE_CALL &&& p.DEVICE_IN_FM_RX_A2DP = 0 at hd
      change p.DEVICE_IN_FM_RX_A2DP &&& p.DEVICE_IN_FM_RX_A2DP ≠ 0 at hs
      rw [← e, h] at hd
      exact hs hd

/-- C20, amended: let the device constants be different single bits and the use-case
names pairwise different. In every state, `openInputStream` with an FM capture device
(`DEVICE_IN_FM_RX` or `DEVICE_IN_FM_RX_A2DP`) and valid `channels` and `sampleRate`
pointers appends one session. When the sequencer
has no verb or the inactive one, the session's use case is the FM-recording verb and
that verb is set on the sequencer. When any other verb is current, the FM verb or not,
the session's use case is the FM capture modifier and that modifier is enabled on the
sequencer. -/
theorem fm_capture_use_case (p : Platform) (hb : p.SingleBits) (hn : p.DistinctNames)
    (s : AudioHardwareALSA) (use_case : Option String) (openErr setErr : Int)
    (devices : Nat) (sampleRate channelCount : Nat) (hasStatus : Bool)
    (hfm : devices = p.DEVICE_IN_FM_RX ∨ devices = p.DEVICE_IN_FM_RX_A2DP) :
    ∃ r it, openInputStream p use_case openErr setErr devices (some sampleRate)
        (some channelCount) hasStatus s = Outcome.ok r ∧
      r.state.mDeviceList = s.mDeviceList ++ [it] ∧
      ((use_case = none ∨ use_case = some p.SND_USE_CASE_VERB_INACTIVE) →
        it.useCase = p.SND_USE_CASE_VERB_FM_REC ∧
        sequencerSets (r.state.calls.drop s.calls.length) =
          [Call.setVerb p.SND_USE_CASE_VERB_FM_REC]) ∧
      (¬ (use_case = none ∨ use_case = some p.SND_USE_CASE_VERB_INACTIVE) →
        it.useCase = p.SND_USE_CASE_MOD_CAPTURE_FM ∧
        sequencerSets (r.state.calls.drop s.calls.length) =
          [Call.setModifier p.SND_USE_CASE_MOD_CAPTURE_FM]) := by
  obtain ⟨hdev, hvc⟩ := fm_capture_device p hb devices hfm
  have hvc1 : ¬ (devices = p.DEVICE_IN_VOICE_CALL ∧ s.mMode = p.MODE_IN_CALL) :=
    fun h => hvc h.1
  have hmod : ¬ (p.SND_USE_CASE_MOD_CAPTURE_FM = p.SND_USE_CASE_VERB_HIFI_REC ∨
      p.SND_USE_CASE_MOD_CAPTURE_FM = p.SND_USE_CASE_VERB_FM_REC) := by
    intro h
    rcases h with h | h
    · exact hn.ne 9 12 (by decide) (by decide) (by decide) h
    · exact hn.ne 9 11 (by decide) (by decide) (by decide) h
  have hu : inputUseCase p use_case s.mMode devices =
      some (if verbInactive p use_case = true then p.SND_USE_CASE_VERB_FM_REC
        else p.SND_USE_CASE_MOD_CAPTURE_FM) := by
    unfold inputUseCase
    cases verbInactive p use_case <;> simp [hvc1, hfm]
  obtain ⟨r, hcall, h, hl, hverb, hmodi, hsv, hsm⟩ :=
    openInputStream_rule p use_case openErr setErr devices sampleRate channelCount
      hasStatus s p.SND_USE_CASE_VERB_FM_REC p.SND_USE_CASE_MOD_CAPTURE_FM hdev
      (hn.ne 11 9 (by decide) (by decide) (by decide)) (Or.inr rfl) hmod hu
  refine ⟨r, h, hcall, hl, ?_, ?_⟩
  · intro hin
    exact ⟨hverb.2 hin, hsv.2 (hverb.2 hin)⟩
  · intro hin
    exact ⟨hmodi.2 hin, hsm.2 (hmodi.2 hin)⟩

/-- FM capture on `samplePlatform` from `sampleAfterOpen`, with the sequencer reporting
the verb `HiFi`. -/
theorem fm_capture_use_case_witness :
    (samplePlatform.DEVICE_IN_FM_RX = 0x2000000 ∧
      ¬ (some "HiFi" = none ∨ some "HiFi" = some samplePlatform.SND_USE_CASE_VERB_INACTIVE)) ∧
    ∃ r it, openInputStream samplePlatform (some "HiFi") 0 0 0x2000000 (some 8000) (some 1)
        true sampleAfterOpen = Outcome.ok r ∧
      r.state.mDeviceList = sampleAfterOpen.mDeviceList ++ [it] ∧
      ((some "HiFi" = none ∨ some "HiFi" = some samplePlatform.SND_USE_CASE_VERB_INACTIVE) →
        it.useCase = samplePlatform.SND_USE_CASE_VERB_FM_REC ∧
        sequencerSets (r.state.calls.drop sampleAfterOpen.calls.length) =
          [Call.setVerb samplePlatform.SND_USE_CASE_VERB_FM_REC]) ∧
      (¬ (some "HiFi" = none ∨
          some "HiFi" = some samplePlatform.SND_USE_CASE_VERB_INACTIVE) →
        it.useCase = samplePlatform.SND_USE_CASE_MOD_CAPTURE_FM ∧
        sequencerSets (r.state.calls.drop sampleAfterOpen.calls.length) =
          [Call.setModifier samplePlatform.SND_USE_CASE_MOD_CAPTURE_FM]) :=
  ⟨⟨rfl, by decide⟩,
    fm_capture_use_case samplePlatform (by decide) (by decide) sampleAfterOpen (some "HiFi")
      0 0 0x2000000 8000 1 true (Or.inl rfl)⟩

/-! ## Repeating the in-call expansion -/

/-- A mask OR-ed with two constants that are disjoint from `t` meets `t` where the
mask does. -/
theorem or_pair_and (m a b t : Nat) (ha : a &&& t = 0) (hb : b &&& t = 0) :
    (m ||| (a ||| b)) &&& t = m &&& t := by
  apply Nat.eq_of_testBit_eq
  intro i
  have hai : (a &&& t).testBit i = false := by rw [ha]; exact Nat.zero_testBit i
  have hbi : (b &&& t).testBit i = false := by rw [hb]; exact Nat.zero_testBit i
  simp only [Nat.testBit_and, Nat.testBit_or] at hai hbi ⊢
  cases hm : m.testBit i <;> cases hta : a.testBit i <;> cases htb : b.testBit i <;>
    cases ht : t.testBit i <;> simp_all

/-- A mask that meets `t` still meets it after more bits are OR-ed in. -/
theorem and_or_ne_zero (m q t : Nat) (h : m &&& t ≠ 0) : (m ||| q) &&& t ≠ 0 := by
  intro h0
  apply h
  apply Nat.eq_of_testBit_eq
  intro i
  have hi : ((m ||| q) &&& t).testBit i = false := by rw [h0]; exact Nat.zero_testBit i
  simp only [Nat.testBit_and, Nat.testBit_or, Nat.zero_testBit] at hi ⊢
  cases hm : m.testBit i <;> cases ht : t.testBit i <;> simp_all

/-- A mask into which the non-empty constant `b` was OR-ed meets `b`. -/
theorem or_pair_and_right (m a b : Nat) (hb : b &&& b ≠ 0) : (m ||| (a ||| b)) &&& b ≠ 0 := by
  intro h0
  apply hb
  apply Nat.eq_of_testBit_eq
  intro i
  have hi : ((m ||| (a ||| b)) &&& b).testBit i = false := by
    rw [h0]; exact Nat.zero_testBit i
  simp only [Nat.testBit_and, Nat.testBit_or, Nat.zero_testBit] at hi ⊢
  cases hbi : b.testBit i <;> simp_all

/-- A mask into which the non-empty constant `a` was OR-ed meets `a`. -/
theorem or_pair_and_left (m a b : Nat) (ha : a &&& a ≠ 0) : (m ||| (a ||| b)) &&& a ≠ 0 := by
  intro h0
  apply ha
  apply Nat.eq_of_testBit_eq
  intro i
  have hi : ((m ||| (a ||| b)) &&& a).testBit i = false := by
    rw [h0]; exact Nat.zero_testBit i
  simp only [Nat.testBit_and, Nat.testBit_or, Nat.zero_testBit] at hi ⊢
  cases hai : a.testBit i <;> simp_all

/-- The in-call expansion when the wired-headset test is the first of the chain
of lines 326-349 to succeed. -/
theorem inCallSymmetry_rule1 (p : Platform) (mode : Int) (x : Nat)
    (hm : mode = p.MODE_IN_CALL)
    (c1 : x &&& p.DEVICE_OUT_WIRED_HEADSET ≠ 0 ∨ x &&& p.DEVICE_IN_WIRED_HEADSET ≠ 0) :
    inCallSymmetry p mode x =
      x ||| (p.DEVICE_OUT_WIRED_HEADSET ||| p.DEVICE_IN_WIRED_HEADSET) := by
  unfold inCallSymmetry
  rw [if_pos hm, if_pos c1]

/-- The in-call expansion when the wired-headphone test is the first of the chain
of lines 326-349 to succeed. -/
theorem inCallSymmetry_rule2 (p : Platform) (mode : Int) (x : Nat)
    (hm : mode = p.MODE_IN_CALL)
    (c1 : ¬ (x &&& p.DEVICE_OUT_WIRED_HEADSET ≠ 0 ∨ x &&& p.DEVICE_IN_WIRED_HEADSET ≠ 0))
    (c2 : x &&& p.DEVICE_OUT_WIRED_HEADPHONE ≠ 0) :
    inCallSymmetry p mode x =
      x ||| (p.DEVICE_OUT_WIRED_HEADPHONE ||| p.DEVICE_IN_BUILTIN_MIC) := by
  unfold inCallSymmetry
  rw [if_pos hm, if_neg c1, if_pos c2]

/-- The in-call expansion when the earpiece and built-in-mic test is the first of the chain
of lines 326-349 to succeed. -/
theorem inCallSymmetry_rule3 (p : Platform) (mode : Int) (x : Nat)
    (hm : mode = p.MODE_IN_CALL)
    (c1 : ¬ (x &&& p.DEVICE_OUT_WIRED_HEADSET ≠ 0 ∨ x &&& p.DEVICE_IN_WIRED_HEADSET ≠ 0))
    (c2 : ¬ (x &&& p.DEVICE_OUT_WIRED_HEADPHONE ≠ 0))
    (c3 : x &&& p.DEVICE_OUT_EARPIECE ≠ 0 ∨ x &&& p.DEVICE_IN_BUILTIN_MIC ≠ 0) :
    inCallSymmetry p mode x =
      x ||| (p.DEVICE_IN_BUILTIN_MIC ||| p.DEVICE_OUT_EARPIECE) := by
  unfold inCallSymmetry
  rw [if_pos hm, if_neg c1, if_neg c2, if_pos c3]

/-- The in-call expansion when the speaker test is the first of the chain
of lines 326-349 to succeed. -/
theorem inCallSymmetry_rule4 (p : Platform) (mode : Int) (x : Nat)
    (hm : mode = p.MODE_IN_CALL)
    (c1 : ¬ (x &&& p.DEVICE_OUT_WIRED_HEADSET ≠ 0 ∨ x &&& p.DEVICE_IN_WIRED_HEADSET ≠ 0))
    (c2 : ¬ (x &&& p.DEVICE_OUT_WIRED_HEADPHONE ≠ 0))
    (c3 : ¬ (x &&& p.DEVICE_OUT_EARPIECE ≠ 0 ∨ x &&& p.DEVICE_IN_BUILTIN_MIC ≠ 0))
    (c4 : x &&& p.DEVICE_OUT_SPEAKER ≠ 0) :
    inCallSymmetry p mode x =
      x ||| (p.DEVICE_IN_DEFAULT ||| p.DEVICE_OUT_SPEAKER) := by
  unfold inCallSymmetry
  rw [if_pos hm, if_neg c1, if_neg c2, if_neg c3, if_pos c4]

/-- The in-call expansion when the Bluetooth test is the first of the chain
of lines 326-349 to succeed. -/
theorem inCallSymmetry_rule5 (p : Platform) (mode : Int) (x : Nat)
    (hm : mode = p.MODE_IN_CALL)
    (c1 : ¬ (x &&& p.DEVICE_OUT_WIRED_HEADSET ≠ 0 ∨ x &&& p.DEVICE_IN_WIRED_HEADSET ≠ 0))
    (c2 : ¬ (x &&& p.DEVICE_OUT_WIRED_HEADPHONE ≠ 0))
    (c3 : ¬ (x &&& p.DEVICE_OUT_EARPIECE ≠ 0 ∨ x &&& p.DEVICE_IN_BUILTIN_MIC ≠ 0))
    (c4 : ¬ (x &&& p.DEVICE_OUT_SPEAKER ≠ 0))
    (c5 : x &&& p.DEVICE_OUT_BLUETOOTH_SCO ≠ 0 ∨
        x &&& p.DEVICE_OUT_BLUETOOTH_SCO_HEADSET ≠ 0 ∨
        x &&& p.DEVICE_IN_BLUETOOTH_SCO_HEADSET ≠ 0) :
    inCallSymmetry p mode x =
      x ||| (p.DEVICE_IN_BLUETOOTH_SCO_HEADSET ||| p.DEVICE_OUT_BLUETOOTH_SCO) := by
  unfold inCallSymmetry
  rw [if_pos hm, if_neg c1, if_neg c2, if_neg c3, if_neg c4, if_pos c5]

/-- The in-call expansion when the ANC-headset test is the first of the chain
of lines 326-349 to succeed. -/
theorem inCallSymmetry_rule6 (p : Platform) (mode : Int) (x : Nat)
    (hm : mode = p.MODE_IN_CALL)
    (c1 : ¬ (x &&& p.DEVICE_OUT_WIRED_HEADSET ≠ 0 ∨ x &&& p.DEVICE_IN_WIRED_HEADSET ≠ 0))
    (c2 : ¬ (x &&& p.DEVICE_OUT_WIRED_HEADPHONE ≠ 0))
    (c3 : ¬ (x &&& p.DEVICE_OUT_EARPIECE ≠ 0 ∨ x &&& p.DEVICE_IN_BUILTIN_MIC ≠ 0))
    (c4 : ¬ (x &&& p.DEVICE_OUT_SPEAKER ≠ 0))
    (c5 : ¬ (x &&& p.DEVICE_OUT_BLUETOOTH_SCO ≠ 0 ∨
        x &&& p.DEVICE_OUT_BLUETOOTH_SCO_HEADSET ≠ 0 ∨
        x &&& p.DEVICE_IN_BLUETOOTH_SCO_HEADSET ≠ 0))
    (c6 : x &&& p.DEVICE_OUT_ANC_HEADSET ≠ 0 ∨ x &&& p.DEVICE_IN_ANC_HEADSET ≠ 0) :
    inCallSymmetry p mode x =
      x ||| (p.DEVICE_OUT_ANC_HEADSET ||| p.DEVICE_IN_ANC_HEADSET) := by
  unfold inCallSymmetry
  rw [if_pos hm, if_neg c1, if_neg c2, if_neg c3, if_neg c4, if_neg c5, if_pos c6]

/-- The in-call expansion when the ANC-headphone test is the first of the chain
of lines 326-349 to succeed. -/
theorem inCallSymmetry_rule7 (p : Platform) (mode : Int) (x : Nat)
    (hm : mode = p.MODE_IN_CALL)
    (c1 : ¬ (x &&& p.DEVICE_OUT_WIRED_HEADSET ≠ 0 ∨ x &&& p.DEVICE_IN_WIRED_HEADSET ≠ 0))
    (c2 : ¬ (x &&& p.DEVICE_OUT_WIRED_HEADPHONE ≠ 0))
    (c3 : ¬ (x &&& p.DEVICE_OUT_EARPIECE ≠ 0 ∨ x &&& p.DEVICE_IN_BUILTIN_MIC ≠ 0))
    (c4 : ¬ (x &&& p.DEVICE_OUT_SPEAKER ≠ 0))
    (c5 : ¬ (x &&& p.DEVICE_OUT_BLUETOOTH_SCO ≠ 0 ∨
        x &&& p.DEVICE_OUT_BLUETOOTH_SCO_HEADSET ≠ 0 ∨
        x &&& p.DEVICE_IN_BLUETOOTH_SCO_HEADSET ≠ 0))
    (c6 : ¬ (x &&& p.DEVICE_OUT_ANC_HEADSET ≠ 0 ∨ x &&& p.DEVICE_IN_ANC_HEADSET ≠ 0))
    (c7 : x &&& p.DEVICE_OUT_ANC_HEADPHONE ≠ 0) :
    inCallSymmetry p mode x =
      x ||| (p.DEVICE_OUT_ANC_HEADPHONE ||| p.DEVICE_IN_BUILTIN_MIC) := by
  unfold inCallSymmetry
  rw [if_pos hm, if_neg c1, if_neg c2, if_neg c3, if_neg c4, if_neg c5, if_neg c6, if_pos c7]

/-- The in-call expansion when no test of the chain of lines 326-349 succeeds. -/
theorem inCallSymmetry_no_rule (p : Platform) (mode : Int) (x : Nat)
    (hm : mode = p.MODE_IN_CALL)
    (c1 : ¬ (x &&& p.DEVICE_OUT_WIRED_HEADSET ≠ 0 ∨ x &&& p.DEVICE_IN_WIRED_HEADSET ≠ 0))
    (c2 : ¬ (x &&& p.DEVICE_OUT_WIRED_HEADPHONE ≠ 0))
    (c3 : ¬ (x &&& p.DEVICE_OUT_EARPIECE ≠ 0 ∨ x &&& p.DEVICE_IN_BUILTIN_MIC ≠ 0))
    (c4 : ¬ (x &&& p.DEVICE_OUT_SPEAKER ≠ 0))
    (c5 : ¬ (x &&& p.DEVICE_OUT_BLUETOOTH_SCO ≠ 0 ∨
        x &&& p.DEVICE_OUT_BLUETOOTH_SCO_HEADSET ≠ 0 ∨
        x &&& p.DEVICE_IN_BLUETOOTH_SCO_HEADSET ≠ 0))
    (c6 : ¬ (x &&& p.DEVICE_OUT_ANC_HEADSET ≠ 0 ∨ x &&& p.DEVICE_IN_ANC_HEADSET ≠ 0))
    (c7 : ¬ (x &&& p.DEVICE_OUT_ANC_HEADPHONE ≠ 0)) :
    inCallSymmetry p mode x = x := by
  unfold inCallSymmetry
  rw [if_pos hm, if_neg c1, if_neg c2, if_neg c3, if_neg c4, if_neg c5, if_neg c6, if_neg c7]

/-- Expanding twice is expanding once when the wired-headset test is the first
to succeed. -/
theorem inCallSymmetry_twice_rule1 (p : Platform) (mode : Int)
    (m : Nat) (hm : mode = p.MODE_IN_CALL)
    (c1 : m &&& p.DEVICE_OUT_WIRED_HEADSET ≠ 0 ∨ m &&& p.DEVICE_IN_WIRED_HEADSET ≠ 0) :
    inCallSymmetry p mode (inCallSymmetry p mode m) = inCallSymmetry p mode m := by
  obtain ⟨q, hq⟩ : ∃ q, q = p.DEVICE_OUT_WIRED_HEADSET ||| p.DEVICE_IN_WIRED_HEADSET :=
    ⟨_, rfl⟩
  have d1 : (m ||| q) &&& p.DEVICE_OUT_WIRED_HEADSET ≠ 0 ∨
      (m ||| q) &&& p.DEVICE_IN_WIRED_HEADSET ≠ 0 := by
    exact c1.imp (and_or_ne_zero _ _ _) (and_or_ne_zero _ _ _)
  rw [inCallSymmetry_rule1 p mode m hm c1, ← hq,
    inCallSymmetry_rule1 p mode (m ||| q) hm d1, ← hq, Nat.or_assoc, Nat.or_self]

/-- Expanding twice is expanding once when the wired-headphone test is the first
to succeed. -/
theorem inCallSymmetry_twice_rule2 (p : Platform) (hp : p.SingleBits) (mode : Int)
    (m : Nat) (hm : mode = p.MODE_IN_CALL)
    (c1 : ¬ (m &&& p.DEVICE_OUT_WIRED_HEADSET ≠ 0 ∨ m &&& p.DEVICE_IN_WIRED_HEADSET ≠ 0))
    (c2 : m &&& p.DEVICE_OUT_WIRED_HEADPHONE ≠ 0) :
    inCallSymmetry p mode (inCallSymmetry p mode m) = inCallSymmetry p mode m := by
  obtain ⟨q, hq⟩ : ∃ q, q = p.DEVICE_OUT_WIRED_HEADPHONE ||| p.DEVICE_IN_BUILTIN_MIC :=
    ⟨_, rfl⟩
  have d1 : ¬ ((m ||| q) &&& p.DEVICE_OUT_WIRED_HEADSET ≠ 0 ∨
      (m ||| q) &&& p.DEVICE_IN_WIRED_HEADSET ≠ 0) := by
    rw [hq]
    rw [or_pair_and m p.DEVICE_OUT_WIRED_HEADPHONE p.DEVICE_IN_BUILTIN_MIC
      p.DEVICE_OUT_WIRED_HEADSET (hp.disjoint 3 2 (by decide) (by decide) (by decide))
      (hp.disjoint 9 2 (by decide) (by decide) (by decide))]
    rw [or_pair_and m p.DEVICE_OUT_WIRED_HEADPHONE p.DEVICE_IN_BUILTIN_MIC
      p.DEVICE_IN_WIRED_HEADSET (hp.disjoint 3 11 (by decide) (by decide) (by decide))
      (hp.disjoint 9 11 (by decide) (by decide) (by decide))]
    exact c1
  have d2 : (m ||| q) &&& p.DEVICE_OUT_WIRED_HEADPHONE ≠ 0 := by
    exact and_or_ne_zero _ _ _ c2
  rw [inCallSymmetry_rule2 p mode m hm c1 c2, ← hq,
    inCallSymmetry_rule2 p mode (m ||| q) hm d1 d2, ← hq, Nat.or_assoc, Nat.or_self]

/-- Expanding twice is expanding once when the earpiece and built-in-mic test is the first
to succeed. -/
theorem inCallSymmetry_twice_rule3 (p : Platform) (hp : p.SingleBits) (mode : Int)
    (m : Nat) (hm : mode = p.MODE_IN_CALL)
    (c1 : ¬ (m &&& p.DEVICE_OUT_WIRED_HEADSET ≠ 0 ∨ m &&& p.DEVICE_IN_WIRED_HEADSET ≠ 0))
    (c2 : ¬ (m &&& p.DEVICE_OUT_WIRED_HEADPHONE ≠ 0))
    (c3 : m &&& p.DEVICE_OUT_EARPIECE ≠ 0 ∨ m &&& p.DEVICE_IN_BUILTIN_MIC ≠ 0) :
    inCallSymmetry p mode (inCallSymmetry p mode m) = inCallSymmetry p mode m := by
  obtain ⟨q, hq⟩ : ∃ q, q = p.DEVICE_IN_BUILTIN_MIC ||| p.DEVICE_OUT_EARPIECE :=
    ⟨_, rfl⟩
  have d1 : ¬ ((m ||| q) &&& p.DEVICE_OUT_WIRED_HEADSET ≠ 0 ∨
      (m ||| q) &&& p.DEVICE_IN_WIRED_HEADSET ≠ 0) := by
    rw [hq]
    rw [or_pair_and m p.DEVICE_IN_BUILTIN_MIC p.DEVICE_OUT_EARPIECE
      p.DEVICE_OUT_WIRED_HEADSET (hp.disjoint 9 2 (by decide) (by decide) (by decide))
      (hp.disjoint 0 2 (by decide) (by decide) (by decide))]
    rw [or_pair_and m p.DEVICE_IN_BUILTIN_MIC p.DEVICE_OUT_EARPIECE
      p.DEVICE_IN_WIRED_HEADSET (hp.disjoint 9 11 (by decide) (by decide) (by decide))
      (hp.disjoint 0 11 (by decide) (by decide) (by decide))]
    exact c1
  have d2 : ¬ ((m ||| q) &&& p.DEVICE_OUT_WIRED_HEADPHONE ≠ 0) := by
    rw [hq]
    rw [or_pair_and m p.DEVICE_IN_BUILTIN_MIC p.DEVICE_OUT_EARPIECE
      p.DEVICE_OUT_WIRED_HEADPHONE (hp.disjoint 9 3 (by decide) (by decide) (by decide))
      (hp.disjoint 0 3 (by decide) (by decide) (by decide))]
    exact c2
  have d3 : (m ||| q) &&& p.DEVICE_OUT_EARPIECE ≠ 0 ∨
      (m ||| q) &&& p.DEVICE_IN_BUILTIN_MIC ≠ 0 := by
    exact c3.imp (and_or_ne_zero _ _ _) (and_or_ne_zero _ _ _)
  rw [inCallSymmetry_rule3 p mode m hm c1 c2 c3, ← hq,
    inCallSymmetry_rule3 p mode (m ||| q) hm d1 d2 d3, ← hq, Nat.or_assoc, Nat.or_self]

/-- Expanding twice is expanding once when the speaker test is the first
to succeed. -/
theorem inCallSymmetry_twice_rule4 (p : Platform) (hp : p.SingleBits) (mode : Int)
    (m : Nat) (hm : mode = p.MODE_IN_CALL)
    (c1 : ¬ (m &&& p.DEVICE_OUT_WIRED_HEADSET ≠ 0 ∨ m &&& p.DEVICE_IN_WIRED_HEADSET ≠ 0))
    (c2 : ¬ (m &&& p.DEVICE_OUT_WIRED_HEADPHONE ≠ 0))
    (c3 : ¬ (m &&& p.DEVICE_OUT_EARPIECE ≠ 0 ∨ m &&& p.DEVICE_IN_BUILTIN_MIC ≠ 0))
    (c4 : m &&& p.DEVICE_OUT_SPEAKER ≠ 0) :
    inCallSymmetry p mode (inCallSymmetry p mode m) = inCallSymmetry p mode m := by
  obtain ⟨q, hq⟩ : ∃ q, q = p.DEVICE_IN_DEFAULT ||| p.DEVICE_OUT_SPEAKER :=
    ⟨_, rfl⟩
  have d1 : ¬ ((m ||| q) &&& p.DEVICE_OUT_WIRED_HEADSET ≠ 0 ∨
      (m ||| q) &&& p.DEVICE_IN_WIRED_HEADSET ≠ 0) := by
    rw [hq]
    rw [or_pair_and m p.DEVICE_IN_DEFAULT p.DEVICE_OUT_SPEAKER
      p.DEVICE_OUT_WIRED_HEADSET (hp.disjoint 17 2 (by decide) (by decide) (by decide))
      (hp.disjoint 1 2 (by decide) (by decide) (by decide))]
    rw [or_pair_and m p.DEVICE_IN_DEFAULT p.DEVICE_OUT_SPEAKER
      p.DEVICE_IN_WIRED_HEADSET (hp.disjoint 17 11 (by decide) (by decide) (by decide))
      (hp.disjoint 1 11 (by decide) (by decide) (by decide))]
    exact c1
  have d2 : ¬ ((m ||| q) &&& p.DEVICE_OUT_WIRED_HEADPHONE ≠ 0) := by
    rw [hq]
    rw [or_pair_and m p.DEVICE_IN_DEFAULT p.DEVICE_OUT_SPEAKER
      p.DEVICE_OUT_WIRED_HEADPHONE (hp.disjoint 17 3 (by decide) (by decide) (by decide))
      (hp.disjoint 1 3 (by decide) (by decide) (by decide))]
    exact c2
  have d3 : ¬ ((m ||| q) &&& p.DEVICE_OUT_EARPIECE ≠ 0 ∨
      (m ||| q) &&& p.DEVICE_IN_BUILTIN_MIC ≠ 0) := by
    rw [hq]
    rw [or_pair_and m p.DEVICE_IN_DEFAULT p.DEVICE_OUT_SPEAKER
      p.DEVICE_OUT_EARPIECE (hp.disjoint 17 0 (by decide) (by decide) (by decide))
      (hp.disjoint 1 0 (by decide) (by decide) (by decide))]
    rw [or_pair_and m p.DEVICE_IN_DEFAULT p.DEVICE_OUT_SPEAKER
      p.DEVICE_IN_BUILTIN_MIC (hp.disjoint 17 9 (by decide) (by decide) (by decide))
      (hp.disjoint 1 9 (by decide) (by decide) (by decide))]
    exact c3
  have d4 : (m ||| q) &&& p.DEVICE_OUT_SPEAKER ≠ 0 := by
    exact and_or_ne_zero _ _ _ c4
  rw [inCallSymmetry_rule4 p mode m hm c1 c2 c3 c4, ← hq,
    inCallSymmetry_rule4 p mode (m ||| q) hm d1 d2 d3 d4, ← hq, Nat.or_assoc, Nat.or_self]

/-- Expanding twice is expanding once when the Bluetooth test is the first
to succeed. -/
theorem inCallSymmetry_twice_rule5 (p : Platform) (hp : p.SingleBits) (mode : Int)
    (m : Nat) (hm : mode = p.MODE_IN_CALL)
    (c1 : ¬ (m &&& p.DEVICE_OUT_WIRED_HEADSET ≠ 0 ∨ m &&& p.DEVICE_IN_WIRED_HEADSET ≠ 0))
    (c2 : ¬ (m &&& p.DEVICE_OUT_WIRED_HEADPHONE ≠ 0))
    (c3 : ¬ (m &&& p.DEVICE_OUT_EARPIECE ≠ 0 ∨ m &&& p.DEVICE_IN_BUILTIN_MIC ≠ 0))
    (c4 : ¬ (m &&& p.DEVICE_OUT_SPEAKER ≠ 0))
    (c5 : m &&& p.DEVICE_OUT_BLUETOOTH_SCO ≠ 0 ∨
        m &&& p.DEVICE_OUT_BLUETOOTH_SCO_HEADSET ≠ 0 ∨
        m &&& p.DEVICE_IN_BLUETOOTH_SCO_HEADSET ≠ 0) :
    inCallSymmetry p mode (inCallSymmetry p mode m) = inCallSymmetry p mode m := by
  obtain ⟨q, hq⟩ : ∃ q, q = p.DEVICE_IN_BLUETOOTH_SCO_HEADSET ||| p.DEVICE_OUT_BLUETOOTH_SCO :=
    ⟨_, rfl⟩
  have d1 : ¬ ((m ||| q) &&& p.DEVICE_OUT_WIRED_HEADSET ≠ 0 ∨
      (m ||| q) &&& p.DEVICE_IN_WIRED_HEADSET ≠ 0) := by
    rw [hq]
    rw [or_pair_and m p.DEVICE_IN_BLUETOOTH_SCO_HEADSET p.DEVICE_OUT_BLUETOOTH_SCO
      p.DEVICE_OUT_WIRED_HEADSET (hp.disjoint 10 2 (by decide) (by decide) (by decide))
      (hp.disjoint 4 2 (by decide) (by decide) (by decide))]
    rw [or_pair_and m p.DEVICE_IN_BLUETOOTH_SCO_HEADSET p.DEVICE_OUT_BLUETOOTH_SCO
      p.DEVICE_IN_WIRED_HEADSET (hp.disjoint 10 11 (by decide) (by decide) (by decide))
      (hp.disjoint 4 11 (by decide) (by decide) (by decide))]
    exact c1
  have d2 : ¬ ((m ||| q) &&& p.DEVICE_OUT_WIRED_HEADPHONE ≠ 0) := by
    rw [hq]
    rw [or_pair_and m p.DEVICE_IN_BLUETOOTH_SCO_HEADSET p.DEVICE_OUT_BLUETOOTH_SCO
      p.DEVICE_OUT_WIRED_HEADPHONE (hp.disjoint 10 3 (by decide) (by decide) (by decide))
      (hp.disjoint 4 3 (by decide) (by decide) (by decide))]
    exact c2
  have d3 : ¬ ((m ||| q) &&& p.DEVICE_OUT_EARPIECE ≠ 0 ∨
      (m ||| q) &&& p.DEVICE_IN_BUILTIN_MIC ≠ 0) := by
    rw [hq]
    rw [or_pair_and m p.DEVICE_IN_BLUETOOTH_SCO_HEADSET p.DEVICE_OUT_BLUETOOTH_SCO
      p.DEVICE_OUT_EARPIECE (hp.disjoint 10 0 (by decide) (by decide) (by decide))
      (hp.disjoint 4 0 (by decide) (by decide) (by decide))]
    rw [or_pair_and m p.DEVICE_IN_BLUETOOTH_SCO_HEADSET p.DEVICE_OUT_BLUETOOTH_SCO
      p.DEVICE_IN_BUILTIN_MIC (hp.disjoint 10 9 (by decide) (by decide) (by decide))
      (hp.disjoint 4 9 (by decide) (by decide) (by decide))]
    exact c3
  have d4 : ¬ ((m ||| q) &&& p.DEVICE_OUT_SPEAKER ≠ 0) := by
    rw [hq]
    rw [or_pair_and m p.DEVICE_IN_BLUETOOTH_SCO_HEADSET p.DEVICE_OUT_BLUETOOTH_SCO
      p.DEVICE_OUT_SPEAKER (hp.disjoint 10 1 (by decide) (by decide) (by decide))
      (hp.disjoint 4 1 (by decide) (by decide) (by decide))]
    exact c4
  have d5 : (m ||| q) &&& p.DEVICE_OUT_BLUETOOTH_SCO ≠ 0 ∨
      (m ||| q) &&& p.DEVICE_OUT_BLUETOOTH_SCO_HEADSET ≠ 0 ∨
      (m ||| q) &&& p.DEVICE_IN_BLUETOOTH_SCO_HEADSET ≠ 0 := by
    exact c5.imp (and_or_ne_zero _ _ _)
      (fun h => h.imp (and_or_ne_zero _ _ _) (and_or_ne_zero _ _ _))
  rw [inCallSymmetry_rule5 p mode m hm c1 c2 c3 c4 c5, ← hq,
    inCallSymmetry_rule5 p mode (m ||| q) hm d1 d2 d3 d4 d5, ← hq, Nat.or_assoc, Nat.or_self]

/-- Expanding twice is expanding once when the ANC-headset test is the first
to succeed. -/
theorem inCallSymmetry_twice_rule6 (p : Platform) (hp : p.SingleBits) (mode : Int)
    (m : Nat) (hm : mode = p.MODE_IN_CALL)
    (c1 : ¬ (m &&& p.DEVICE_OUT_WIRED_HEADSET ≠ 0 ∨ m &&& p.DEVICE_IN_WIRED_HEADSET ≠ 0))
    (c2 : ¬ (m &&& p.DEVICE_OUT_WIRED_HEADPHONE ≠ 0))
    (c3 : ¬ (m &&& p.DEVICE_OUT_EARPIECE ≠ 0 ∨ m &&& p.DEVICE_IN_BUILTIN_MIC ≠ 0))
    (c4 : ¬ (m &&& p.DEVICE_OUT_SPEAKER ≠ 0))
    (c5 : ¬ (m &&& p.DEVICE_OUT_BLUETOOTH_SCO ≠ 0 ∨
        m &&& p.DEVICE_OUT_BLUETOOTH_SCO_HEADSET ≠ 0 ∨
        m &&& p.DEVICE_IN_BLUETOOTH_SCO_HEADSET ≠ 0))
    (c6 : m &&& p.DEVICE_OUT_ANC_HEADSET ≠ 0 ∨ m &&& p.DEVICE_IN_ANC_HEADSET ≠ 0) :
    inCallSymmetry p mode (inCallSymmetry p mode m) = inCallSymmetry p mode m := by
  obtain ⟨q, hq⟩ : ∃ q, q = p.DEVICE_OUT_ANC_HEADSET ||| p.DEVICE_IN_ANC_HEADSET :=
    ⟨_, rfl⟩
  have d1 : ¬ ((m ||| q) &&& p.DEVICE_OUT_WIRED_HEADSET ≠ 0 ∨
      (m ||| q) &&& p.DEVICE_IN_WIRED_HEADSET ≠ 0) := by
    rw [hq]
    rw [or_pair_and m p.DEVICE_OUT_ANC_HEADSET p.DEVICE_IN_ANC_HEADSET
      p.DEVICE_OUT_WIRED_HEADSET (hp.disjoint 7 2 (by decide) (by decide) (by decide))
      (hp.disjoint 14 2 (by decide) (by decide) (by decide))]
    rw [or_pair_and m p.DEVICE_OUT_ANC_HEADSET p.DEVICE_IN_ANC_HEADSET
      p.DEVICE_IN_WIRED_HEADSET (hp.disjoint 7 11 (by decide) (by decide) (by decide))
      (hp.disjoint 14 11 (by decide) (by decide) (by decide))]
    exact c1
  have d2 : ¬ ((m ||| q) &&& p.DEVICE_OUT_WIRED_HEADPHONE ≠ 0) := by
    rw [hq]
    rw [or_pair_and m p.DEVICE_OUT_ANC_HEADSET p.DEVICE_IN_ANC_HEADSET
      p.DEVICE_OUT_WIRED_HEADPHONE (hp.disjoint 7 3 (by decide) (by decide) (by decide))
      (hp.disjoint 14 3 (by decide) (by decide) (by decide))]
    exact c2
  have d3 : ¬ ((m ||| q) &&& p.DEVICE_OUT_EARPIECE ≠ 0 ∨
      (m ||| q) &&& p.DEVICE_IN_BUILTIN_MIC ≠ 0) := by
    rw [hq]
    rw [or_pair_and m p.DEVICE_OUT_ANC_HEADSET p.DEVICE_IN_ANC_HEADSET
      p.DEVICE_OUT_EARPIECE (hp.disjoint 7 0 (by decide) (by decide) (by decide))
      (hp.disjoint 14 0 (by decide) (by decide) (by decide))]
    rw [or_pair_and m p.DEVICE_OUT_ANC_HEADSET p.DEVICE_IN_ANC_HEADSET
      p.DEVICE_IN_BUILTIN_MIC (hp.disjoint 7 9 (by decide) (by decide) (by decide))
      (hp.disjoint 14 9 (by decide) (by decide) (by decide))]
    exact c3
  have d4 : ¬ ((m ||| q) &&& p.DEVICE_OUT_SPEAKER ≠ 0) := by
    rw [hq]
    rw [or_pair_and m p.DEVICE_OUT_ANC_HEADSET p.DEVICE_IN_ANC_HEADSET
      p.DEVICE_OUT_SPEAKER (hp.disjoint 7 1 (by decide) (by decide) (by decide))
      (hp.disjoint 14 1 (by decide) (by decide) (by decide))]
    exact c4
  have d5 : ¬ ((m ||| q) &&& p.DEVICE_OUT_BLUETOOTH_SCO ≠ 0 ∨
      (m ||| q) &&& p.DEVICE_OUT_BLUETOOTH_SCO_HEADSET ≠ 0 ∨
      (m ||| q) &&& p.DEVICE_IN_BLUETOOTH_SCO_HEADSET ≠ 0) := by
    rw [hq]
    rw [or_pair_and m p.DEVICE_OUT_ANC_HEADSET p.DEVICE_IN_ANC_HEADSET
      p.DEVICE_OUT_BLUETOOTH_SCO (hp.disjoint 7 4 (by decide) (by decide) (by decide))
      (hp.disjoint 14 4 (by decide) (by decide) (by decide))]
    rw [or_pair_and m p.DEVICE_OUT_ANC_HEADSET p.DEVICE_IN_ANC_HEADSET
      p.DEVICE_OUT_BLUETOOTH_SCO_HEADSET (hp.disjoint 7 5 (by decide) (by decide) (by decide))
      (hp.disjoint 14 5 (by decide) (by decide) (by decide))]
    rw [or_pair_and m p.DEVICE_OUT_ANC_HEADSET p.DEVICE_IN_ANC_HEADSET
      p.DEVICE_IN_BLUETOOTH_SCO_HEADSET (hp.disjoint 7 10 (by decide) (by decide) (by decide))
      (hp.disjoint 14 10 (by decide) (by decide) (by decide))]
    exact c5
  have d6 : (m ||| q) &&& p.DEVICE_OUT_ANC_HEADSET ≠ 0 ∨
      (m ||| q) &&& p.DEVICE_IN_ANC_HEADSET ≠ 0 := by
    exact c6.imp (and_or_ne_zero _ _ _) (and_or_ne_zero _ _ _)
  rw [inCallSymmetry_rule6 p mode m hm c1 c2 c3 c4 c5 c6, ← hq,
    inCallSymmetry_rule6 p mode (m ||| q) hm d1 d2 d3 d4 d5 d6, ← hq, Nat.or_assoc, Nat.or_self]

/-- Expanding twice when the ANC-headphone test is the first to succeed: the first
expansion adds the ANC headphone and the built-in mic, the built-in mic then makes the
earpiece test the first to succeed, and the second expansion adds the earpiece. -/
theorem inCallSymmetry_twice_rule7 (p : Platform) (hp : p.SingleBits) (mode : Int)
    (m : Nat) (hm : mode = p.MODE_IN_CALL)
    (c1 : ¬ (m &&& p.DEVICE_OUT_WIRED_HEADSET ≠ 0 ∨ m &&& p.DEVICE_IN_WIRED_HEADSET ≠ 0))
    (c2 : ¬ (m &&& p.DEVICE_OUT_WIRED_HEADPHONE ≠ 0))
    (c3 : ¬ (m &&& p.DEVICE_OUT_EARPIECE ≠ 0 ∨ m &&& p.DEVICE_IN_BUILTIN_MIC ≠ 0))
    (c4 : ¬ (m &&& p.DEVICE_OUT_SPEAKER ≠ 0))
    (c5 : ¬ (m &&& p.DEVICE_OUT_BLUETOOTH_SCO ≠ 0 ∨
        m &&& p.DEVICE_OUT_BLUETOOTH_SCO_HEADSET ≠ 0 ∨
        m &&& p.DEVICE_IN_BLUETOOTH_SCO_HEADSET ≠ 0))
    (c6 : ¬ (m &&& p.DEVICE_OUT_ANC_HEADSET ≠ 0 ∨ m &&& p.DEVICE_IN_ANC_HEADSET ≠ 0))
    (c7 : m &&& p.DEVICE_OUT_ANC_HEADPHONE ≠ 0) :
    inCallSymmetry p mode m = m ||| (p.DEVICE_OUT_ANC_HEADPHONE ||| p.DEVICE_IN_BUILTIN_MIC) ∧
    inCallSymmetry p mode (inCallSymmetry p mode m) =
      inCallSymmetry p mode m ||| (p.DEVICE_IN_BUILTIN_MIC ||| p.DEVICE_OUT_EARPIECE) ∧
    inCallSymmetry p mode m &&& p.DEVICE_OUT_EARPIECE = 0 ∧
    inCallSymmetry p mode (inCallSymmetry p mode m) &&& p.DEVICE_OUT_EARPIECE ≠ 0 ∧
    inCallSymmetry p mode (inCallSymmetry p mode (inCallSymmetry p mode m)) =
      inCallSymmetry p mode (inCallSymmetry p mode m) := by
  obtain ⟨q, hq⟩ : ∃ q, q = p.DEVICE_OUT_ANC_HEADPHONE ||| p.DEVICE_IN_BUILTIN_MIC :=
    ⟨_, rfl⟩
  have d1 : ¬ ((m ||| q) &&& p.DEVICE_OUT_WIRED_HEADSET ≠ 0 ∨
      (m ||| q) &&& p.DEVICE_IN_WIRED_HEADSET ≠ 0) := by
    rw [hq]
    rw [or_pair_and m p.DEVICE_OUT_ANC_HEADPHONE p.DEVICE_IN_BUILTIN_MIC
      p.DEVICE_OUT_WIRED_HEADSET (hp.disjoint 8 2 (by decide) (by decide) (by decide))
      (hp.disjoint 9 2 (by decide) (by decide) (by decide))]
    rw [or_pair_and m p.DEVICE_OUT_ANC_HEADPHONE p.DEVICE_IN_BUILTIN_MIC
      p.DEVICE_IN_WIRED_HEADSET (hp.disjoint 8 11 (by decide) (by decide) (by decide))
      (hp.disjoint 9 11 (by decide) (by decide) (by decide))]
    exact c1
  have d2 : ¬ ((m ||| q) &&& p.DEVICE_OUT_WIRED_HEADPHONE ≠ 0) := by
    rw [hq]
    rw [or_pair_and m p.DEVICE_OUT_ANC_HEADPHONE p.DEVICE_IN_BUILTIN_MIC
      p.DEVICE_OUT_WIRED_HEADPHONE (hp.disjoint 8 3 (by decide) (by decide) (by decide))
      (hp.disjoint 9 3 (by decide) (by decide) (by decide))]
    exact c2
  have d3 : (m ||| q) &&& p.DEVICE_OUT_EARPIECE ≠ 0 ∨
      (m ||| q) &&& p.DEVICE_IN_BUILTIN_MIC ≠ 0 := by
    rw [hq]
    exact Or.inr (or_pair_and_right m p.DEVICE_OUT_ANC_HEADPHONE p.DEVICE_IN_BUILTIN_MIC
      (hp.self_ne_zero 9 (by decide)))
  have e1 := inCallSymmetry_rule7 p mode m hm c1 c2 c3 c4 c5 c6 c7
  rw [← hq] at e1
  have e2 := inCallSymmetry_rule3 p mode (m ||| q) hm d1 d2 d3
  have hear : m &&& p.DEVICE_OUT_EARPIECE = 0 := by
    by_contra h
    exact c3 (Or.inl h)
  refine ⟨by rw [e1, hq], by rw [e1, e2], ?_, ?_, ?_⟩
  · rw [e1, hq, or_pair_and m p.DEVICE_OUT_ANC_HEADPHONE p.DEVICE_IN_BUILTIN_MIC
      p.DEVICE_OUT_EARPIECE (hp.disjoint 8 0 (by decide) (by decide) (by decide))
      (hp.disjoint 9 0 (by decide) (by decide) (by decide))]
    exact hear
  · rw [e1, e2]
    exact or_pair_and_right (m ||| q) p.DEVICE_IN_BUILTIN_MIC p.DEVICE_OUT_EARPIECE
      (hp.self_ne_zero 0 (by decide))
  · rw [e1]
    exact inCallSymmetry_twice_rule3 p hp mode (m ||| q) hm d1 d2 d3

/-- C21 as stated fails: on `samplePlatform` in mode `MODE_IN_CALL`, the expansion of
the ANC-headphone bit `0x2000` is `0x42000` (the built-in mic `0x40000` is added), and
the expansion of `0x42000` is `0x42001`: the built-in mic now passes the earpiece test
of line 332, which adds the earpiece bit `0x1`. -/
theorem inCallSymmetry_not_idempotent :
    inCallSymmetry samplePlatform samplePlatform.MODE_IN_CALL 0x2000 = 0x42000 ∧
    inCallSymmetry samplePlatform samplePlatform.MODE_IN_CALL 0x42000 = 0x42001 ∧
    inCallSymmetry samplePlatform samplePlatform.MODE_IN_CALL
        (inCallSymmetry samplePlatform samplePlatform.MODE_IN_CALL 0x2000) ≠
      inCallSymmetry samplePlatform samplePlatform.MODE_IN_CALL 0x2000 := by
  decide

/-- C21, amended: let the device constants be different single bits. For every mode and
every mask for which the ANC-headphone test of line 349 is not the first test of the
chain to succeed, expanding the expanded mask yields the same mask. When that test is
the first to succeed (mode `MODE_IN_CALL`, the mask has the ANC-headphone bit and no
wired-headset, wired-headphone, earpiece, built-in-mic, speaker, Bluetooth SCO or
ANC-headset bit), the first expansion adds the ANC headphone and the built-in mic and
has no earpiece bit, and the second expansion adds the earpiece bit. In every case a
third expansion changes nothing. -/
theorem inCallSymmetry_twice (p : Platform) (hp : p.SingleBits) (mode : Int) (m : Nat) :
    (¬ ancHeadphoneFirst p mode m →
      inCallSymmetry p mode (inCallSymmetry p mode m) = inCallSymmetry p mode m) ∧
    (ancHeadphoneFirst p mode m →
      inCallSymmetry p mode m =
        m ||| (p.DEVICE_OUT_ANC_HEADPHONE ||| p.DEVICE_IN_BUILTIN_MIC) ∧
      inCallSymmetry p mode (inCallSymmetry p mode m) =
        inCallSymmetry p mode m ||| (p.DEVICE_IN_BUILTIN_MIC ||| p.DEVICE_OUT_EARPIECE) ∧
      inCallSymmetry p mode m &&& p.DEVICE_OUT_EARPIECE = 0 ∧
      inCallSymmetry p mode (inCallSymmetry p mode m) &&& p.DEVICE_OUT_EARPIECE ≠ 0) ∧
    inCallSymmetry p mode (inCallSymmetry p mode (inCallSymmetry p mode m)) =
      inCallSymmetry p mode (inCallSymmetry p mode m) := by
  by_cases hm : mode = p.MODE_IN_CALL
  · by_cases c1 : m &&& p.DEVICE_OUT_WIRED_HEADSET ≠ 0 ∨ m &&& p.DEVICE_IN_WIRED_HEADSET ≠ 0
    · have h := inCallSymmetry_twice_rule1 p mode m hm c1
      exact ⟨fun _ => h, fun ha => absurd c1 ha.2.1, by rw [h, h]⟩
    by_cases c2 : m &&& p.DEVICE_OUT_WIRED_HEADPHONE ≠ 0
    · have h := inCallSymmetry_twice_rule2 p hp mode m hm c1 c2
      exact ⟨fun _ => h, fun ha => absurd c2 ha.2.2.1, by rw [h, h]⟩
    by_cases c3 : m &&& p.DEVICE_OUT_EARPIECE ≠ 0 ∨ m &&& p.DEVICE_IN_BUILTIN_MIC ≠ 0
    · have h := inCallSymmetry_twice_rule3 p hp mode m hm c1 c2 c3
      exact ⟨fun _ => h, fun ha => absurd c3 ha.2.2.2.1, by rw [h, h]⟩
    by_cases c4 : m &&& p.DEVICE_OUT_SPEAKER ≠ 0
    · have h := inCallSymmetry_twice_rule4 p hp mode m hm c1 c2 c3 c4
      exact ⟨fun _ => h, fun ha => absurd c4 ha.2.2.2.2.1, by rw [h, h]⟩
    by_cases c5 : m &&& p.DEVICE_OUT_BLUETOOTH_SCO ≠ 0 ∨
        m &&& p.DEVICE_OUT_BLUETOOTH_SCO_HEADSET ≠ 0 ∨
        m &&& p.DEVICE_IN_BLUETOOTH_SCO_HEADSET ≠ 0
    · have h := inCallSymmetry_twice_rule5 p hp mode m hm c1 c2 c3 c4 c5
      exact ⟨fun _ => h, fun ha => absurd c5 ha.2.2.2.2.2.1, by rw [h, h]⟩
    by_cases c6 : m &&& p.DEVICE_OUT_ANC_HEADSET ≠ 0 ∨ m &&& p.DEVICE_IN_ANC_HEADSET ≠ 0
    · have h := inCallSymmetry_twice_rule6 p hp mode m hm c1 c2 c3 c4 c5 c6
      exact ⟨fun _ => h, fun ha => absurd c6 ha.2.2.2.2.2.2.1, by rw [h, h]⟩
    by_cases c7 : m &&& p.DEVICE_OUT_ANC_HEADPHONE ≠ 0
    · obtain ⟨h1, h2, h3, h4, h5⟩ :=
        inCallSymmetry_twice_rule7 p hp mode m hm c1 c2 c3 c4 c5 c6 c7
      exact ⟨fun hn => absurd ⟨hm, c1, c2, c3, c4, c5, c6, c7⟩ hn,
        fun _ => ⟨h1, h2, h3, h4⟩, h5⟩
    · have h := inCallSymmetry_no_rule p mode m hm c1 c2 c3 c4 c5 c6 c7
      exact ⟨fun _ => by rw [h, h], fun ha => absurd ha.2.2.2.2.2.2.2 c7, by rw [h, h, h]⟩
  · have e : ∀ x, inCallSymmetry p mode x = x := by
      intro x
      unfold inCallSymmetry
      rw [if_neg hm]
    exact ⟨fun _ => by rw [e, e], fun ha => absurd ha.1 hm, by rw [e, e, e]⟩

/-- The expansion on `samplePlatform` in mode `MODE_IN_CALL`: repeated for the speaker
bit `0x2`, where the speaker test is the first to succeed, and for the ANC-headphone
bit `0x2000`. -/
theorem inCallSymmetry_twice_witness :
    samplePlatform.SingleBits ∧
    ¬ ancHeadphoneFirst samplePlatform samplePlatform.MODE_IN_CALL 0x2 ∧
    inCallSymmetry samplePlatform samplePlatform.MODE_IN_CALL
        (inCallSymmetry samplePlatform samplePlatform.MODE_IN_CALL 0x2) =
      inCallSymmetry samplePlatform samplePlatform.MODE_IN_CALL 0x2 :=
  ⟨by decide, by decide,
    (inCallSymmetry_twice samplePlatform (by decide) samplePlatform.MODE_IN_CALL 0x2).1
      (by decide)⟩

/-! ## The ANC request without a headset -/

/-- With ANC active, an empty request and the newest session on no wired headset, the
ANC substitution ends in the `return` of line 313. -/
theorem ancSubstitute_ignored (p : Platform) (l : List alsa_handle_t) (it : alsa_handle_t)
    (hlast : l.getLast? = some it)
    (ho : it.devices &&& p.DEVICE_OUT_WIRED_HEADSET = 0)
    (hi : it.devices &&& p.DEVICE_IN_WIRED_HEADSET = 0) :
    ancSubstitute p true l 0 = AncResult.ignored := by
  unfold ancSubstitute
  simp [hlast, ho, hi]

/-- C22: when ANC is active, the requested mask is empty and the newest session of the
list has neither the wired-headset output bit nor the wired-headset input bit,
`doRouting` returns with the object exactly as it was, for every mode, every other
flag and every verb of the sequencer: the session list, `mIsVoiceCallActive`,
`mIsFmActive` and the calls made to the transport and the sequencer are unchanged. A
`setParameters` request with the dual-mic key, or with the TTY key, therefore changes
the flag and nothing else. -/
theorem doRouting_anc_without_headset (p : Platform) (s : AudioHardwareALSA)
    (it : alsa_handle_t) (hanc : s.mAncActive = true)
    (hlast : s.mDeviceList.getLast? = some it)
    (ho : it.devices &&& p.DEVICE_OUT_WIRED_HEADSET = 0)
    (hi : it.devices &&& p.DEVICE_IN_WIRED_HEADSET = 0) :
    (∀ use_case, doRouting p use_case 0 s = Outcome.ok s) ∧
    (∀ use_case value,
      setParameters p use_case { noParameters with dualMic := some value } s =
        Outcome.ok (p.BAD_VALUE, { s with mDmicActive := value == "true" })) ∧
    (∀ use_case value, ∃ status,
      setParameters p use_case { noParameters with ttyMode := some value } s =
        Outcome.ok (status, { s with mTtyMode := ttyModeOf value })) := by
  have hr : ∀ (use_case : Option String) (s1 : AudioHardwareALSA),
      s1.mAncActive = true → s1.mDeviceList = s.mDeviceList →
      doRouting p use_case 0 s1 = Outcome.ok s1 := by
    intro use_case s1 h1 h2
    have ha : ancSubstitute p s1.mAncActive s1.mDeviceList 0 = AncResult.ignored := by
      rw [h1, h2]
      exact ancSubstitute_ignored p _ it hlast ho hi
    unfold doRouting
    rw [ha]
    split_ifs <;> rfl
  refine ⟨fun use_case => hr use_case s hanc rfl, ?_, ?_⟩
  · intro use_case value
    rw [setParameters_dualMic_eq,
      hr (use_case 1) { s with mDmicActive := value == "true" } hanc rfl]
    rfl
  · intro use_case value
    by_cases hmode : s.mMode = p.MODE_IN_CALL
    · refine ⟨p.BAD_VALUE, ?_⟩
      rw [setParameters_tty_eq p use_case value s hmode,
        hr (use_case 0) { s with mTtyMode := ttyModeOf value } hanc rfl]
      rfl
    · refine ⟨p.NO_ERROR, ?_⟩
      have hm : ({ s with mTtyMode := ttyModeOf value } : AudioHardwareALSA).mMode ≠
          p.MODE_IN_CALL := hmode
      unfold setParameters
      show (if _ then _ else _) = _
      rw [if_pos hm]

/-- The request on `samplePlatform` in mode `MODE_IN_CALL` with no voice call active,
ANC on and one playback session on the speaker: no voice call is started. -/
theorem doRouting_anc_without_headset_witness :
    ({ samplePlayback with mAncActive := true } : AudioHardwareALSA).mMode =
      samplePlatform.MODE_IN_CALL ∧
    ({ samplePlayback with mAncActive := true } : AudioHardwareALSA).mIsVoiceCallActive =
      false ∧
    ∀ use_case, doRouting samplePlatform use_case 0 { samplePlayback with mAncActive := true } =
      Outcome.ok { samplePlayback with mAncActive := true } :=
  ⟨rfl, rfl,
    (doRouting_anc_without_headset samplePlatform { samplePlayback with mAncActive := true }
      (outputHandle samplePlatform none 4096 2) rfl (by decide) (by decide) (by decide)).1⟩

/-! ## The TTY key outside a call -/

/-- C23: for every `setParameters` request that holds the TTY key while the mode is not
`MODE_IN_CALL`, whatever other keys it holds, the call writes `mTtyMode`, returns
`NO_ERROR` and does nothing else: `mDmicActive`, `mAncActive`, `mBluetoothVGS`, the
session list and the calls made to the transport are as before. -/
theorem setParameters_tty_outside_call (p : Platform) (use_case : Nat → Option String)
    (param : AudioParameter) (s : AudioHardwareALSA) (value : String)
    (htty : param.ttyMode = some value) (hmode : s.mMode ≠ p.MODE_IN_CALL) :
    setParameters p use_case param s =
      Outcome.ok (p.NO_ERROR, { s with mTtyMode := ttyModeOf value }) := by
  have hm : ({ s with mTtyMode := ttyModeOf value } : AudioHardwareALSA).mMode ≠
      p.MODE_IN_CALL := hmode
  unfold setParameters
  rw [htty]
  show (if _ then _ else _) = _
  rw [if_pos hm]

/-- A request on `samplePlatform` in mode `MODE_NORMAL` that holds the TTY key together
with the dual-mic, ANC, routing, sample-rate and VGS keys and one unknown key. -/
theorem setParameters_tty_outside_call_witness :
    sampleAfterOpen.mMode ≠ samplePlatform.MODE_IN_CALL ∧
    setParameters samplePlatform (fun _ => some "HiFi")
        { ttyMode := some "hco", dualMic := some "true", anc := some "true",
          routing := some 4, btRate := some 16000, vgs := some "on", others := 1 }
        sampleAfterOpen =
      Outcome.ok (samplePlatform.NO_ERROR,
        { sampleAfterOpen with mTtyMode := TtyMode.TTY_HCO }) :=
  ⟨by decide,
    setParameters_tty_outside_call samplePlatform (fun _ => some "HiFi")
      { ttyMode := some "hco", dualMic := some "true", anc := some "true",
        routing := some 4, btRate := some 16000, vgs := some "on", others := 1 }
      sampleAfterOpen "hco" rfl (by decide)⟩

/-! ## The newest session of an empty list -/

/-- C24 fails in the code: the constructor's state is reachable and its list is empty.
There `doRouting(0)`, and with it a `setParameters` request with the dual-mic key,
reads `it->devices` through `--mDeviceList.end()` (lines 317-319) although no session
exists; a request for the speaker reaches the default branch and routes through the
same iterator (lines 464-466). After the only session, a voice call, is erased
(lines 406-407), the route call is made while the list is empty. -/
theorem newest_session_missing :
    Reachable samplePlatform (initial samplePlatform.MODE_NORMAL) ∧
    (initial samplePlatform.MODE_NORMAL).mDeviceList = [] ∧
    doRouting samplePlatform none 0 (initial samplePlatform.MODE_NORMAL) =
      Outcome.fault Fault.emptyListRead ∧
    setParameters samplePlatform (fun _ => none) { noParameters with dualMic := some "true" }
        (initial samplePlatform.MODE_NORMAL) =
      Outcome.fault Fault.emptyListRead ∧
    doRouting samplePlatform none 2 (initial samplePlatform.MODE_NORMAL) =
      Outcome.ok { initial samplePlatform.MODE_NORMAL with
        calls := [Call.route HandleRef.pastEnd 2 0 TtyMode.TTY_OFF] } ∧
    Reachable samplePlatform sampleCallEnding ∧
    ∃ s1 x, doRouting samplePlatform (some "Voice Call") 2 sampleCallEnding = Outcome.ok s1 ∧
      s1.mDeviceList = [] ∧
      s1.calls.getLast? = some (Call.route (HandleRef.erased x) 2 0 TtyMode.TTY_OFF) :=
  ⟨Reachable.start samplePlatform.MODE_NORMAL, rfl, by decide, by decide, by decide,
    Reachable.setMode sampleCallStarted samplePlatform.MODE_NORMAL
      (Reachable.routing (initial samplePlatform.MODE_IN_CALL) sampleCallStarted none 2
        (Reachable.start samplePlatform.MODE_IN_CALL) (by decide)),
    _, voiceHandle samplePlatform none 4096 0x80000002, rfl, by decide, by decide⟩

/-! ## The start of a voice call -/

/-- The rounding of a size `n` with `1 ≤ n < 2 ^ w` is the largest power of two that
does not exceed `n`. -/
theorem roundBufferSize_pow (w n : Nat) (h1 : 1 ≤ n) (hw : n < 2 ^ w) :
    ∃ k, 2 ^ k ≤ n ∧ n < 2 ^ (k + 1) ∧ roundBufferSize w n = some (2 ^ k) := by
  have hn0 : n ≠ 0 := by omega
  have ht := Nat.log2_self_le hn0
  have ht1 : n < 2 ^ (n.log2 + 1) := Nat.lt_log2_self
  have htw : n.log2 < w := by
    by_contra hge
    have hle : 2 ^ w ≤ 2 ^ n.log2 := Nat.pow_le_pow_right (by decide) (Nat.le_of_not_lt hge)
    omega
  refine ⟨n.log2, ht, ht1, ?_⟩
  unfold roundBufferSize
  have hw0 : 0 < w := by omega
  rw [Nat.mod_eq_of_lt hw, Nat.mod_eq_of_lt (Nat.one_lt_two_pow (by omega))]
  have := loop_from w n _ ht ht1 hw n.log2 0 (w + 1) (by omega) (by omega)
  simpa using this

/-- The ANC substitution has no value of its own only for the empty request on the
empty list. -/
theorem ancSubstitute_emptyList (p : Platform) (anc : Bool) (l : List alsa_handle_t)
    (device : Nat) (h : ancSubstitute p anc l device = AncResult.emptyList) :
    l = [] ∧ device = 0 := by
  unfold ancSubstitute at h
  split_ifs at h with h1 h2 h3 h4 h5
  · split at h
    · rename_i hl
      exact ⟨List.getLast?_eq_none_iff.1 hl, h4⟩
    · split_ifs at h
  · split at h
    · rename_i hl
      exact ⟨List.getLast?_eq_none_iff.1 hl, h5.2⟩
    · split_ifs at h

/-- C3: take a state with mode `MODE_IN_CALL` and no voice call active, and let `d` be
the value that lines 296-324 leave in `device`, whichever way they got it: computed
from the request, or, for the empty request, taken from what `it->devices` holds. The
code from line 325 on then appends exactly one voice session at the end of the list
and keeps every session registered before in place and in order. The new session has
the voice-call verb or the voice modifier as use case, format `S16_LE`, the voice
channel count, sample rate and latency, as buffer size the largest power of two that
does not exceed `DEFAULT_BUFFER_SIZE`, and as devices the mask `d` after the in-call
expansion and the dual-mic adjustment. `mIsVoiceCallActive` is set, and the four calls
of lines 366-397 are made. This is what `doRouting` does for every request that is no
capture request and for which the ANC substitution returns `d`; the substitution
yields neither a mask nor the `return` of line 313 only for the empty request on the
empty list, where `d` is whatever the read through `--end()` leaves in `device`. -/
theorem start_voice_appends_one_session (p : Platform) (s : AudioHardwareALSA)
    (use_case : Option String) (d : Nat)
    (hmode : s.mMode = p.MODE_IN_CALL) (hv : s.mIsVoiceCallActive = false)
    (h1 : 1 ≤ p.DEFAULT_BUFFER_SIZE) (hw : p.DEFAULT_BUFFER_SIZE < 2 ^ p.wordBits) :
    ∃ k h,
      2 ^ k ≤ p.DEFAULT_BUFFER_SIZE ∧ p.DEFAULT_BUFFER_SIZE < 2 ^ (k + 1) ∧
      (h.useCase = p.SND_USE_CASE_VERB_VOICECALL ∨
        h.useCase = p.SND_USE_CASE_MOD_PLAY_VOICE) ∧
      isVoiceUseCase p h = true ∧
      h.format = p.SNDRV_PCM_FORMAT_S16_LE ∧ h.channels = p.VOICE_CHANNEL_MODE ∧
      h.sampleRate = p.VOICE_SAMPLING_RATE ∧ h.latency = p.VOICE_LATENCY ∧
      h.bufferSize = 2 ^ k ∧
      h.devices = dualMic p s.mDmicActive (inCallSymmetry p s.mMode d) ∧
      routeBranch p use_case (dualMic p s.mDmicActive (inCallSymmetry p s.mMode d)) s =
        Outcome.ok { s with
          mIsVoiceCallActive := true
          mDeviceList := s.mDeviceList ++ [h]
          calls := s.calls ++
            [Call.getVerb,
             Call.route (HandleRef.node h) (h.devices % 2 ^ 32) s.mMode s.mTtyMode,
             if h.useCase = p.SND_USE_CASE_VERB_VOICECALL then
               Call.setVerb p.SND_USE_CASE_VERB_VOICECALL
             else Call.setModifier p.SND_USE_CASE_MOD_PLAY_VOICE,
             Call.startVoiceCall (HandleRef.node h)] } ∧
      (∀ device, isCaptureRequest p device = false →
        ancSubstitute p s.mAncActive s.mDeviceList device = AncResult.device d →
        doRouting p use_case device s =
          routeBranch p use_case (dualMic p s.mDmicActive (inCallSymmetry p s.mMode d)) s) ∧
      (∀ device, ancSubstitute p s.mAncActive s.mDeviceList device = AncResult.emptyList →
        s.mDeviceList = [] ∧ device = 0) := by
  obtain ⟨k, hk1, hk2, hk⟩ := roundBufferSize_pow p.wordBits p.DEFAULT_BUFFER_SIZE h1 hw
  refine ⟨k, voiceHandle p use_case (2 ^ k)
    (dualMic p s.mDmicActive (inCallSymmetry p s.mMode d)), hk1, hk2, ?_,
    isVoiceUseCase_voiceHandle p use_case _ _, rfl, rfl, rfl, rfl, rfl, rfl, ?_, ?_, ?_⟩
  · unfold voiceHandle
    cases verbInactive p use_case
    · exact Or.inr rfl
    · exact Or.inl rfl
  · have hc : s.mMode = p.MODE_IN_CALL ∧ s.mIsVoiceCallActive = false := ⟨hmode, hv⟩
    unfold routeBranch
    simp only
    rw [if_pos hc, hk]
    rfl
  · intro device hcap hanc
    exact doRouting_eq_routeBranch p use_case device d s hcap hanc
  · intro device h
    exact ancSubstitute_emptyList p _ _ device h

/-- The start of a voice call on `samplePlatform` in two states with mode
`MODE_IN_CALL`: `samplePlayback`, which holds a playback session, with the speaker
`0x2` left in `device`, and the constructor's state, whose list is empty, with the
empty mask left in `device`. -/
theorem start_voice_appends_one_session_witness :
    (∃ k h,
      2 ^ k ≤ samplePlatform.DEFAULT_BUFFER_SIZE ∧
      samplePlatform.DEFAULT_BUFFER_SIZE < 2 ^ (k + 1) ∧
      (h.useCase = samplePlatform.SND_USE_CASE_VERB_VOICECALL ∨
        h.useCase = samplePlatform.SND_USE_CASE_MOD_PLAY_VOICE) ∧
      isVoiceUseCase samplePlatform h = true ∧
      h.format = samplePlatform.SNDRV_PCM_FORMAT_S16_LE ∧
      h.channels = samplePlatform.VOICE_CHANNEL_MODE ∧
      h.sampleRate = samplePlatform.VOICE_SAMPLING_RATE ∧
      h.latency = samplePlatform.VOICE_LATENCY ∧
      h.bufferSize = 2 ^ k ∧
      h.devices = dualMic samplePlatform samplePlayback.mDmicActive
        (inCallSymmetry samplePlatform samplePlayback.mMode 2) ∧
      routeBranch samplePlatform (some "HiFi")
          (dualMic samplePlatform samplePlayback.mDmicActive
            (inCallSymmetry samplePlatform samplePlayback.mMode 2)) samplePlayback =
        Outcome.ok { samplePlayback with
          mIsVoiceCallActive := true
          mDeviceList := samplePlayback.mDeviceList ++ [h]
          calls := samplePlayback.calls ++
            [Call.getVerb,
             Call.route (HandleRef.node h) (h.devices % 2 ^ 32) samplePlayback.mMode
               samplePlayback.mTtyMode,
             if h.useCase = samplePlatform.SND_USE_CASE_VERB_VOICECALL then
               Call.setVerb samplePlatform.SND_USE_CASE_VERB_VOICECALL
             else Call.setModifier samplePlatform.SND_USE_CASE_MOD_PLAY_VOICE,
             Call.startVoiceCall (HandleRef.node h)] } ∧
      (∀ device, isCaptureRequest samplePlatform device = false →
        ancSubstitute samplePlatform samplePlayback.mAncActive samplePlayback.mDeviceList
          device = AncResult.device 2 →
        doRouting samplePlatform (some "HiFi") device samplePlayback =
          routeBranch samplePlatform (some "HiFi")
            (dualMic samplePlatform samplePlayback.mDmicActive
              (inCallSymmetry samplePlatform samplePlayback.mMode 2)) samplePlayback) ∧
      (∀ device, ancSubstitute samplePlatform samplePlayback.mAncActive
          samplePlayback.mDeviceList device = AncResult.emptyList →
        samplePlayback.mDeviceList = [] ∧ device = 0)) ∧
    doRouting samplePlatform (some "HiFi") 2 samplePlayback = Outcome.ok sampleInCall ∧
    routeBranch samplePlatform none
        (dualMic samplePlatform false (inCallSymmetry samplePlatform 2 0))
        (initial samplePlatform.MODE_IN_CALL) =
      Outcome.ok { initial samplePlatform.MODE_IN_CALL with
        mIsVoiceCallActive := true
        mDeviceList := [voiceHandle samplePlatform none 4096 0]
        calls :=
          [Call.getVerb,
           Call.route (HandleRef.node (voiceHandle samplePlatform none 4096 0)) 0 2
             TtyMode.TTY_OFF,
           Call.setVerb "Voice Call",
           Call.startVoiceCall (HandleRef.node (voiceHandle samplePlatform none 4096 0))] } :=
  ⟨start_voice_appends_one_session samplePlatform samplePlayback (some "HiFi") 2 rfl rfl
      (by decide) (by decide),
    by decide, by decide⟩

end AlsaSound
